import Mathlib

/-!
# Clixon: leafref path-arg evaluation, YANG schema mount, RESTCONF GET and POST

A shallow embedding of `lib/src/clixon_xpath_yang.c` (the restricted XPath
evaluator that resolves a leafref `path` on the schema tree), of the
mount-point bookkeeping of `lib/src/clixon_yang_schema_mount.c`, and of the
handlers `api_data_get2` (`apps/restconf/restconf_methods_get.c`),
`api_data_post` and `api_operations_post`
(`apps/restconf/restconf_methods_post.c`).

Conventions of the embedding

* A C pointer is an `Option`: `none` is `NULL`.
* A `yang_stmt *` is the identity of a statement (`Nat`); what the YANG
  library (`clixon_yang.c`, not part of the sources embedded here) answers
  about a statement is a field of `yang_api`, so every theorem holds for
  every schema tree and every behaviour of those helpers.
* `malloc` is taken to succeed (`xy_dup` always returns a context).
* An out-parameter `xp_yang_ctx **xyr` is the `Option` holding what the
  callee stored; every caller in the file passes the address of a variable
  initialised to `NULL`, so `none` also reads "nothing stored".
* Dereferencing `NULL` is the distinguished outcome `xp_res.segv`.
-/

set_option autoImplicit false

namespace Clixon

/-! ## Data model -/

/-- Identity of a YANG statement: what a non-NULL `yang_stmt *` points to. -/
abbrev yang_stmt := Nat

/-- The statement keywords of `enum rfc_6020` that the embedded code
distinguishes or that the examples use. -/
inductive rfc_6020
  | Y_ANYDATA
  | Y_CONTAINER
  | Y_EXTENSION
  | Y_LEAF
  | Y_LEAF_LIST
  | Y_LIST
  | Y_MODULE
  | Y_UNKNOWN
  | Y_MOUNTS
  | Y_DOMAIN
  | Y_SPEC
  deriving DecidableEq, Repr

/-- Flag bits of a YANG statement used by the schema-mount code. Each is its
own bit of the statement's flag word. -/
inductive yang_flag
  | YANG_FLAG_MTPOINT_POTENTIAL
  | YANG_FLAG_MOUNTPOINT
  | YANG_FLAG_SPEC_MOUNT
  deriving DecidableEq, Repr

/-- What `yang_extension_value(y, name, ns, &exist, &value)` leaves behind:
its return value and the two out-parameters (`exist` starts at 0 and `value`
at NULL in the caller). -/
structure ext_value where
  retval : Int
  exist : Int
  value : Option String
  deriving DecidableEq, Repr

/-- The YANG statement tree as seen through the accessors of `clixon_yang.c`
and `clixon_yang_module.c`. Pointer arguments and results are `Option`s. -/
structure yang_api where
  /-- `yang_keyword_get(ys)` -/
  yang_keyword_get : Option yang_stmt → rfc_6020
  /-- `yang_parent_get(ys)` -/
  yang_parent_get : Option yang_stmt → Option yang_stmt
  /-- `ys_module(ys)`: the module a statement belongs to -/
  ys_module : Option yang_stmt → Option yang_stmt
  /-- `ys_spec(ys)`: the top-level yang spec above a statement -/
  ys_spec : Option yang_stmt → Option yang_stmt
  /-- `ys_mounts(ys)`: the top-level mounts root above a statement -/
  ys_mounts : Option yang_stmt → Option yang_stmt
  /-- `yang_find_module_by_prefix_yspec(yspec, prefix)` -/
  yang_find_module_by_prefix_yspec : Option yang_stmt → String → Option yang_stmt
  /-- `yang_find_module_by_prefix(ys, prefix)` -/
  yang_find_module_by_prefix : Option yang_stmt → String → Option yang_stmt
  /-- `yang_find_schemanode(ys, name)` -/
  yang_find_schemanode : Option yang_stmt → Option String → Option yang_stmt
  /-- the children `yn_iter(ys, &inext)` hands out, in order -/
  yn_children : yang_stmt → List yang_stmt
  /-- `yang_cvec_get(ys)`: the names of the variables in the statement's
  cligen vector, `none` when the statement has no vector -/
  yang_cvec_get : yang_stmt → Option (List String)
  /-- `yang_flag_get(ys, flag) != 0` -/
  yang_flag_get : yang_stmt → yang_flag → Bool
  /-- `yang_extension_value(y, name, ns, &exist, &value)` -/
  yang_extension_value : yang_stmt → String → String → ext_value

/-- The result types of `enum xp_objtype`. -/
inductive xp_objtype
  | XT_NODESET
  | XT_BOOL
  | XT_NUMBER
  | XT_STRING
  deriving DecidableEq, Repr

/-- `struct xp_yang_ctx`: a single yang node context. -/
structure xp_yang_ctx where
  xy_type : xp_objtype
  xy_node : Option yang_stmt
  xy_bool : Int
  xy_initial : Option yang_stmt
  deriving DecidableEq, Repr

/-- The node kinds of `enum xp_type` of the XPath parse tree. The last two
are the kinds `xp_yang_eval` does not name and so rejects in its `default`
branch. -/
inductive xp_type
  | XP_EXP
  | XP_AND
  | XP_RELEX
  | XP_ADD
  | XP_UNION
  | XP_PATHEXPR
  | XP_FILTEREXPR
  | XP_LOCPATH
  | XP_ABSPATH
  | XP_RELLOCPATH
  | XP_STEP
  | XP_NODE
  | XP_NODE_FN
  | XP_PRED
  | XP_PRI0
  | XP_PRIME_NR
  | XP_PRIME_STR
  | XP_PRIME_FN
  deriving DecidableEq, Repr

/-- A `xpath_tree *`: `null` is the NULL pointer, `node` the fields of
`struct xpath_tree` that the evaluator reads (`xs_type`, `xs_int`, `xs_s0`,
`xs_s1` and the two children `xs_c0`, `xs_c1`). -/
inductive xpath_tree
  | null
  | node (xs_type : xp_type) (xs_int : Int) (xs_s0 xs_s1 : Option String)
      (xs_c0 xs_c1 : xpath_tree)
  deriving DecidableEq, Repr

/-- Modelled from the spec: `enum axis_type` is declared in `clixon_xpath.h`,
which is not among the sources; only that the cases of a `switch` differ is
used. `A_NAN` is the "no axis" value the parser stores in non-step nodes. -/
def A_NAN : Int := 0

/-- Modelled from the spec: the `child` axis of `enum axis_type`. -/
def A_CHILD : Int := 4

/-- Modelled from the spec: the `descendant` axis of `enum axis_type`. -/
def A_DESCENDANT : Int := 5

/-- Modelled from the spec: the `parent` axis of `enum axis_type`. -/
def A_PARENT : Int := 10

/-- Modelled from the spec: the `self` axis of `enum axis_type`. -/
def A_SELF : Int := 13

/-- Modelled from the spec: the operator `=` of `enum xp_op`. -/
def XO_EQ : Int := 7

/-- Modelled from the spec: the operator `!=` of `enum xp_op`. -/
def XO_NE : Int := 8

/-- Modelled from the spec: `current()` in `enum clixon_xpath_function`. -/
def XPATHFN_CURRENT : Int := 0

/-- Modelled from the spec: `deref()` in `enum clixon_xpath_function`. -/
def XPATHFN_DEREF : Int := 2

/-- Outcome of one of the evaluator functions.
`ret retval xyr xy`: the function returned `retval`, `*xyr` holds `xyr`, and
the context object the caller passed in now holds `xy`. -/
inductive xp_res
  | segv
  | ret (retval : Int) (xyr : Option xp_yang_ctx) (xy : xp_yang_ctx)
  deriving DecidableEq, Repr

/-! ## clixon_xpath_yang.c -/

/-- `xy_dup`: a copy of the context, or a zeroed node-set context for NULL. -/
def xy_dup (xy0 : Option xp_yang_ctx) : xp_yang_ctx :=
  match xy0 with
  | some c => c
  | none => { xy_type := .XT_NODESET, xy_node := none, xy_bool := 0, xy_initial := none }

/-- `xp_yang_op_eq`: the equality operator; the pair is the return value and
what it stored in `*xyr`. -/
def xp_yang_op_eq (xy1 xy2 : Option xp_yang_ctx) : Int × Option xp_yang_ctx :=
  let xy := xy_dup xy1
  match xy1, xy2 with
  | some c1, some c2 =>
    if c1.xy_node = none ∨ c2.xy_node = none then (-1, none)
    else (0, some { xy with xy_type := .XT_BOOL, xy_bool := 1, xy_node := none })
  | _, _ => (-1, none)

/-- The "kludge with prefixes" of `xp_yang_eval_step` (lines 167-179): the
statement in which the name of a child step is looked up. -/
def step_lookup_base (env : yang_api) (ys : Option yang_stmt) (pfx : Option String) :
    Option yang_stmt :=
  match pfx with
  | none => ys
  | some p =>
    if env.yang_keyword_get ys = .Y_SPEC then
      match env.yang_find_module_by_prefix_yspec ys p with
      | some ys1 => some ys1
      | none => ys
    else if env.yang_keyword_get ys = .Y_MODULE then
      let ys1 := match env.yang_find_module_by_prefix ys p with
        | some m => some m
        | none => env.yang_find_module_by_prefix_yspec (env.ys_spec ys) p
      match ys1 with
      | some m => some m
      | none => ys
    else ys

/-- The tail of `xp_yang_eval_step` (lines 205-218): evaluate the predicates
`xs_c1` on the new context, or hand the new context out. `eval_c1 xy` stands
for the call `xp_yang_eval(xy, xptree->xs_c1, xyr)`. -/
def step_tail (eval_c1 : xp_yang_ctx → xp_res) (xy0 xy : xp_yang_ctx)
    (xs_c1 : xpath_tree) : xp_res :=
  match xs_c1 with
  | .null => .ret 0 (some xy) xy0
  | .node _ _ _ _ _ _ =>
    match eval_c1 xy with
    | .segv => .segv
    | .ret r xyr _ => if r < 0 then .ret (-1) xyr xy0 else .ret 0 xyr xy0

/-- Where the `switch` on the axis of `xp_yang_eval_step` (lines 159-204)
leaves: `error` is `goto done`, `ok xy` the exit of lines 181-185 (the name
is not a schema child: `*xyr = xy; goto ok`), `next xy` a `break` with the new
context `xy`. -/
inductive step_axis_res
  | error
  | ok (xy : xp_yang_ctx)
  | next (xy : xp_yang_ctx)
  deriving DecidableEq, Repr

/-- The `switch (xptree->xs_int)` of `xp_yang_eval_step` on the fresh copy
`xy` of the incoming context. -/
def step_axis (env : yang_api) (xy : xp_yang_ctx) (xs_int : Int)
    (nodetest : xpath_tree) : step_axis_res :=
  let ys := xy.xy_node
  if xs_int = A_CHILD then
    match nodetest with
    | .null => .error
    | .node .XP_NODE _ pfx name _ _ =>
      let ys := step_lookup_base env ys pfx
      let xy := { xy with xy_node := env.yang_find_schemanode ys name }
      if xy.xy_node = none then .ok xy else .next xy
    | .node .XP_NODE_FN _ _ _ _ _ => .next xy
    | .node _ _ _ _ _ _ => .error
  else if xs_int = A_PARENT then
    .next { xy with xy_node := env.yang_parent_get ys }
  else .error

/-- `xp_yang_eval_step`. `eval_c1 xy` stands for the recursive call
`xp_yang_eval(xy, xptree->xs_c1, xyr)`. -/
def xp_yang_eval_step (env : yang_api) (eval_c1 : xp_yang_ctx → xp_res)
    (xy0 : xp_yang_ctx) (xptree : xpath_tree) : xp_res :=
  match xptree with
  | .null => .segv
  | .node _ xs_int _ _ nodetest xs_c1 =>
    match step_axis env (xy_dup (some xy0)) xs_int nodetest with
    | .error => .ret (-1) none xy0
    | .ok xy => .ret 0 (some xy) xy0
    | .next xy => step_tail eval_c1 xy0 xy xs_c1

/-- The first half of `xp_yang_eval_predicate` (lines 239-246): the previous
predicates `xs_c0` are evaluated, or the context is copied when there are
none. `eval_c0 xy` stands for `xp_yang_eval(xy, xptree->xs_c0, &xy0)`. -/
def predicate_first (eval_c0 : xp_yang_ctx → xp_res) (xy : xp_yang_ctx)
    (xs_c0 : xpath_tree) : xp_res :=
  match xs_c0 with
  | .node _ _ _ _ _ _ => eval_c0 xy
  | .null => .ret 0 (some (xy_dup (some xy))) xy

/-- `xp_yang_eval_predicate`. `eval_c0 xy` and `eval_c1 xy` stand for the
recursive calls `xp_yang_eval(xy, xptree->xs_c0, &xy0)` and
`xp_yang_eval(xy0, xptree->xs_c1, &xy1)`. -/
def xp_yang_eval_predicate (eval_c0 eval_c1 : xp_yang_ctx → xp_res)
    (xy : xp_yang_ctx) (xptree : xpath_tree) : xp_res :=
  match xptree with
  | .null => .segv
  | .node _ _ _ _ xs_c0 xs_c1 =>
    match predicate_first eval_c0 xy xs_c0 with
    | .segv => .segv
    | .ret r xy0 xy =>
      if r < 0 then .ret (-1) none xy
      else
        match xs_c1 with
        | .null => .ret 0 xy0 xy
        | .node _ _ _ _ _ _ =>
          -- the PredicateExpr is evaluated with the node as the context node
          match xy0 with
          | none => .segv
          | some c0 =>
            match eval_c1 c0 with
            | .segv => .segv
            | .ret r1 xy1 c0 =>
              if r1 < 0 then .ret (-1) none xy
              else
                match xy1 with
                | none => .segv
                | some c1 =>
                  if c1.xy_type = .XT_BOOL ∧ c1.xy_bool ≠ 0 then .ret 0 (some c0) xy
                  else .ret 0 (some { c0 with xy_node := none }) xy

/-- The test at the top of `xp_yang_eval` (line 291): an empty node-set. -/
def xy_empty (xy : xp_yang_ctx) : Bool :=
  xy.xy_type = .XT_NODESET ∧ xy.xy_node = none

/-- The assignment of `*xyr` at the end of `xp_yang_eval` (lines 399-420),
from the three local results. -/
def eval_finish (xs_type : xp_type) (xy : xp_yang_ctx)
    (xy0 xy1 xy2 : Option xp_yang_ctx) : xp_res :=
  match xy2, xy1, xy0 with
  | none, none, none =>
    if xs_type = .XP_ABSPATH then .ret 0 (some (xy_dup (some xy))) xy
    else .ret (-1) none xy
  | some r, _, _ => .ret 0 (some r) xy
  | none, some r, _ => .ret 0 (some r) xy
  | none, none, some r => .ret 0 (some r) xy

/-- The flag `use_xy0` of `xp_yang_eval` (lines 364-375): the second child is
evaluated on the result of the first one. -/
def eval_use_xy0 (xs_type : xp_type) (xs_c1 : xpath_tree) : Bool :=
  match xs_type with
  | .XP_RELLOCPATH => true
  | .XP_ABSPATH => true
  | .XP_PATHEXPR => (xs_c1 != .null)
  | _ => false

/-- The generic traversal of `xp_yang_eval` after the first child has been
evaluated (lines 364-420). `xy0` is the result of the first child, `use_xy0`
the flag of the same name; `eval_c1 c` stands for
`xp_yang_eval(c, xptree->xs_c1, &xy1)`. -/
def eval_second (eval_c1 : xp_yang_ctx → xp_res) (xs_type : xp_type) (xs_int : Int)
    (xs_c1 : xpath_tree) (xy : xp_yang_ctx) (xy0 : Option xp_yang_ctx) : xp_res :=
  let use_xy0 := eval_use_xy0 xs_type xs_c1
  match xs_c1 with
  | .null => eval_finish xs_type xy xy0 none none
  | .node _ _ _ _ _ _ =>
    match (if use_xy0 then xy0 else some xy) with
    | none => .segv
    | some c =>
      match eval_c1 c with
      | .segv => .segv
      | .ret r xy1 c =>
        -- the callee worked on `xy0` or on `xy`, whichever was passed
        let xy0 := if use_xy0 then some c else xy0
        let xy := if use_xy0 then xy else c
        if r < 0 then .ret (-1) none xy
        else
          match xs_type with
          | .XP_RELEX =>
            if xs_int ≠ XO_EQ then .ret (-1) none xy
            else
              let eq := xp_yang_op_eq xy0 xy1
              if eq.1 < 0 then .ret (-1) none xy
              else eval_finish xs_type xy xy0 xy1 eq.2
          | _ => eval_finish xs_type xy xy0 xy1 none

/-- The generic traversal of `xp_yang_eval` (lines 356-420): the first child
is evaluated on `xy`, then `eval_second` does the rest. `eval_c0 c` stands for
`xp_yang_eval(c, xptree->xs_c0, &xy0)` and `eval_c1 c` for
`xp_yang_eval(c, xptree->xs_c1, &xy1)`. -/
def eval_children (eval_c0 eval_c1 : xp_yang_ctx → xp_res) (xs_type : xp_type)
    (xs_int : Int) (xs_c0 xs_c1 : xpath_tree) (xy : xp_yang_ctx) : xp_res :=
  match xs_c0 with
  | .null => eval_second eval_c1 xs_type xs_int xs_c1 xy none
  | .node _ _ _ _ _ _ =>
    match eval_c0 xy with
    | .segv => .segv
    | .ret r xy0 xy =>
      if r < 0 then .ret (-1) none xy
      else eval_second eval_c1 xs_type xs_int xs_c1 xy xy0

/-- `xp_yang_eval`: evaluate a leafref path-arg parse tree on a YANG context.
The first argument of the C function is the non-NULL `xy`. -/
def xp_yang_eval (env : yang_api) (xy : xp_yang_ctx) : xpath_tree → xp_res
  | .null => if xy_empty xy then .ret 0 none xy else .segv
  | .node xs_type xs_int xs_s0 xs_s1 xs_c0 xs_c1 =>
    -- If empty nodeset, quit, cannot continue
    if xy_empty xy then .ret 0 none xy
    else
      -- the generic traversal of the two children
      let children (xy : xp_yang_ctx) : xp_res :=
        eval_children (fun c => xp_yang_eval env c xs_c0) (fun c => xp_yang_eval env c xs_c1)
          xs_type xs_int xs_c0 xs_c1 xy
      -- two-operand forms that a path-arg never has
      let one_arg : xp_res :=
        match xs_c1 with
        | .node _ _ _ _ _ _ => .ret (-1) none xy
        | .null => children xy
      match xs_type with
      | .XP_EXP => one_arg
      | .XP_AND => one_arg
      | .XP_ADD => one_arg
      | .XP_UNION => one_arg
      | .XP_RELEX => children xy
      | .XP_PATHEXPR => children xy
      | .XP_FILTEREXPR => children xy
      | .XP_LOCPATH => children xy
      | .XP_NODE => children xy
      | .XP_NODE_FN => children xy
      | .XP_RELLOCPATH => children xy
      | .XP_PRIME_FN =>
        match xs_s0 with
        | some _ =>
          if xs_int = XPATHFN_CURRENT then
            let r := xy_dup (some xy)
            .ret 0 (some { r with xy_node := r.xy_initial }) xy
          else .ret (-1) none xy
        | none => children xy
      | .XP_PRIME_STR => .ret 0 (some (xy_dup (some xy))) xy
      | .XP_ABSPATH =>
        -- Set context node to top node, and nodeset to that node only
        if env.yang_keyword_get xy.xy_node ≠ .Y_SPEC then
          children { xy with xy_node := env.ys_module xy.xy_node }
        else children xy
      | .XP_PRED =>
        match xp_yang_eval_predicate (fun c => xp_yang_eval env c xs_c0)
            (fun c => xp_yang_eval env c xs_c1) xy
            (.node xs_type xs_int xs_s0 xs_s1 xs_c0 xs_c1) with
        | .segv => .segv
        | .ret r xyr xy => if r < 0 then .ret (-1) xyr xy else .ret 0 xyr xy
      | .XP_STEP =>
        match xp_yang_eval_step env (fun c => xp_yang_eval env c xs_c1) xy
            (.node xs_type xs_int xs_s0 xs_s1 xs_c0 xs_c1) with
        | .segv => .segv
        | .ret r xyr xy => if r < 0 then .ret (-1) xyr xy else .ret 0 xyr xy
      | .XP_PRI0 => .ret (-1) none xy
      | .XP_PRIME_NR => .ret (-1) none xy

/-- Result of `yang_path_arg`: the return value and what was stored in
`*yref` (`none`: nothing was stored, `some p`: the pointer `p`). -/
inductive path_arg_res
  | segv
  | ret (retval : Int) (yref : Option (Option yang_stmt))
  deriving DecidableEq, Repr

/-- `yang_path_arg`: resolve a yang node given a start yang node and a leafref
path-arg. `xpath_parse` is the XPath parser (`clixon_xpath_parse.y`, not among
the sources): `none` is its error return. -/
def yang_path_arg (env : yang_api) (xpath_parse : String → Option xpath_tree)
    (ys : Option yang_stmt) (path_arg : Option String) : path_arg_res :=
  match path_arg with
  | none => .ret (-1) none
  | some s =>
    match xpath_parse s with
    | none => .ret (-1) none
    | some xptree =>
      let xy := xy_dup none
      let xy := { xy with xy_node := ys, xy_initial := ys }
      match xp_yang_eval env xy xptree with
      | .segv => .segv
      | .ret r xyr _ =>
        if r < 0 then .ret (-1) none
        else
          match xyr with
          | some c => .ret 0 (some c.xy_node)
          | none => .ret 0 none

/-! ### The calls of an evaluation

`xp_yang_eval_calls` records on which context and which parse-tree node
`xp_yang_eval` is entered while a tree is evaluated: the call itself first,
then the recursive calls in the order the C code makes them. It follows the
control flow of `xp_yang_eval`, `xp_yang_eval_step` and
`xp_yang_eval_predicate` and takes the contexts handed down from their
results. -/

/-- The calls made for the second child in the generic traversal of
`xp_yang_eval` (lines 379-381): on `xy0` or on `xy`, none when the child is
absent or the context pointer is NULL. `calls_c1 c` are the calls of
`xp_yang_eval(c, xptree->xs_c1, &xy1)`. -/
def calls_second (calls_c1 : xp_yang_ctx → List (xp_yang_ctx × xpath_tree))
    (xs_type : xp_type) (xs_c1 : xpath_tree) (xy : xp_yang_ctx)
    (xy0 : Option xp_yang_ctx) : List (xp_yang_ctx × xpath_tree) :=
  match xs_c1 with
  | .null => []
  | .node _ _ _ _ _ _ =>
    match (if eval_use_xy0 xs_type xs_c1 then xy0 else some xy) with
    | none => []
    | some c => calls_c1 c

/-- The calls made in the generic traversal of `xp_yang_eval` (lines
356-381): those of the first child and, when it returned without error,
those of the second. `eval_c0 c` stands for
`xp_yang_eval(c, xptree->xs_c0, &xy0)`, `calls_c0 c` for its calls. -/
def calls_children (eval_c0 : xp_yang_ctx → xp_res)
    (calls_c0 calls_c1 : xp_yang_ctx → List (xp_yang_ctx × xpath_tree))
    (xs_type : xp_type) (xs_c0 xs_c1 : xpath_tree) (xy : xp_yang_ctx) :
    List (xp_yang_ctx × xpath_tree) :=
  match xs_c0 with
  | .null => calls_second calls_c1 xs_type xs_c1 xy none
  | .node _ _ _ _ _ _ =>
    calls_c0 xy ++
    match eval_c0 xy with
    | .segv => []
    | .ret r xy0 xy => if r < 0 then [] else calls_second calls_c1 xs_type xs_c1 xy xy0

/-- The calls of `xp_yang_eval` made while `xp_yang_eval(xy, xptree, ..)` runs,
each with the context it is made on. -/
def xp_yang_eval_calls (env : yang_api) (xy : xp_yang_ctx) :
    xpath_tree → List (xp_yang_ctx × xpath_tree)
  | .null => [(xy, .null)]
  | .node xs_type xs_int xs_s0 xs_s1 xs_c0 xs_c1 =>
    (xy, .node xs_type xs_int xs_s0 xs_s1 xs_c0 xs_c1) ::
    if xy_empty xy then []
    else
      -- the calls of the generic traversal of the two children
      let children (xy : xp_yang_ctx) : List (xp_yang_ctx × xpath_tree) :=
        calls_children (fun c => xp_yang_eval env c xs_c0)
          (fun c => xp_yang_eval_calls env c xs_c0) (fun c => xp_yang_eval_calls env c xs_c1)
          xs_type xs_c0 xs_c1 xy
      let one_arg : List (xp_yang_ctx × xpath_tree) :=
        match xs_c1 with
        | .node _ _ _ _ _ _ => []
        | .null => children xy
      match xs_type with
      | .XP_EXP => one_arg
      | .XP_AND => one_arg
      | .XP_ADD => one_arg
      | .XP_UNION => one_arg
      | .XP_RELEX => children xy
      | .XP_PATHEXPR => children xy
      | .XP_FILTEREXPR => children xy
      | .XP_LOCPATH => children xy
      | .XP_NODE => children xy
      | .XP_NODE_FN => children xy
      | .XP_RELLOCPATH => children xy
      | .XP_PRIME_FN =>
        match xs_s0 with
        | some _ => []
        | none => children xy
      | .XP_PRIME_STR => []
      | .XP_ABSPATH =>
        if env.yang_keyword_get xy.xy_node ≠ .Y_SPEC then
          children { xy with xy_node := env.ys_module xy.xy_node }
        else children xy
      | .XP_PRED =>
        -- xp_yang_eval_predicate: the previous predicates, then the expression
        (match xs_c0 with
          | .null => []
          | .node _ _ _ _ _ _ => xp_yang_eval_calls env xy xs_c0) ++
        match predicate_first (fun c => xp_yang_eval env c xs_c0) xy xs_c0 with
        | .segv => []
        | .ret r xy0 _ =>
          if r < 0 then []
          else
            match xs_c1, xy0 with
            | .node _ _ _ _ _ _, some c0 => xp_yang_eval_calls env c0 xs_c1
            | _, _ => []
      | .XP_STEP =>
        -- xp_yang_eval_step: the predicates of the step on the new context
        match step_axis env (xy_dup (some xy)) xs_int xs_c0 with
        | .next c =>
          (match xs_c1 with
            | .null => []
            | .node _ _ _ _ _ _ => xp_yang_eval_calls env c xs_c1)
        | _ => []
      | .XP_PRI0 => []
      | .XP_PRIME_NR => []

/-! ## An example schema

```
yspec (0)
`-- module ex, prefix ex (1)
    |-- container ifs (2)
    |   `-- list if (3), key name
    |       |-- leaf name (4)
    |       `-- leaf mtu (5)
    `-- leaf ref (6), a leafref
```
-/

/-- The child of a statement of the example schema with a given name. -/
def example_child (ys : Option yang_stmt) (name : Option String) : Option yang_stmt :=
  match ys, name with
  | some 0, some "ifs" => some 2
  | some 0, some "ref" => some 6
  | some 1, some "ifs" => some 2
  | some 1, some "ref" => some 6
  | some 2, some "if" => some 3
  | some 3, some "name" => some 4
  | some 3, some "mtu" => some 5
  | _, _ => none

/-- The example schema as a `yang_api`; it has no mounts. -/
def example_api : yang_api where
  yang_keyword_get := fun ys =>
    match ys with
    | some 0 => .Y_SPEC
    | some 1 => .Y_MODULE
    | some 2 => .Y_CONTAINER
    | some 3 => .Y_LIST
    | _ => .Y_LEAF
  yang_parent_get := fun ys =>
    match ys with
    | some 1 => some 0
    | some 2 => some 1
    | some 3 => some 2
    | some 4 => some 3
    | some 5 => some 3
    | some 6 => some 1
    | _ => none
  ys_module := fun ys =>
    match ys with
    | some 0 => none
    | some _ => some 1
    | none => none
  ys_spec := fun ys =>
    match ys with
    | some _ => some 0
    | none => none
  ys_mounts := fun _ => none
  yang_find_module_by_prefix_yspec := fun ys p =>
    match ys with
    | some 0 => if p = "ex" then some 1 else none
    | _ => none
  yang_find_module_by_prefix := fun ys p =>
    match ys with
    | some _ => if p = "ex" then some 1 else none
    | none => none
  yang_find_schemanode := example_child
  yn_children := fun ys =>
    match ys with
    | 0 => [1]
    | 1 => [2, 6]
    | 2 => [3]
    | 3 => [4, 5]
    | _ => []
  yang_cvec_get := fun _ => none
  yang_flag_get := fun _ _ => false
  yang_extension_value := fun _ _ _ => { retval := 0, exist := 0, value := none }

/-- The context `yang_path_arg` starts from: a node-set holding `ys`, which
is also the initial node. -/
def start_ctx (ys : Option yang_stmt) : xp_yang_ctx :=
  { xy_type := .XT_NODESET, xy_node := ys, xy_bool := 0, xy_initial := ys }

/-- A child step `name` or `pfx:name` followed by the predicates `preds`, as
the parser builds it. -/
def child_step (pfx : Option String) (name : String) (preds : xpath_tree) : xpath_tree :=
  .node .XP_STEP A_CHILD none none (.node .XP_NODE A_NAN pfx (some name) .null .null) preds

/-- A step on another axis (`..` is the parent axis) on the node test
`node()`. -/
def axis_step (axis : Int) (preds : xpath_tree) : xpath_tree :=
  .node .XP_STEP axis none none (.node .XP_NODE_FN A_NAN none (some "node") .null .null) preds

/-- The empty list of predicates. -/
def no_preds : xpath_tree := .node .XP_PRED A_NAN none none .null .null

/-- The relative path `c0/c1`, and the path of a single step `c0` when `c1` is
NULL. -/
def rel_path (c0 c1 : xpath_tree) : xpath_tree :=
  .node .XP_RELLOCPATH A_NAN none none c0 c1

/-! ## clixon_yang_schema_mount.c -/

/-- Modelled from the spec: the macro `YANG_SCHEMA_MOUNT_NAMESPACE` of
`clixon_yang_schema_mount.h` (not among the sources), the namespace of the
module ietf-yang-schema-mount of RFC 8528. -/
def YANG_SCHEMA_MOUNT_NAMESPACE : String :=
  "urn:ietf:params:xml:ns:yang:ietf-yang-schema-mount"

/-- `yang_schema_mount_point0`: check if a YANG node is a RFC 8528 schema
mount (`YANG_SCHEMA_MOUNT_ONLY_PRESENCE_CONTAINERS` not defined, so lists
count too). -/
def yang_schema_mount_point0 (env : yang_api) (y : Option yang_stmt) : Int :=
  match y with
  | none => -1
  | some ys =>
    let keyw := env.yang_keyword_get (some ys)
    if keyw ≠ .Y_CONTAINER ∧ keyw ≠ .Y_LIST then 0
    else
      let e := env.yang_extension_value ys "mount-point" YANG_SCHEMA_MOUNT_NAMESPACE
      if e.retval < 0 then -1
      else if e.exist = 0 then 0
      else if e.value = none then 0
      else 1

/-- `cvec_find(cvv, name) != NULL`: the vector has a variable of that name. -/
def cvec_find (cvv : Option (List String)) (name : String) : Bool :=
  match cvv with
  | some names => decide (name ∈ names)
  | none => false

/-- The test `xpath == NULL || cvec_find(cvv, xpath) != NULL` of line 218. -/
def xpath_null_or_found (cvv : Option (List String)) (xpath : Option String) : Bool :=
  match xpath with
  | none => true
  | some x => cvec_find cvv x

/-- The inner loop of `yang_mount_get` (lines 213-220) over the children of
one domain: the statement it stops at, NULL when it runs to the end. -/
def mount_get_yspec (env : yang_api) (xpath : Option String) :
    List yang_stmt → Option yang_stmt
  | [] => none
  | yspec :: rest =>
    if env.yang_keyword_get (some yspec) ≠ .Y_SPEC ∨
        env.yang_cvec_get yspec = none ∨
        env.yang_flag_get yspec .YANG_FLAG_SPEC_MOUNT = false then
      mount_get_yspec env xpath rest
    else if xpath_null_or_found (env.yang_cvec_get yspec) xpath then some yspec
    else mount_get_yspec env xpath rest

/-- The outer loop of `yang_mount_get` (lines 211-223) over the domains. -/
def mount_get_ydomain (env : yang_api) (xpath : Option String) :
    List yang_stmt → Option yang_stmt
  | [] => none
  | ydomain :: rest =>
    match mount_get_yspec env xpath (env.yn_children ydomain) with
    | some yspec => some yspec
    | none => mount_get_ydomain env xpath rest

/-- `yang_mount_get`: the return value and what was stored in `*yspecp`
(`none`: nothing was stored). -/
def yang_mount_get (env : yang_api) (ys : Option yang_stmt) (xpath : Option String) :
    Int × Option (Option yang_stmt) :=
  let retval : Int := 1
  match env.ys_mounts ys with
  | none => (retval, none)
  | some ymounts => (0, some (mount_get_ydomain env xpath (env.yn_children ymounts)))

/-- `yang_mount_get_yspec_any`: the return value and what was stored in
`*yspecp`. -/
def yang_mount_get_yspec_any (env : yang_api) (ys : Option yang_stmt) :
    Int × Option (Option yang_stmt) :=
  let r := yang_mount_get env ys none
  if r.1 < 0 then (-1, none)
  else
    -- the local `yspec` starts at NULL and is what `yang_mount_get` stored
    match r.2 with
    | some (some yspec) => (1, some (some yspec))
    | _ => (0, none)

/-- Modelled from the spec: `yang_flag_set` of `clixon_yang.c` (not among the
sources) sets one flag bit of a statement and leaves every other bit and
every other statement alone. -/
def yang_flag_set (env : yang_api) (ys : yang_stmt) (flag : yang_flag) : yang_api :=
  { env with
    yang_flag_get := fun s f => if s = ys ∧ f = flag then true else env.yang_flag_get s f }

/-- `yang_mount_set`: the return value and the YANG tree after the call. -/
def yang_mount_set (env : yang_api) (y : yang_stmt) (_xpath : String)
    (_yspec : Option yang_stmt) : Int × yang_api :=
  let env := yang_flag_set env y .YANG_FLAG_MOUNTPOINT
  (0, env)

/-- The example schema with a domain of mounts beside it: the container `ifs`
(2) carries the `mount-point` extension with label `root`, and the mounts
root (10) has one domain (11) holding one mounted yang spec (12) that is
bound to the instance path `/ex:other`.
```
mounts (10)
`-- domain (11)
    `-- yspec (12), SPEC_MOUNT, cvec [/ex:other]
```
-/
def example_mounts : yang_api :=
  { example_api with
    yang_keyword_get := fun ys =>
      match ys with
      | some 10 => .Y_MOUNTS
      | some 11 => .Y_DOMAIN
      | some 12 => .Y_SPEC
      | _ => example_api.yang_keyword_get ys
    ys_mounts := fun ys =>
      match ys with
      | some _ => some 10
      | none => none
    yn_children := fun ys =>
      match ys with
      | 10 => [11]
      | 11 => [12]
      | _ => example_api.yn_children ys
    yang_cvec_get := fun ys =>
      match ys with
      | 12 => some ["/ex:other"]
      | _ => none
    yang_flag_get := fun ys f =>
      match ys, f with
      | 12, .YANG_FLAG_SPEC_MOUNT => true
      | _, _ => false
    yang_extension_value := fun ys name ns =>
      if ys = 2 ∧ name = "mount-point" ∧ ns = YANG_SCHEMA_MOUNT_NAMESPACE then
        { retval := 0, exist := 1, value := some "root" }
      else { retval := 0, exist := 0, value := none } }

/-! ## Shapes of path-arg trees used in the statements -/

/-- A node with a single child, the form in which the parser passes an
expression up through a grammar rule that has no operator. -/
def wrap (xs_type : xp_type) (t : xpath_tree) : xpath_tree :=
  .node xs_type A_NAN none none t .null

/-- The predicates `prev[expr]`: the predicates `prev` followed by one more. -/
def pred (prev expr : xpath_tree) : xpath_tree :=
  .node .XP_PRED A_NAN none none prev expr

/-- The node kinds through which an expression with one child is passed up
unchanged. -/
def pass_through (xs_type : xp_type) : Bool :=
  match xs_type with
  | .XP_EXP => true
  | .XP_AND => true
  | .XP_RELEX => true
  | .XP_ADD => true
  | .XP_UNION => true
  | .XP_PATHEXPR => true
  | .XP_FILTEREXPR => true
  | .XP_LOCPATH => true
  | _ => false

/-- The two operands of an equality test: of a relational expression with
the operator `=` and two operands, possibly passed up through one-child
nodes. `none` when the tree is not an equality test. -/
def eq_test_operands : xpath_tree → Option (xpath_tree × xpath_tree)
  | .node xs_type xs_int _ _ a (.node t1 i1 a1 b1 l1 r1) =>
    if xs_type = .XP_RELEX ∧ xs_int = XO_EQ then some (a, .node t1 i1 a1 b1 l1 r1) else none
  | .node xs_type _ _ _ e .null =>
    if pass_through xs_type then eq_test_operands e else none
  | .null => none

/-- An operand evaluates on `cn` without error to a context that holds a
node, and leaves `cn` as it was. -/
def operand_ok (env : yang_api) (cn : xp_yang_ctx) (a : xpath_tree) : Bool :=
  match xp_yang_eval env cn a with
  | .ret r (some c) cn1 => decide (r = 0 ∧ c.xy_node ≠ none ∧ cn1 = cn)
  | _ => false

/-- The predicates of a step are all equality tests whose operands are
`operand_ok` on `cn`. -/
def eq_predicates (env : yang_api) (cn : xp_yang_ctx) : xpath_tree → Bool
  | .null => true
  | .node xs_type _ _ _ prev expr =>
    decide (xs_type = .XP_PRED) && eq_predicates env cn prev &&
    match expr with
    | .null => true
    | .node t i a b l r =>
      match eq_test_operands (.node t i a b l r) with
      | some (x, y) => operand_ok env cn x && operand_ok env cn y
      | none => false

/-- The expression `name = current()/../sibling`, as the parser builds it. -/
def eq_current_sibling (name sibling : String) : xpath_tree :=
  wrap .XP_EXP (wrap .XP_AND
    (.node .XP_RELEX XO_EQ none none
      (wrap .XP_RELEX (wrap .XP_ADD (wrap .XP_UNION (wrap .XP_PATHEXPR (wrap .XP_LOCPATH
        (rel_path (child_step none name no_preds) .null))))))
      (wrap .XP_ADD (wrap .XP_UNION
        (.node .XP_PATHEXPR A_NAN none none
          (wrap .XP_FILTEREXPR
            (.node .XP_PRIME_FN XPATHFN_CURRENT (some "current") none .null .null))
          (rel_path (rel_path (axis_step A_PARENT no_preds) .null)
            (child_step none sibling no_preds)))))))

/-- The right side of a path `c0/c1`: the left side `c0` evaluated without
error to a node-set holding a node, and `misses_c1` holds of that node-set. -/
def path_right (left : xp_res) (misses_c1 : xp_yang_ctx → Bool) : Bool :=
  match left with
  | .ret r (some x0) _ =>
    decide (r = 0 ∧ x0.xy_type = .XT_NODESET ∧ x0.xy_node ≠ none) && misses_c1 x0
  | _ => false

/-- The evaluation of `t` on `xy` runs into a child step whose name is not a
schema child of the node reached so far, the step lying on the location path
itself: reached through one-child nodes and through the two sides of a path
`c0/c1`, the right side on the node-set that the left side evaluated to
without error; not inside a predicate or an operand of a comparison. -/
def path_misses (env : yang_api) (xy : xp_yang_ctx) : xpath_tree → Bool
  | .null => false
  | .node xs_type xs_int _ _ xs_c0 xs_c1 =>
    -- a path `c0/c1` evaluated on `xy`
    let pair (xy : xp_yang_ctx) : Bool :=
      path_misses env xy xs_c0 ||
      path_right (xp_yang_eval env xy xs_c0) (fun x0 => path_misses env x0 xs_c1)
    -- a node with one child
    let single : Bool :=
      match xs_c1 with
      | .null => path_misses env xy xs_c0
      | .node _ _ _ _ _ _ => false
    match xs_type with
    | .XP_STEP =>
      match step_axis env (xy_dup (some xy)) xs_int xs_c0 with
      | .ok _ => true
      | _ => false
    | .XP_RELLOCPATH => pair xy
    | .XP_PATHEXPR => pair xy
    | .XP_ABSPATH =>
      if env.yang_keyword_get xy.xy_node ≠ .Y_SPEC then
        decide (env.ys_module xy.xy_node ≠ none) &&
          pair { xy with xy_node := env.ys_module xy.xy_node }
      else pair xy
    | .XP_EXP => single
    | .XP_AND => single
    | .XP_RELEX => single
    | .XP_ADD => single
    | .XP_UNION => single
    | .XP_FILTEREXPR => single
    | .XP_LOCPATH => single
    | _ => false

/-- A location path as a full expression, as the parser builds it: the path
passed up through the rules of the expression grammar. -/
def path_expr (t : xpath_tree) : xpath_tree :=
  wrap .XP_EXP (wrap .XP_AND (wrap .XP_RELEX (wrap .XP_ADD (wrap .XP_UNION
    (wrap .XP_PATHEXPR (wrap .XP_LOCPATH t))))))

/-- The parse trees of the path-args of the examples; the parser itself
(`xpath_parse`) is not among the sources. -/
def example_parse (path_arg : String) : Option xpath_tree :=
  if path_arg = "../ifs/if/name" then
    some (path_expr (rel_path (rel_path (rel_path (rel_path (axis_step A_PARENT no_preds) .null)
      (child_step none "ifs" no_preds)) (child_step none "if" no_preds))
      (child_step none "name" no_preds)))
  else if path_arg = "../ifs/if[name = current()/../ifname]/mtu" then
    some (path_expr (rel_path (rel_path (rel_path (rel_path (axis_step A_PARENT no_preds) .null)
      (child_step none "ifs" no_preds))
      (child_step none "if" (pred no_preds (eq_current_sibling "name" "ifname"))))
      (child_step none "mtu" no_preds)))
  else if path_arg = "../ifs/nosuch/descendant::mtu" then
    some (path_expr (rel_path (rel_path (rel_path (rel_path (axis_step A_PARENT no_preds) .null)
      (child_step none "ifs" no_preds)) (child_step none "nosuch" no_preds))
      (.node .XP_STEP A_DESCENDANT none none
        (.node .XP_NODE A_NAN none (some "mtu") .null .null) no_preds)))
  else none

/-- The call returned an error: a negative value. -/
def xp_failed (res : xp_res) : Bool :=
  match res with
  | .ret r _ _ => decide (r < 0)
  | .segv => false

/-- The three restrictions of a path-arg, on one node of the parse tree: a
step uses the child or the parent axis, a relational expression with a second
operand uses `=`, and a function call (a `XP_PRIME_FN` node with a function
name) is `current()`. -/
def path_arg_node (n : xpath_tree) : Bool :=
  match n with
  | .node .XP_STEP xs_int _ _ _ _ => decide (xs_int = A_CHILD ∨ xs_int = A_PARENT)
  | .node .XP_RELEX xs_int _ _ _ xs_c1 => decide (xs_c1 = .null ∨ xs_int = XO_EQ)
  | .node .XP_PRIME_FN xs_int (some _) _ _ _ => decide (xs_int = XPATHFN_CURRENT)
  | _ => true

/-- The call was accepted: it returned, and not with an error. -/
def xp_accepted (res : xp_res) : Bool :=
  match res with
  | .ret r _ _ => decide (0 ≤ r)
  | .segv => false

/-- The three restrictions of a path-arg hold of every node of the tree. -/
def path_arg_tree : xpath_tree → Bool
  | .null => true
  | .node xs_type xs_int xs_s0 xs_s1 xs_c0 xs_c1 =>
    path_arg_node (.node xs_type xs_int xs_s0 xs_s1 xs_c0 xs_c1) &&
      path_arg_tree xs_c0 && path_arg_tree xs_c1

/-- Every context a call hands back, the one it was given and the one it
stored as its result, has `i` as its initial node. -/
def res_initial (i : Option yang_stmt) (res : xp_res) : Bool :=
  match res with
  | .segv => true
  | .ret _ xyr xy =>
    decide (xy.xy_initial = i) &&
    match xyr with
    | some c => decide (c.xy_initial = i)
    | none => true

/-! ## Schema mount: the bindings and the XML side -/

/-- The conditions under which a statement answers a lookup of `xpath` among
the mounts, in the words of the description of `yang_mount_get`: it has the
keyword `Y_SPEC`, a cvec, the `SPEC_MOUNT` flag, and its cvec holds `xpath`
(no condition on the cvec when `xpath` is NULL). -/
def mounted_yspec_for (env : yang_api) (xpath : Option String) (yspec : yang_stmt) : Bool :=
  decide (env.yang_keyword_get (some yspec) = .Y_SPEC) &&
    (env.yang_cvec_get yspec).isSome &&
    env.yang_flag_get yspec .YANG_FLAG_SPEC_MOUNT &&
    xpath_null_or_found (env.yang_cvec_get yspec) xpath

/-- All statements below the domains of a mounts root, in domain order and
then in child order within the domain. -/
def mounts_statements (env : yang_api) (ymounts : yang_stmt) : List yang_stmt :=
  (env.yn_children ymounts).flatMap env.yn_children

/-- A `cxobj *` that is not NULL: an XML element with its identity (the
address), the YANG statement it is bound to (`xml_spec`), and its element
children in document order. -/
inductive cxobj
  | mk (id : Nat) (spec : Option yang_stmt) (children : List cxobj)
  deriving Repr

/-- The identity of an XML node; two pointers are equal when it is. -/
def xml_id : cxobj → Nat
  | .mk id _ _ => id

/-- `xml_spec(x)`: the YANG statement an XML node is bound to. -/
def xml_spec : cxobj → Option yang_stmt
  | .mk _ spec _ => spec

/-- What `clixon_plugin_yang_mount_all(h, xmnt, .., &yanglib)` leaves behind:
its return value and the yang-library it stored (NULL when the callbacks
supply none). -/
structure plugin_mount_res where
  retval : Int
  yanglib : Option cxobj

/-- The clixon handle `h` and the library functions that the schema-mount
code calls and that are not among the sources: what they answer is a field.
The functions that change the YANG tree take it and hand back the new one. -/
structure clixon_handle where
  /-- `yang_config(y)` -/
  yang_config : yang_stmt → Int
  /-- `xml_root(x)` -/
  xml_root : cxobj → cxobj
  /-- `xml2xpath(xmnt, NULL, 1, 0, &xpath0)`: return value and the XPath -/
  xml2xpath : cxobj → Int × String
  /-- `xml_nsctx_node(xmnt, &nsc0)`: return value -/
  xml_nsctx_node : cxobj → Int
  /-- `xpath2canonical(xpath0, nsc0, yspec, &xpath, ..)` for the namespace
  context of `xmnt`: return value and the canonical XPath -/
  xpath2canonical : String → cxobj → Int × String
  /-- `clixon_plugin_yang_mount_all(h, xmnt, .., &yanglib)` -/
  clixon_plugin_yang_mount_all : cxobj → plugin_mount_res
  /-- `xml_tree_equal(x0, x1)`: 0 when the trees are equal, 1 when not -/
  xml_tree_equal : cxobj → cxobj → Int
  /-- `xml_body(xpath_first(xyanglib, NULL, "module-set/name"))`, NULL when
  there is no such element or it has no body -/
  yanglib_module_set_name : cxobj → Option String
  /-- `clicon_option_bool(h, name)` -/
  clicon_option_bool : String → Bool
  /-- `clixon_yang_mounts_get(h)` -/
  clixon_yang_mounts_get : yang_api → Option yang_stmt
  /-- `yang_find(ymounts, Y_DOMAIN, domain)` -/
  yang_find_domain : yang_api → yang_stmt → String → Option yang_stmt
  /-- `ydomain_new(h, domain)` -/
  ydomain_new : yang_api → String → Option yang_stmt × yang_api
  /-- `yspec_new_shared(h, xpath, domain, name, yspec0)` -/
  yspec_new_shared : yang_api → String → String → String → Option yang_stmt →
    Option yang_stmt × yang_api
  /-- `yang_lib2yspec(h, xyanglib, xpath, domain, yspec1)` -/
  yang_lib2yspec : yang_api → cxobj → String → String → yang_stmt → Int × yang_api
  /-- `ys_prune_self(yspec1)` -/
  ys_prune_self : yang_api → yang_stmt → yang_api

/-- `yang_schema_mount_point`: the cached variant of
`yang_schema_mount_point0`. -/
def yang_schema_mount_point (env : yang_api) (y : yang_stmt) : Int :=
  if env.yang_flag_get y .YANG_FLAG_MTPOINT_POTENTIAL then 1 else 0

/-- What `yang_mount_xmnt2ymnt_xpath` leaves behind: its return value, the
YANG mount-point (stored in `*ymntp` when that pointer is given) and the
canonical XPath stored in `*xpath`. -/
structure xmnt2ymnt_res where
  retval : Int
  ymnt : Option yang_stmt
  xpath : Option String
  deriving DecidableEq, Repr

/-- `yang_mount_xmnt2ymnt_xpath`: given an XML mount-point return the YANG
mount-point and the canonical XPath. -/
def yang_mount_xmnt2ymnt_xpath (h : clixon_handle) (env : yang_api) (xmnt : Option cxobj) :
    xmnt2ymnt_res :=
  match xmnt with
  | none => ⟨-1, none, none⟩
  | some x =>
    match xml_spec x with
    | none => ⟨0, none, none⟩
    | some ymnt =>
      if yang_schema_mount_point env ymnt = 0 then ⟨0, none, none⟩
      else if (h.xml2xpath x).1 < 0 then ⟨-1, none, none⟩
      else if h.xml_nsctx_node x < 0 then ⟨-1, none, none⟩
      else
        let c := h.xpath2canonical (h.xml2xpath x).2 x
        if c.1 < 0 then ⟨-1, none, none⟩
        else if c.1 = 0 then ⟨0, none, none⟩
        else ⟨1, some ymnt, some c.2⟩

/-- What `xml_yang_mount_get` leaves behind: its return value, what it
stored in `*xpathp` and what it stored in `*yspec` (`none`: nothing). -/
structure xml_mount_get_res where
  retval : Int
  xpathp : Option String
  yspec : Option (Option yang_stmt)
  deriving DecidableEq, Repr

/-- `xml_yang_mount_get`. The three flags say which of the optional
out-parameters `vl`, `xpathp` and `yspec` the caller passes (non-NULL). -/
def xml_yang_mount_get (h : clixon_handle) (env : yang_api) (xmnt : Option cxobj)
    (vl xpathp yspec : Bool) : xml_mount_get_res :=
  let r := yang_mount_xmnt2ymnt_xpath h env xmnt
  if r.retval < 0 then ⟨-1, none, none⟩
  else if r.retval = 0 then ⟨0, none, none⟩
  else
    match xmnt with
    | none => ⟨-1, none, none⟩
    | some x =>
      -- Check validate level
      if vl = true ∧ (h.clixon_plugin_yang_mount_all x).retval < 0 then ⟨-1, none, none⟩
      else
        let g := if yspec then yang_mount_get env r.ymnt r.xpath else (0, none)
        if g.1 < 0 then ⟨-1, none, g.2⟩
        else ⟨1, if xpathp then r.xpath else none, g.2⟩

/-- `xml_yang_mount_set`: the return value and the YANG tree after the
call. -/
def xml_yang_mount_set (h : clixon_handle) (env : yang_api) (xmnt : Option cxobj)
    (yspec : Option yang_stmt) : Int × yang_api :=
  let r := yang_mount_xmnt2ymnt_xpath h env xmnt
  if r.retval < 0 then (-1, env)
  else if r.retval = 0 then (-1, env)
  else
    match r.ymnt, r.xpath with
    | some ymnt, some xpath =>
      let s := yang_mount_set env ymnt xpath yspec
      if s.1 < 0 then (-1, s.2) else (0, s.2)
    | _, _ => (-1, env)

mutual
/-- Modelled from the spec: `xml_apply` of `clixon_xml.c` (not among the
sources) applies a visitor to the element children of a node in document
order, each before its own children; the visitor's return codes are those in
the comment of `find_xml_schema_mounts`: 0 continue, 2 skip the subtree, 1
stop, negative stop with an error. This is the loop over the children. -/
def xml_apply_children {α : Type} (fn : cxobj → α → Int × α) :
    List cxobj → α → Int × α
  | [], arg => (0, arg)
  | x :: rest, arg =>
    let r := fn x arg
    if r.1 < 0 then (-1, r.2)
    else if r.1 = 2 then xml_apply_children fn rest r.2
    else if r.1 = 1 then (1, r.2)
    else
      let s := xml_apply fn x r.2
      if s.1 < 0 then (-1, s.2)
      else if s.1 = 1 then (1, s.2)
      else xml_apply_children fn rest s.2
/-- Modelled from the spec: `xml_apply(xn, CX_ELMNT, fn, arg)`, see
`xml_apply_children`; the node `xn` itself is not visited. -/
def xml_apply {α : Type} (fn : cxobj → α → Int × α) : cxobj → α → Int × α
  | .mk _ _ children, arg => xml_apply_children fn children arg
end

/-- `find_xml_schema_mounts`: the callback of `xml_apply` that collects the
mount-points in the vector `cvv`. -/
def find_xml_schema_mounts (h : clixon_handle) (env : yang_api) (x : cxobj)
    (cvv : List cxobj) : Int × List cxobj :=
  match xml_spec x with
  | none => (2, cvv)
  | some y =>
    if h.yang_config y = 0 then (2, cvv)
    else
      let ret := yang_schema_mount_point env y
      if ret < 0 then (-1, cvv)
      else if ret = 0 then (0, cvv)
      else (0, cvv ++ [x])

/-- `yang_mount_xtop2xmnt`: the return value and the vector of XML
mount-points stored in `*cvvp` (`none`: nothing stored). -/
def yang_mount_xtop2xmnt (h : clixon_handle) (env : yang_api) (xtop : cxobj) :
    Int × Option (List cxobj) :=
  let r := xml_apply (find_xml_schema_mounts h env) xtop []
  if r.1 < 0 then (-1, none) else (0, some r.2)

/-- The loop of `yang_schema_find_share` over the XML mount-points (lines
735-757). `yspecp` is what `*yspecp` holds (`none`: not written yet); the
result is the return value and what `*yspecp` holds at the end. -/
def find_share_loop (h : clixon_handle) (env : yang_api) (xt xyanglib : cxobj) :
    List cxobj → Option (Option yang_stmt) → Int × Option (Option yang_stmt)
  | [], yspecp => (0, yspecp)
  | xmnt :: rest, yspecp =>
    if xml_id xmnt = xml_id xt then find_share_loop h env xt xyanglib rest yspecp
    else
      -- Get xyanglib
      let p := h.clixon_plugin_yang_mount_all xmnt
      if p.retval < 0 then (-1, yspecp)
      else
        match p.yanglib with
        | none => find_share_loop h env xt xyanglib rest yspecp
        | some xylib =>
          -- Check if equal
          if h.xml_tree_equal xyanglib xylib = 1 then
            find_share_loop h env xt xyanglib rest yspecp
          else
            -- Find and return yspec: `*yspecp = NULL`, then the lookup
            let g := xml_yang_mount_get h env (some xmnt) false false true
            let yspecp : Option (Option yang_stmt) :=
              match g.yspec with
              | some y => some y
              | none => some none
            if g.retval < 0 then (-1, yspecp)
            else if g.retval = 1 ∧ yspecp ≠ some none then (0, yspecp)
            else find_share_loop h env xt xyanglib rest yspecp

/-- `yang_schema_find_share`: given an XML mount-point and a yang-library,
find an existing yspec. The result is the return value and what was stored in
`*yspecp` (`none`: nothing). -/
def yang_schema_find_share (h : clixon_handle) (env : yang_api) (xt xyanglib : cxobj) :
    Int × Option (Option yang_stmt) :=
  let xroot := h.xml_root xt
  -- Get all XML mtpoints
  let m := yang_mount_xtop2xmnt h env xroot
  if m.1 < 0 then (-1, none)
  else
    match m.2 with
    | none => (0, none)
    | some cvv => find_share_loop h env xt xyanglib cvv none

/-- The calls that `yang_schema_yanglib_parse_mount` makes to the functions
that create, fill, bind or release a yang spec, with their arguments;
`yspec_new_shared` also with the yang spec it returned. -/
inductive mount_event
  | ydomain_new (domain : String)
  | yang_schema_find_share
  | yspec_new_shared (xpath domain name : String) (yspec0 yspec1 : Option yang_stmt)
  | yang_lib2yspec (xpath domain : String) (yspec1 : yang_stmt)
  | ys_prune_self (yspec1 : yang_stmt)
  | xml_yang_mount_set (yspec1 : Option yang_stmt)
  | ys_free (yspec1 : yang_stmt)
  deriving DecidableEq, Repr

/-- What `yang_schema_yanglib_parse_mount` leaves behind: its return value,
the YANG tree after the call, and the calls it made, in order. -/
structure parse_mount_res where
  retval : Int
  env : yang_api
  events : List mount_event

/-- The end of `yang_schema_yanglib_parse_mount` (lines 826-843), from the
yang spec `yspec1` that `yspec_new_shared` returned: the yang-library is
parsed into a new yang spec, and the yang spec is bound to the mount-point.
`ev` are the calls made before. -/
def parse_mount_bind (h : clixon_handle) (env : yang_api) (xt xyanglib : cxobj)
    (xpath domain : String) (yspec0 yspec1 : Option yang_stmt) (ev : List mount_event) :
    parse_mount_res :=
  -- the calls of the label `done` on a yang spec that is still held
  let release : List mount_event :=
    match yspec1 with
    | some y1 => [.ys_free y1]
    | none => []
  -- xml_yang_mount_set and the return
  let bind (env : yang_api) (ev : List mount_event) : parse_mount_res :=
    let s := xml_yang_mount_set h env (some xt) yspec1
    if s.1 < 0 then ⟨-1, s.2, ev ++ [.xml_yang_mount_set yspec1] ++ release⟩
    else ⟨1, s.2, ev ++ [.xml_yang_mount_set yspec1]⟩
  -- Either yspec0 = NULL and yspec1 is new, or yspec0 == yspec1 != NULL (shared)
  match yspec0, yspec1 with
  | none, some y1 =>
    let l := h.yang_lib2yspec env xyanglib xpath domain y1
    let ev := ev ++ [.yang_lib2yspec xpath domain y1]
    if l.1 < 0 then ⟨-1, l.2, ev ++ release⟩
    else if l.1 = 0 then
      -- remove from tree, free in done code
      ⟨0, h.ys_prune_self l.2 y1, ev ++ [.ys_prune_self y1] ++ release⟩
    else bind l.2 ev
  | _, _ => bind env ev

/-- `yang_schema_yanglib_parse_mount`: get the yang-library from the plugin
callback, parse it and mount it. `nr` is the value of the static counter that
names the yang spec. -/
def yang_schema_yanglib_parse_mount (h : clixon_handle) (env : yang_api) (xt : cxobj)
    (nr : Nat) : parse_mount_res :=
  -- 1. Get modstate (xyanglib) of node
  let p := h.clixon_plugin_yang_mount_all xt
  if p.retval < 0 then ⟨-1, env, []⟩
  else
    match p.yanglib with
    | none => ⟨0, env, []⟩
    | some xyanglib =>
      match h.yanglib_module_set_name xyanglib with
      | none => ⟨-1, env, []⟩
      | some domain =>
        -- Get xpath
        let m := yang_mount_xmnt2ymnt_xpath h env (some xt)
        if m.retval < 0 then ⟨-1, env, []⟩
        else if m.retval = 0 then ⟨-1, env, []⟩
        else
          match m.xpath, h.clixon_yang_mounts_get env with
          | some xpath, some ymounts =>
            let d : Option yang_stmt × yang_api × List mount_event :=
              match h.yang_find_domain env ymounts domain with
              | some ydomain => (some ydomain, env, [])
              | none =>
                let n := h.ydomain_new env domain
                (n.1, n.2, [.ydomain_new domain])
            match d.1 with
            | none => ⟨-1, d.2.1, d.2.2⟩
            | some _ =>
              -- Optimization: find equal yspec from other mount-point
              let s : Int × Option (Option yang_stmt) × List mount_event :=
                if h.clicon_option_bool "CLICON_YANG_SCHEMA_MOUNT_SHARE" then
                  let f := yang_schema_find_share h d.2.1 xt xyanglib
                  (f.1, f.2, d.2.2 ++ [.yang_schema_find_share])
                else (0, none, d.2.2)
              if s.1 < 0 then ⟨-1, d.2.1, s.2.2⟩
              else
                let yspec0 : Option yang_stmt :=
                  match s.2.1 with
                  | some y => y
                  | none => none
                -- the test `< 0` on the pointer that is returned never holds
                let n := h.yspec_new_shared d.2.1 xpath domain (toString nr) yspec0
                parse_mount_bind h n.2 xt xyanglib xpath domain yspec0 n.1
                  (s.2.2 ++ [.yspec_new_shared xpath domain (toString nr) yspec0 n.1])
          | _, _ => ⟨-1, env, []⟩

/-- The example with mounts after the schema has been loaded: the container
`ifs` (2) is flagged as a potential mount-point. -/
def example_mounts_flagged : yang_api :=
  yang_flag_set example_mounts 2 .YANG_FLAG_MTPOINT_POTENTIAL

/-- Two instances of the mount-point `ifs` of the example, at the instance
paths `/ex:other` (101) and `/ex:ifs` (102). -/
def example_xmnt (id : Nat) : cxobj := .mk id (some 2) []

/-- The XML tree of the example: a root with the two mount-point
instances. -/
def example_xml_root : cxobj := .mk 100 none [example_xmnt 101, example_xmnt 102]

/-- The yang-library that the mount callback of the example supplies for
both mount-point instances. -/
def example_yanglib : cxobj := .mk 200 none []

/-- A handle for the example: the mount callback supplies `example_yanglib`
with the module-set name `dom` for the two mount-point instances and nothing
elsewhere, sharing is switched off, and creating a yang spec yields the
statement 14. -/
def example_handle : clixon_handle where
  yang_config := fun _ => 1
  xml_root := fun _ => example_xml_root
  xml2xpath := fun x => (0, if xml_id x = 101 then "/ex:other" else "/ex:ifs")
  xml_nsctx_node := fun _ => 0
  xpath2canonical := fun xpath0 _ => (1, xpath0)
  clixon_plugin_yang_mount_all := fun x =>
    if xml_id x = 101 ∨ xml_id x = 102 then ⟨0, some example_yanglib⟩ else ⟨0, none⟩
  xml_tree_equal := fun x0 x1 => if xml_id x0 = xml_id x1 then 0 else 1
  yanglib_module_set_name := fun x => if xml_id x = 200 then some "dom" else none
  clicon_option_bool := fun _ => false
  clixon_yang_mounts_get := fun _ => some 10
  yang_find_domain := fun _ _ domain => if domain = "dom" then some 11 else none
  ydomain_new := fun env _ => (some 13, env)
  yspec_new_shared := fun env _ _ _ yspec0 =>
    match yspec0 with
    | some y => (some y, env)
    | none => (some 14, env)
  yang_lib2yspec := fun env _ _ _ _ => (1, env)
  ys_prune_self := fun env _ => env

/-! ## restconf_methods_get.c and restconf_methods_post.c

The handlers talk to the backend and write to the FastCGI request. Their
embedding returns the return value of the handler and the calls it made to
the backend and to the request, in order (`restconf_event`). What the
functions that are not among the sources answer (the api-path translation,
the backend, the XPath engine, the serialisers) is a field of `get_io` and
`post_io`. Allocation (`cbuf_new`, `xml_new`, `xml_nsctx_init`, the builders
of error documents) is taken to succeed. XML nodes appear in the events by
their identity; the handle, the request and the media that every call of
`api_return_err` is given are left out of its event. -/

/-- The output media of `enum restconf_media` that the handlers switch on. -/
inductive restconf_media
  | YANG_DATA_JSON
  | YANG_DATA_XML
  deriving DecidableEq, Repr

/-- Modelled from the spec: `restconf_media_int2str` of `restconf_lib.c` (not
among the sources) names the two media types of the response
(`application/yang-data+xml` and `application/yang-data+json`). -/
def restconf_media_int2str : restconf_media → String
  | .YANG_DATA_JSON => "application/yang-data+json"
  | .YANG_DATA_XML => "application/yang-data+xml"

/-- The content of the `rpc-error` of an error document that one of the
`netconf_..._xml` builders makes. -/
structure netconf_err where
  error_tag : String
  error_type : String
  error_message : String
  deriving DecidableEq, Repr

/-- Modelled from the spec: `netconf_invalid_value_xml(&xerr, type, message)`
of `clixon_netconf_lib.c` (not among the sources) builds an error document
with the error-tag `invalid-value`. -/
def netconf_invalid_value_xml (type message : String) : netconf_err :=
  ⟨"invalid-value", type, message⟩

/-- Modelled from the spec: `netconf_operation_failed_xml(&xerr, type,
message)` builds an error document with the error-tag `operation-failed`. -/
def netconf_operation_failed_xml (type message : String) : netconf_err :=
  ⟨"operation-failed", type, message⟩

/-- Modelled from the spec: `netconf_malformed_message_xml(&xerr, message)`
builds an error document with the error-tag `malformed-message`, whose
error-type is `rpc`. -/
def netconf_malformed_message_xml (message : String) : netconf_err :=
  ⟨"malformed-message", "rpc", message⟩

/-- The XML that a handler passes to `api_return_err`. -/
inductive err_arg
  /-- an error document `xerr` as its builder made it -/
  | xerr (e : netconf_err)
  /-- `xpath_first(xerr, "rpc-error")` of such a document -/
  | rpc_error (e : netconf_err)
  /-- a node of another tree: an `rpc-error` found in a reply of the backend,
  or the error tree that a parser handed out -/
  | node (id : Nat)
  /-- the `rpc-error` of the document that `netconf_missing_element_xml(&xerr,
  type, element, message)` builds (error-tag `missing-element`) -/
  | missing_element (type : String) (element : Option String) (message : String)
  deriving DecidableEq, Repr

/-- Modelled from the spec: the node types of `enum cxobj_type` of
`clixon_xml.h` (not among the sources): an XML node is an element, an
attribute or a body. -/
inductive cxobj_type
  | CX_ERROR
  | CX_ELMNT
  | CX_ATTR
  | CX_BODY
  deriving DecidableEq, Repr

/-- The calls of a handler to the backend and to the FastCGI request, and
the calls of `api_data_post` and `api_operations_post` that build or change
the XML tree they send or return. `FCGX_FPrintF` carries the text that is
printed. -/
inductive restconf_event
  | clicon_rpc_get (xpath : String) (nsp : Option String)
  | clicon_rpc_netconf (msg : String)
  | clicon_log (text : String)
  | api_return_err (xe : err_arg) (pretty : Int) (code0 : Int)
  | FCGX_SetExitStatus (code : Int)
  | FCGX_FPrintF (text : String)
  | http_location (xdata : Nat)
  | xml_new (name : String) (parent : Option Nat)
  | xml_type_set (x : Nat) (type : cxobj_type)
  | xml_prefix_set (x : Nat) (pfx : String)
  | xml_value_set (x : Nat) (val : String)
  | xml_addsub (xp xc : Nat)
  | xml_spec_populate (x : Nat)
  | json2xml_decode (x : Nat)
  | restconf_insert_attributes (x : Nat)
  | xml_name_set (x : Nat) (name : String)
  | xml_spec_set (x : Nat) (y : yang_stmt)
  | xml_purge (x : Nat)
  | xmlns_set (x : Nat) (nsp : Option String)
  | xml_spec_populate_rpc (xtop : Nat)
  | xml_yang_validate_rpc (xtop : Nat)
  | rpc_callback_call (xbot : Nat)
  | clicon_rpc_netconf_xml (xtop : Nat)
  deriving DecidableEq, Repr

/-- What the functions called by `api_data_get2` answer. -/
structure get_io where
  /-- `clicon_err_reason`, the text of the last error -/
  clicon_err_reason : String
  /-- `api_path2xpath_cvv(pcvec, pi, yspec, cbpath, &namespace)`: the return
  value, the text appended to `cbpath` and the namespace -/
  api_path2xpath_cvv : Int × String × Option String
  /-- `clicon_rpc_get(h, xpath, namespace, &xret)`: return value and reply -/
  clicon_rpc_get : String → Option String → Int × cxobj
  /-- `xml_apply(xret, CX_ELMNT, xml_spec_populate, yspec)` -/
  xml_spec_populate : cxobj → Int
  /-- `xpath_first(x, xpath)`: the first node that the XPath finds -/
  xpath_first : cxobj → String → Option cxobj
  /-- `xpath_vec_nsc(xret, nsc, "%s", &xvec, &xlen, xpath)`: return value and
  the nodes found -/
  xpath_vec_nsc : cxobj → String → Int × List cxobj
  /-- `clicon_xml2cbuf(cbx, x, 0, pretty)`: return value and the text
  appended to the buffer -/
  clicon_xml2cbuf : cxobj → Int → Int × String
  /-- `xml2json_cbuf(cbx, x, pretty)` -/
  xml2json_cbuf : cxobj → Int → Int × String
  /-- `xml2json_cbuf_vec(cbx, xvec, xlen, pretty)` -/
  xml2json_cbuf_vec : List cxobj → Int → Int × String
  /-- `xml_find_type_value(x, prefix, "xmlns", CX_ATTR) == NULL` -/
  xmlns_missing : cxobj → Bool
  /-- `xml2ns(x, prefix, &namespace2)`: return value and the namespace -/
  xml2ns : cxobj → Int × Option String
  /-- `xmlns_set(x, prefix, namespace2)` -/
  xmlns_set : cxobj → String → Int
  /-- the return value of `api_return_err` -/
  api_return_err : err_arg → Int → Int

/-- The end of a handler after a call of `api_return_err`: a negative return
is an error of the handler, otherwise `goto ok`. -/
def return_err (ret : Int) (xe : err_arg) (pretty code0 : Int) (ev : List restconf_event) :
    Int × List restconf_event :=
  if ret < 0 then (-1, ev ++ [.api_return_err xe pretty code0])
  else (0, ev ++ [.api_return_err xe pretty code0])

/-- The loop of `api_data_get2` over the nodes found, for XML output (lines
222-235): the namespace of each node is grafted on it and the node is
printed. The result is the return value (negative: `goto done`) and the
buffer. -/
def get_xml_vec (io : get_io) (pretty : Int) : List cxobj → String → Int × String
  | [], cbx => (0, cbx)
  | x :: rest, cbx =>
    -- Some complexities in grafting namespace in existing trees to new
    let graft : Int :=
      if io.xmlns_missing x then
        if (io.xml2ns x).1 < 0 then -1
        else
          match (io.xml2ns x).2 with
          | some namespace2 => if io.xmlns_set x namespace2 < 0 then -1 else 0
          | none => 0
      else 0
    if graft < 0 then (-1, cbx)
    else
      let p := io.clicon_xml2cbuf x pretty
      if p.1 < 0 then (-1, cbx ++ p.2)
      else get_xml_vec io pretty rest (cbx ++ p.2)

/-- The response "200 OK" of `api_data_get2` with the body `cbx` (lines
247-252). -/
def get_ok (media_out : restconf_media) (cbx : String) : List restconf_event :=
  [.FCGX_SetExitStatus 200,
   .FCGX_FPrintF "Cache-Control: no-cache\r\n",
   .FCGX_FPrintF ("Content-Type: " ++ restconf_media_int2str media_out ++ "\r\n"),
   .FCGX_FPrintF "\r\n",
   .FCGX_FPrintF cbx,
   .FCGX_FPrintF "\r\n\r\n"]

/-- The XPath of `api_data_get2`: the buffer `cbpath`, which starts as "/" and
to which `api_path2xpath_cvv` appends (lines 122-138). -/
def get_xpath (io : get_io) : String :=
  "/" ++ io.api_path2xpath_cvv.2.1

/-- The answer of `clicon_rpc_get(h, xpath, namespace, &xret)` at line 144. -/
def get_reply (io : get_io) : Int × cxobj :=
  io.clicon_rpc_get (get_xpath io) io.api_path2xpath_cvv.2.2

/-- The normal return of `api_data_get2`, when the reply of the backend holds
no error (lines 174-252); `ev` are the calls made so far. -/
def get_normal (io : get_io) (pretty : Int) (media_out : restconf_media) (head : Int)
    (ev : List restconf_event) : Int × List restconf_event :=
  let xpath := get_xpath io
  let xret := (get_reply io).2
  if head ≠ 0 then
    (0, ev ++ [.FCGX_SetExitStatus 200,
      .FCGX_FPrintF ("Content-Type: " ++ restconf_media_int2str media_out ++ "\r\n"),
      .FCGX_FPrintF "\r\n"])
  else if xpath = "/" then
    -- Special case: data root
    let p : Int × String := match media_out with
      | .YANG_DATA_XML => io.clicon_xml2cbuf xret pretty
      | .YANG_DATA_JSON => io.xml2json_cbuf xret pretty
    if p.1 < 0 then (-1, ev) else (0, ev ++ get_ok media_out p.2)
  else
    let v := io.xpath_vec_nsc xret xpath
    if v.1 < 0 then
      let xe := err_arg.rpc_error
        (netconf_operation_failed_xml "application" io.clicon_err_reason)
      return_err (io.api_return_err xe 0) xe pretty 0 ev
    else if v.2.length = 0 then
      -- Check if not exists: override invalid-value default 400 with 404
      let xerr := err_arg.xerr
        (netconf_invalid_value_xml "application" "Instance does not exist")
      return_err (io.api_return_err xerr 404) xerr pretty 404 ev
    else
      let p : Int × String := match media_out with
        | .YANG_DATA_XML => get_xml_vec io pretty v.2 ""
        | .YANG_DATA_JSON => io.xml2json_cbuf_vec v.2 pretty
      if p.1 < 0 then (-1, ev) else (0, ev ++ get_ok media_out p.2)

/-- `api_data_get2`: generic GET (both HEAD and GET). The result is the
return value and the calls made. -/
def api_data_get2 (io : get_io) (pretty : Int) (media_out : restconf_media) (head : Int) :
    Int × List restconf_event :=
  -- We know "data" is element pi-1
  let ret := io.api_path2xpath_cvv.1
  if ret < 0 then (-1, [])
  else if ret = 0 then
    let xe := err_arg.rpc_error (netconf_operation_failed_xml "protocol" io.clicon_err_reason)
    return_err (io.api_return_err xe 0) xe pretty 0 []
  else
    let xpath := get_xpath io
    let nsp := io.api_path2xpath_cvv.2.2
    let g := get_reply io
    let ev := [restconf_event.clicon_rpc_get xpath nsp]
    if g.1 < 0 then
      let xe := err_arg.rpc_error (netconf_operation_failed_xml "protocol" io.clicon_err_reason)
      return_err (io.api_return_err xe 0) xe pretty 0 ev
    else
      let xret := g.2
      if io.xml_spec_populate xret < 0 then (-1, ev)
      else
        -- Check if error return
        match io.xpath_first xret "//rpc-error" with
        | some xe =>
          return_err (io.api_return_err (.node (xml_id xe)) 0) (.node (xml_id xe)) pretty 0 ev
        | none => get_normal io pretty media_out head ev

/-- `api_data_head`: REST HEAD method. -/
def api_data_head (io : get_io) (pretty : Int) (media_out : restconf_media) :
    Int × List restconf_event :=
  api_data_get2 io pretty media_out 1

/-- `api_data_get`: REST GET method. -/
def api_data_get (io : get_io) (pretty : Int) (media_out : restconf_media) :
    Int × List restconf_event :=
  api_data_get2 io pretty media_out 0

/-- A reply of the backend for the examples: `<data>` with two instances of
a list. -/
def example_reply : cxobj :=
  .mk 300 none [.mk 301 (some 3) [], .mk 302 (some 3) []]

/-- The environment of a GET on `/restconf/data/ex:ifs/if` for the examples:
every call succeeds, the reply of the backend holds no `rpc-error`, and the
XPath finds the nodes `found`. -/
def example_get_io (found : List cxobj) : get_io where
  clicon_err_reason := ""
  api_path2xpath_cvv := (1, "ex:ifs/ex:if", some "urn:example")
  clicon_rpc_get := fun _ _ => (0, example_reply)
  xml_spec_populate := fun _ => 0
  xpath_first := fun _ _ => none
  xpath_vec_nsc := fun _ _ => (0, found)
  clicon_xml2cbuf := fun x _ => (0, if xml_id x = 301 then "<if>a</if>" else "<if>b</if>")
  xml2json_cbuf := fun _ _ => (0, "")
  xml2json_cbuf_vec := fun _ _ => (0, "")
  xmlns_missing := fun _ => false
  xml2ns := fun _ => (0, none)
  xmlns_set := fun _ _ => 0
  api_return_err := fun _ _ => 0

/-- Modelled from the spec: `enum operation_type` of `clixon_xml.h` (not
among the sources), the edit operations of NETCONF. -/
inductive operation_type
  | OP_MERGE
  | OP_REPLACE
  | OP_CREATE
  | OP_DELETE
  | OP_REMOVE
  | OP_NONE
  deriving DecidableEq, Repr

/-- Modelled from the spec: `xml_operation2str(op)` (not among the sources)
names an edit operation as NETCONF writes it in the `operation` attribute
(POST: `create`, PUT: `replace`, PATCH: `merge`, DELETE: `delete`). -/
def xml_operation2str : operation_type → String
  | .OP_MERGE => "merge"
  | .OP_REPLACE => "replace"
  | .OP_CREATE => "create"
  | .OP_DELETE => "delete"
  | .OP_REMOVE => "remove"
  | .OP_NONE => "none"

/-- Modelled from the spec: `xml_child_nr(xn)` of `clixon_xml.c` (not among
the sources) is the number of children of a node. A node of this model holds
its element children, which are all the children of the top node that a
parser hands out. -/
def xml_child_nr : cxobj → Nat
  | .mk _ _ children => children.length

/-- Modelled from the spec: `xml_child_i(xn, i)` is the child number `i` of a
node, NULL when there is none. -/
def xml_child_i : cxobj → Nat → Option cxobj
  | .mk _ _ children, i => children.get? i

/-- What the functions called by `api_data_post` answer, and the macros of
the headers that are not among the sources. -/
structure post_io where
  /-- the prefix that the NETCONF base namespace is bound to -/
  NETCONF_BASE_PREFIX : String
  /-- the NETCONF base namespace -/
  NETCONF_BASE_NAMESPACE : String
  /-- the user name in which commit and copy-config are sent -/
  NACM_RECOVERY_USER : String
  /-- `clicon_err_reason`, the text of the last error when the handler reads
  it -/
  clicon_err_reason : String
  /-- `clicon_dbspec_yang(h)` -/
  clicon_dbspec_yang : Option yang_stmt
  /-- `xml_new(name, parent, NULL)`: the new node -/
  xml_new : String → Option Nat → Nat
  /-- `api_path2xml(api_path, yspec, xtop, YC_DATANODE, 1, &xbot, &ybot)`:
  the return value, the bottom node `xbot` and its YANG statement `ybot` -/
  api_path2xml : String → Nat → Int × Nat × Option yang_stmt
  /-- `ys_module(ybot)` -/
  ys_module : yang_stmt → Option yang_stmt
  /-- `xml_parse_string(data, NULL, &xdata0)`: return value and `xdata0` -/
  xml_parse_string : String → Int × cxobj
  /-- `json_parse_str(data, yspec, &xdata0, &xerr)`: return value, `xdata0`
  and `xerr` -/
  json_parse_str : String → Int × cxobj × cxobj
  /-- `xpath_first(x, xpath)`: the first node that the XPath finds -/
  xpath_first : cxobj → String → Option cxobj
  /-- `ys_module_by_xml(yspec, xdata, &ymoddata)`: return value and module -/
  ys_module_by_xml : cxobj → Int × Option yang_stmt
  /-- `xml_value_set(xa, val)` -/
  xml_value_set : Nat → String → Int
  /-- `xml_addsub(xbot, xdata)` -/
  xml_addsub : Nat → Nat → Int
  /-- `xml_apply0(xdata, CX_ELMNT, xml_spec_populate, yspec)` -/
  xml_spec_populate : cxobj → Int
  /-- `json2xml_decode(xdata, &xerr)`: return value and `xerr` -/
  json2xml_decode : cxobj → Int × cxobj
  /-- `restconf_insert_attributes(xdata, qvec)` -/
  restconf_insert_attributes : cxobj → Int
  /-- `clicon_username_get(h)` -/
  clicon_username_get : Option String
  /-- `clicon_xml2cbuf(cbx, xtop, 0, 0)`: return value and the text appended
  to the buffer -/
  clicon_xml2cbuf : Nat → Int × String
  /-- `clicon_rpc_netconf(h, msg, &xret, NULL)`: return value and reply -/
  clicon_rpc_netconf : String → Int × cxobj
  /-- `if_feature(yspec, module, feature)` -/
  if_feature : String → String → Bool
  /-- the return value of `api_return_err` -/
  api_return_err : err_arg → Int → Int

/-- The end of `api_data_post` on an error document made by
`netconf_malformed_message_xml`: its `rpc-error` goes to `api_return_err`. -/
def post_malformed (io : post_io) (message : String) (pretty : Int)
    (ev : List restconf_event) : Int × List restconf_event :=
  let xe := err_arg.rpc_error (netconf_malformed_message_xml message)
  return_err (io.api_return_err xe 0) xe pretty 0 ev

/-- The end of `api_data_post` on an `rpc-error` found in another tree. -/
def post_rpc_error (io : post_io) (xe : cxobj) (pretty : Int) (ev : List restconf_event) :
    Int × List restconf_event :=
  return_err (io.api_return_err (.node (xml_id xe)) 0) (.node (xml_id xe)) pretty 0 ev

/-- The user name that `api_data_post` writes in its own requests:
`username?username:""`. -/
def post_username (io : post_io) : String :=
  io.clicon_username_get.getD ""

/-- The edit-config request of `api_data_post` (lines 308-316) around the
text `xml` of the tree `xtop`. -/
def edit_config_msg (io : post_io) (xml : String) : String :=
  "<rpc username=\"" ++ post_username io ++ "\" xmlns:" ++ io.NETCONF_BASE_PREFIX ++ "=\"" ++
    io.NETCONF_BASE_NAMESPACE ++ "\">" ++
  "<edit-config><target><candidate /></target>" ++
  "<default-operation>none</default-operation>" ++
  xml ++
  "</edit-config></rpc>"

/-- The commit request of `api_data_post` (lines 330-331). -/
def commit_msg (io : post_io) : String :=
  "<rpc username=\"" ++ io.NACM_RECOVERY_USER ++ "\">" ++ "<commit/></rpc>"

/-- The discard-changes request of `api_data_post` (lines 336-337). -/
def discard_msg (io : post_io) : String :=
  "<rpc username=\"" ++ post_username io ++ "\">" ++ "<discard-changes/></rpc>"

/-- The copy-config request of `api_data_post` (lines 359-360). -/
def copy_config_msg (io : post_io) : String :=
  "<rpc username=\"" ++ io.NACM_RECOVERY_USER ++ "\">" ++
  "<copy-config><source><running/></source><target><startup/></target></copy-config></rpc>"

/-- The response "201 Created" of `api_data_post` (lines 369-373). -/
def post_created (xdata : cxobj) (ev : List restconf_event) : Int × List restconf_event :=
  (0, ev ++ [.FCGX_SetExitStatus 201,
    .FCGX_FPrintF "Status: 201 Created\r\n",
    .http_location (xml_id xdata),
    .FCGX_FPrintF "\r\n"])

/-- The copy of running to startup in `api_data_post` after a commit (lines
351-368), and the response. -/
def post_startup (io : post_io) (xdata : cxobj) (ev : List restconf_event) :
    Int × List restconf_event :=
  if io.if_feature "ietf-netconf" "startup" then
    let c := io.clicon_rpc_netconf (copy_config_msg io)
    let ev1 := ev ++ [.clicon_rpc_netconf (copy_config_msg io)]
    if c.1 < 0 then (-1, ev1)
    else
      -- If copy-config failed, log and ignore (already committed)
      match io.xpath_first c.2 "//rpc-error" with
      | some _ =>
        post_created xdata
          (ev1 ++ [.clicon_log "api_data_post: copy-config running->startup failed"])
      | none => post_created xdata ev1
  else post_created xdata ev

/-- The commit of `api_data_post` (lines 325-350) and what follows. -/
def post_commit (io : post_io) (pretty : Int) (xdata : cxobj) (ev : List restconf_event) :
    Int × List restconf_event :=
  let c := io.clicon_rpc_netconf (commit_msg io)
  let ev1 := ev ++ [.clicon_rpc_netconf (commit_msg io)]
  if c.1 < 0 then (-1, ev1)
  else
    match io.xpath_first c.2 "//rpc-error" with
    | some xe =>
      let d := io.clicon_rpc_netconf (discard_msg io)
      let ev2 := ev1 ++ [.clicon_rpc_netconf (discard_msg io)]
      if d.1 < 0 then (-1, ev2)
      else
        -- log errors from discard, but ignore
        let ev3 := match io.xpath_first d.2 "//rpc-error" with
          | some _ => ev2 ++ [.clicon_log ("api_data_post: discard-changes failed which may " ++
              "lead candidate in an inconsistent state")]
          | none => ev2
        -- Use original xe
        post_rpc_error io xe pretty ev3
    | none => post_startup io xdata ev1

/-- The edit-config of `api_data_post` (lines 300-324) and what follows. -/
def post_edit (io : post_io) (pretty : Int) (xtop : Nat) (xdata : cxobj)
    (ev : List restconf_event) : Int × List restconf_event :=
  let p := io.clicon_xml2cbuf xtop
  if p.1 < 0 then (-1, ev)
  else
    let r := io.clicon_rpc_netconf (edit_config_msg io p.2)
    let ev1 := ev ++ [.clicon_rpc_netconf (edit_config_msg io p.2)]
    if r.1 < 0 then (-1, ev1)
    else
      match io.xpath_first r.2 "//rpc-error" with
      | some xe => post_rpc_error io xe pretty ev1
      | none => post_commit io pretty xdata ev1

/-- The translation of the insert attributes in `api_data_post` (lines
287-289) and what follows. -/
def post_insert (io : post_io) (pretty : Int) (xtop : Nat) (xdata : cxobj)
    (ev : List restconf_event) : Int × List restconf_event :=
  -- If restconf insert/point attributes are present, translate to netconf
  if io.restconf_insert_attributes xdata < 0 then
    (-1, ev ++ [.restconf_insert_attributes (xml_id xdata)])
  else post_edit io pretty xtop xdata (ev ++ [.restconf_insert_attributes (xml_id xdata)])

/-- The test `ymoddata && ymodapi` and `ymoddata != ymodapi` of
`api_data_post` (lines 244-245). -/
def module_mismatch : Option yang_stmt → Option yang_stmt → Bool
  | some ymoddata, some ymodapi => ymoddata != ymodapi
  | _, _ => false

/-- The part of `api_data_post` that checks the parsed body `xdata0` and
puts its child under the bottom of the api-path (lines 220-285), and what
follows. -/
def post_data (io : post_io) (pretty parse_xml : Int) (op : operation_type) (xtop xbot : Nat)
    (ymodapi : Option yang_stmt) (xdata0 : cxobj) (ev : List restconf_event) :
    Int × List restconf_event :=
  -- 4.4.1: The message-body MUST contain exactly one instance of the
  -- expected data resource.
  if xml_child_nr xdata0 ≠ 1 then post_malformed io io.clicon_err_reason pretty ev
  else
    match xml_child_i xdata0 0 with
    | none => (-1, ev) -- not reached: the node has one child
    | some xdata =>
      let m := io.ys_module_by_xml xdata
      if m.1 < 0 then (-1, ev)
      else if module_mismatch m.2 ymodapi then
        post_malformed io "Data is not prefixed with matching namespace" pretty ev
      else
        -- Add operation (create/replace) as attribute
        let xa := io.xml_new "operation" (some (xml_id xdata))
        let ev1 := ev ++ [.xml_new "operation" (some (xml_id xdata)),
          .xml_type_set xa .CX_ATTR,
          .xml_prefix_set xa io.NETCONF_BASE_PREFIX,
          .xml_value_set xa (xml_operation2str op)]
        if io.xml_value_set xa (xml_operation2str op) < 0 then (-1, ev1)
        else
          -- Replace xbot with x, ie bottom of api-path with data
          let ev2 := ev1 ++ [.xml_addsub xbot (xml_id xdata)]
          if io.xml_addsub xbot (xml_id xdata) < 0 then (-1, ev2)
          else
            let nullspec := (xml_spec xdata).isNone
            let ev3 := ev2 ++ [.xml_spec_populate (xml_id xdata)]
            if io.xml_spec_populate xdata < 0 then (-1, ev3)
            else if parse_xml = 0 ∧ nullspec = true then
              let d := io.json2xml_decode xdata
              let ev4 := ev3 ++ [.json2xml_decode (xml_id xdata)]
              if d.1 < 0 then (-1, ev4)
              else if d.1 = 0 then
                return_err (io.api_return_err (.node (xml_id d.2)) 0) (.node (xml_id d.2))
                  pretty 0 ev4
              else post_insert io pretty xtop xdata ev4
            else post_insert io pretty xtop xdata ev3

/-- The part of `api_data_post` that parses the input data as JSON or XML
(lines 175-219), and what follows. -/
def post_parse (io : post_io) (data : String) (pretty parse_xml : Int) (op : operation_type)
    (xtop xbot : Nat) (ymodapi : Option yang_stmt) (ev : List restconf_event) :
    Int × List restconf_event :=
  if parse_xml ≠ 0 then
    let x := io.xml_parse_string data
    if x.1 < 0 then post_malformed io io.clicon_err_reason pretty ev
    else post_data io pretty parse_xml op xtop xbot ymodapi x.2 ev
  else
    let j := io.json_parse_str data
    if j.1 < 0 then post_malformed io io.clicon_err_reason pretty ev
    else if j.1 = 0 then
      match io.xpath_first j.2.2 "rpc-error" with
      | none => (-1, ev)
      | some xe => post_rpc_error io xe pretty ev
    else post_data io pretty parse_xml op xtop xbot ymodapi j.2.1 ev

/-- `api_data_post`: generic REST POST method. `api_path` is the path after
the loop of lines 141-142 has skipped its first `pi` elements, NULL when
nothing is left. The result is the return value and the calls made. -/
def api_data_post (io : post_io) (api_path : Option String) (data : String)
    (pretty _use_xml parse_xml : Int) : Int × List restconf_event :=
  let op := operation_type.OP_CREATE
  match io.clicon_dbspec_yang with
  | none => (-1, [])
  | some _ =>
    -- Create config top-of-tree
    let xtop := io.xml_new "config" none
    let ev := [restconf_event.xml_new "config" none]
    -- Translate api_path to xtop/xbot
    match api_path with
    | some p =>
      let a := io.api_path2xml p xtop
      if a.1 < 0 then (-1, ev)
      else
        let ymodapi := a.2.2.bind io.ys_module
        if a.1 = 0 then
          -- validation failed
          post_malformed io io.clicon_err_reason pretty ev
        else post_parse io data pretty parse_xml op xtop a.2.1 ymodapi ev
    | none => post_parse io data pretty parse_xml op xtop xtop none ev

/-- The top of the tree that `api_data_post` builds: the node of
`xml_new("config", NULL, NULL)`. -/
def post_xtop (io : post_io) : Nat :=
  io.xml_new "config" none

/-- The bottom of the api-path in `api_data_post`, `xbot`, and the module of
its YANG statement, `ymodapi`: the top of the tree and NULL when there is no
api-path. -/
def post_bottom (io : post_io) (api_path : Option String) : Nat × Option yang_stmt :=
  match api_path with
  | some p => ((io.api_path2xml p (post_xtop io)).2.1,
      (io.api_path2xml p (post_xtop io)).2.2.bind io.ys_module)
  | none => (post_xtop io, none)

/-- The api-path of a POST is accepted: there is a YANG specification, and
`api_path2xml` returns 1 on the api-path, if there is one. -/
def post_path_accepted (io : post_io) (api_path : Option String) : Bool :=
  io.clicon_dbspec_yang.isSome &&
  match api_path with
  | some p => decide (0 < (io.api_path2xml p (post_xtop io)).1)
  | none => true

/-- The body of a POST is parsed: `xml_parse_string` does not fail, or
`json_parse_str` returns 1. -/
def post_body_parsed (io : post_io) (data : String) (parse_xml : Int) : Bool :=
  if parse_xml ≠ 0 then decide (0 ≤ (io.xml_parse_string data).1)
  else decide (0 < (io.json_parse_str data).1)

/-- The parsed body `xdata0` of a POST. -/
def post_body (io : post_io) (data : String) (parse_xml : Int) : cxobj :=
  if parse_xml ≠ 0 then (io.xml_parse_string data).2 else (io.json_parse_str data).2.1

/-- An event is a request to the backend. -/
def is_rpc : restconf_event → Bool
  | .clicon_rpc_get _ _ => true
  | .clicon_rpc_netconf _ => true
  | .clicon_rpc_netconf_xml _ => true
  | _ => false

/-- The environment of a POST for the examples: every call succeeds, both
parsers hand out `body`, the data and the api-path are of the same module, no
reply of the backend holds an `rpc-error`, and the feature `startup` is as
`startup` says. -/
def example_post_io (body : cxobj) (startup : Bool) : post_io where
  NETCONF_BASE_PREFIX := "nc"
  NETCONF_BASE_NAMESPACE := "urn:ietf:params:xml:ns:netconf:base:1.0"
  NACM_RECOVERY_USER := "_nacm_recovery"
  clicon_err_reason := ""
  clicon_dbspec_yang := some 0
  xml_new := fun name _ => if name = "config" then 400 else 401
  api_path2xml := fun _ _ => (1, 402, some 2)
  ys_module := fun _ => some 1
  xml_parse_string := fun _ => (0, body)
  json_parse_str := fun _ => (1, body, .mk 499 none [])
  xpath_first := fun _ _ => none
  ys_module_by_xml := fun _ => (0, some 1)
  xml_value_set := fun _ _ => 0
  xml_addsub := fun _ _ => 0
  xml_spec_populate := fun _ => 0
  json2xml_decode := fun _ => (1, .mk 498 none [])
  restconf_insert_attributes := fun _ => 0
  clicon_username_get := some "anna"
  clicon_xml2cbuf := fun _ => (0, "<config><ifs><if nc:operation=\"create\">a</if></ifs></config>")
  clicon_rpc_netconf := fun _ => (0, .mk 500 none [])
  if_feature := fun _ _ => startup
  api_return_err := fun _ _ => 0

/-- The data of a POST, the one child `xdata` of the parsed body, is
accepted: its module is found, it is the module of the api-path when both
have one, and the JSON decoding of `xdata`, when it is done (JSON input and no
YANG statement on `xdata`), returns 1. -/
def post_data_accepted (io : post_io) (api_path : Option String) (parse_xml : Int)
    (xdata : cxobj) : Bool :=
  decide (0 ≤ (io.ys_module_by_xml xdata).1) &&
  !module_mismatch (io.ys_module_by_xml xdata).2 (post_bottom io api_path).2 &&
  if parse_xml = 0 ∧ (xml_spec xdata).isNone = true then
    decide (0 < (io.json2xml_decode xdata).1)
  else true

/-- The calls with which `api_data_post` builds and prints the tree of the
edit-config do not fail. -/
def post_tree_built (io : post_io) (api_path : Option String) (xdata : cxobj) : Bool :=
  decide (0 ≤ io.xml_value_set (io.xml_new "operation" (some (xml_id xdata)))
    (xml_operation2str .OP_CREATE)) &&
  decide (0 ≤ io.xml_addsub (post_bottom io api_path).1 (xml_id xdata)) &&
  decide (0 ≤ io.xml_spec_populate xdata) &&
  decide (0 ≤ io.restconf_insert_attributes xdata) &&
  decide (0 ≤ (io.clicon_xml2cbuf (post_xtop io)).1)

/-- The calls of `api_data_post` on the data `xdata` before the edit-config
is sent, when none of them fails: the attribute `operation` is made on
`xdata`, and `xdata` is put under `xbot`. -/
def post_build_events (io : post_io) (op : operation_type) (xbot : Nat) (parse_xml : Int)
    (xdata : cxobj) : List restconf_event :=
  [.xml_new "operation" (some (xml_id xdata)),
   .xml_type_set (io.xml_new "operation" (some (xml_id xdata))) .CX_ATTR,
   .xml_prefix_set (io.xml_new "operation" (some (xml_id xdata))) io.NETCONF_BASE_PREFIX,
   .xml_value_set (io.xml_new "operation" (some (xml_id xdata))) (xml_operation2str op),
   .xml_addsub xbot (xml_id xdata),
   .xml_spec_populate (xml_id xdata)] ++
  (if parse_xml = 0 ∧ (xml_spec xdata).isNone = true then [.json2xml_decode (xml_id xdata)]
   else []) ++
  [.restconf_insert_attributes (xml_id xdata)]

/-- The response "201 Created" of `api_data_post` for the data `xdata`. -/
def created_events (xdata : cxobj) : List restconf_event :=
  [.FCGX_SetExitStatus 201,
   .FCGX_FPrintF "Status: 201 Created\r\n",
   .http_location (xml_id xdata),
   .FCGX_FPrintF "\r\n"]

/-- The parse tree of the path-arg `../ifs/if[name][mtu]/mtu`, as the parser
builds it: the list `if` with two predicates that are paths, not equality
tests. -/
def example_two_predicates : xpath_tree :=
  path_expr (rel_path (rel_path (rel_path (rel_path (axis_step A_PARENT no_preds) .null)
    (child_step none "ifs" no_preds))
    (child_step none "if"
      (pred (pred no_preds (path_expr (rel_path (child_step none "name" no_preds) .null)))
        (path_expr (rel_path (child_step none "mtu" no_preds) .null)))))
    (child_step none "mtu" no_preds))

/-- The context `xy1` that a caller holds after a call is the context `xy` it
passed in, up to the node: type, boolean and initial node are the same; with
`strict`, the node is the same too. -/
def ctx_frame (strict : Bool) (xy xy1 : xp_yang_ctx) : Bool :=
  decide (xy1.xy_type = xy.xy_type) && decide (xy1.xy_bool = xy.xy_bool) &&
  decide (xy1.xy_initial = xy.xy_initial) &&
  (!strict || decide (xy1.xy_node = xy.xy_node))

/-- A call that returned left the context `xy` it was given as `ctx_frame`
says. -/
def res_frame (strict : Bool) (xy : xp_yang_ctx) (res : xp_res) : Bool :=
  match res with
  | .segv => true
  | .ret _ _ xy1 => ctx_frame strict xy xy1

/-- The parse tree holds no node of the type `XP_ABSPATH`. -/
def no_abspath : xpath_tree → Bool
  | .null => true
  | .node xs_type _ _ _ xs_c0 xs_c1 =>
    decide (xs_type ≠ .XP_ABSPATH) && no_abspath xs_c0 && no_abspath xs_c1

/-- The parse tree of the absolute path `/ex:ifs`, as the parser builds
it. -/
def example_abspath : xpath_tree :=
  path_expr (wrap .XP_ABSPATH (rel_path (child_step (some "ex") "ifs" no_preds) .null))

/-- The handle of the example in which `yspec_new_shared` fails: it returns
NULL and leaves the YANG tree as it is. -/
def example_handle_no_yspec : clixon_handle :=
  { example_handle with yspec_new_shared := fun env _ _ _ _ => (none, env) }

mutual
/-- The element descendants of the nodes of a list, in document order (a node
before its own descendants and before the siblings that follow it), each
with its ancestors below the top node, outermost first; `anc` are the
ancestors of the nodes of the list. -/
def xml_descendants_children (anc : List cxobj) : List cxobj → List (List cxobj × cxobj)
  | [] => []
  | x :: rest =>
    (anc, x) :: (xml_descendants (anc ++ [x]) x ++ xml_descendants_children anc rest)
/-- The element descendants of a node in document order, each with its
ancestors below the top node; `anc` are the ancestors that the children of
the node have. -/
def xml_descendants (anc : List cxobj) : cxobj → List (List cxobj × cxobj)
  | .mk _ _ children => xml_descendants_children anc children
end

/-- An XML node has a bound schema node whose config is not false. -/
def xml_bound_config (h : clixon_handle) (x : cxobj) : Bool :=
  match xml_spec x with
  | none => false
  | some y => decide (h.yang_config y ≠ 0)

/-- The schema node of an XML node is flagged as a mount-point. -/
def xml_mount_flagged (env : yang_api) (x : cxobj) : Bool :=
  match xml_spec x with
  | none => false
  | some y => env.yang_flag_get y .YANG_FLAG_MTPOINT_POTENTIAL

/-- The condition of the description of `yang_mount_xtop2xmnt` on a
descendant `p.2` with the ancestors `p.1`: the node and every ancestor below
the top has a bound schema node with config not false, and the schema node of
the node is flagged as a mount-point. -/
def is_visible_mount (h : clixon_handle) (env : yang_api) (p : List cxobj × cxobj) : Bool :=
  (p.1 ++ [p.2]).all (xml_bound_config h) && xml_mount_flagged env p.2

/-- The XML mount-points below `xtop` in the words of the description of
`yang_mount_xtop2xmnt`: the element descendants of `xtop`, in document order,
that satisfy `is_visible_mount`. -/
def visible_mounts (h : clixon_handle) (env : yang_api) (xtop : cxobj) : List cxobj :=
  ((xml_descendants [] xtop).filter (is_visible_mount h env)).map Prod.snd

/-- An XML tree for the examples: a mount-point (301) that holds a second
mount-point (302) and an unbound element (303) with a mount-point (304)
below it; a config-false element (305, bound to the statement 9) with a
mount-point (306) below it; and a container that is no mount-point (307) with
a mount-point (308) below it. -/
def example_xml_nested : cxobj :=
  .mk 300 none
    [.mk 301 (some 2) [.mk 302 (some 2) [], .mk 303 none [.mk 304 (some 2) []]],
     .mk 305 (some 9) [.mk 306 (some 2) []],
     .mk 307 (some 3) [.mk 308 (some 2) []]]

/-- The handle of the example in which the statement 9 is config false. -/
def example_handle_config : clixon_handle :=
  { example_handle with yang_config := fun y => if y = 9 then 0 else 1 }

/-! ### POST on an operation resource -/

/-- Modelled from the spec: `xml_child_nr_type(xn, CX_ELMNT)` of
`clixon_xml.c` (not among the sources) is the number of element children of a
node. -/
def xml_child_nr_type (xn : cxobj) : Nat :=
  xml_child_nr xn

/-- Modelled from the spec: `xml_child_i_type(xn, i, CX_ELMNT)` is the element
child number `i` of a node, NULL when there is none. -/
def xml_child_i_type (xn : cxobj) (i : Nat) : Option cxobj :=
  xml_child_i xn i

/-- What the functions called by `api_operations_post` and its two helpers
answer. -/
structure operations_io where
  /-- `clicon_err_reason`, the text of the last error when the handler reads
  it -/
  clicon_err_reason : String
  /-- `clicon_dbspec_yang(h)` -/
  clicon_dbspec_yang : Option yang_stmt
  /-- `xml_parse_string(str, yspec, &xt)`: return value and the tree (the body
  is parsed with the YANG specification, the reply of a local handler with
  NULL) -/
  xml_parse_string : String → Int × cxobj
  /-- `json_parse_str(data, yspec, &xdata, &xerr)`: return value, `xdata` and
  `xerr` -/
  json_parse_str : String → Int × cxobj × cxobj
  /-- `xpath_first(x, xpath)`: the first node that the XPath finds -/
  xpath_first : cxobj → String → Option cxobj
  /-- `xml_name(x)` -/
  xml_name : cxobj → String
  /-- `xml_addsub(xrpc, x)` -/
  xml_addsub : Nat → Nat → Int
  /-- the return value of `api_return_err` -/
  api_return_err : err_arg → Int → Int
  /-- `nodeid_split(oppath+1, &prefix, &id)`: return value, prefix and id -/
  nodeid_split : String → Int × Option String × Option String
  /-- `yang_find(yspec, Y_MODULE, prefix)` -/
  yang_find_module : Option String → Option yang_stmt
  /-- `yang_find(ys, Y_RPC, id)` -/
  yang_find_rpc : yang_stmt → Option String → Option yang_stmt
  /-- `yang_find(yrpc, Y_OUTPUT, NULL)` -/
  yang_find_output : yang_stmt → Option yang_stmt
  /-- `xml_new(name, parent, NULL)`: the new node -/
  xml_new : String → Option Nat → Nat
  /-- `clicon_username_get(h)` -/
  clicon_username_get : Option String
  /-- `xml_value_set(xa, val)` -/
  xml_value_set : Nat → String → Int
  /-- `api_path2xml(oppath, yspec, xtop, YC_SCHEMANODE, 1, &xbot, &y)`: the
  return value, the bottom node `xbot` and its YANG statement -/
  api_path2xml : String → Nat → Int × Nat × Option yang_stmt
  /-- `xml_find_type_value(xbot, NULL, "xmlns", CX_ATTR)` -/
  xml_find_type_value_xmlns : Nat → Option String
  /-- `xml_spec_populate_rpc(h, xtop, yspec)` -/
  xml_spec_populate_rpc : Nat → Int
  /-- `xml_yang_validate_rpc(h, xtop, &xret)`: return value and `xret` -/
  xml_yang_validate_rpc : Nat → Int × cxobj
  /-- `rpc_callback_call(h, xbot, cbret, r)`: return value and the text left
  in `cbret` -/
  rpc_callback_call : Nat → Int × String
  /-- `clicon_rpc_netconf_xml(h, xtop, &xret, NULL)`: return value and reply -/
  clicon_rpc_netconf_xml : Nat → Int × cxobj
  /-- `xml_find_type(x, NULL, "xmlns", CX_ATTR)`: the attribute, if any -/
  xml_find_xmlns : cxobj → Option Nat
  /-- `xml_purge(xa)` -/
  xml_purge : Nat → Int
  /-- `xmlns_set(xoutput, NULL, namespace)` -/
  xmlns_set : Nat → Option String → Int
  /-- `clicon_xml2cbuf(cbret, xoutput, 0, pretty)`: return value and the text
  appended to the buffer -/
  clicon_xml2cbuf : cxobj → Int → Int × String
  /-- `xml2json_cbuf(cbret, xoutput, pretty)` -/
  xml2json_cbuf : cxobj → Int → Int × String

/-- The end of a helper of `api_operations_post` after a call of
`api_return_err`: a negative return is an error, otherwise `goto fail`
(return 0). -/
def return_fail (ret : Int) (xe : err_arg) (pretty code0 : Int) (ev : List restconf_event) :
    Int × List restconf_event :=
  if ret < 0 then (-1, ev ++ [.api_return_err xe pretty code0])
  else (0, ev ++ [.api_return_err xe pretty code0])

/-- The loop of `api_operations_post_input` that adds all input under the rpc
element (lines 513-516) over the element children of `xinput` that are left.
Modelled from the spec: `xml_addsub(xp, xc)` of `clixon_xml.c` (not among the
sources) takes `xc` out of its parent before it appends it to `xp`, so that
`xml_child_i_type(xinput, 0, CX_ELMNT)` is the next child each time round the
loop. -/
def input_move (io : operations_io) (xrpc : Nat) :
    List cxobj → List restconf_event → Int × List restconf_event
  | [], ev => (1, ev)
  | x :: rest, ev =>
    if io.xml_addsub xrpc (xml_id x) < 0 then (-1, ev ++ [.xml_addsub xrpc (xml_id x)])
    else input_move io xrpc rest (ev ++ [.xml_addsub xrpc (xml_id x)])

/-- The element children of a node. -/
def xml_children : cxobj → List cxobj
  | .mk _ _ children => children

/-- The part of `api_operations_post_input` after the body is parsed into
`xdata` (lines 478-520). -/
def post_input_check (io : operations_io) (xdata : cxobj) (xrpc : Nat) (pretty : Int)
    (ev : List restconf_event) : Int × List restconf_event :=
  let ev := ev ++ [.xml_name_set (xml_id xdata) "data"]
  -- Validate that exactly only <input> tag
  let malformed : Int × List restconf_event :=
    let xe := err_arg.rpc_error (netconf_malformed_message_xml
      (if xml_child_nr_type xdata = 0 then "restconf RPC does not have input statement"
       else "restconf RPC has malformed input statement (multiple or not called input)"))
    return_fail (io.api_return_err xe 0) xe pretty 0 ev
  match xml_child_i_type xdata 0 with
  | none => malformed
  | some xinput =>
    if io.xml_name xinput ≠ "input" ∨ xml_child_nr_type xdata ≠ 1 then malformed
    else
      -- Add all input under <rpc>path
      input_move io xrpc (xml_children xinput) ev

/-- `api_operations_post_input`: handle the input data of
`api_operations_post`. The result is the return value (1 OK, 0 fail with an
error message sent, -1 fatal error) and the calls made. -/
def api_operations_post_input (io : operations_io) (data : String) (xrpc : Nat)
    (pretty parse_xml : Int) : Int × List restconf_event :=
  -- Parse input data as json or xml into xml
  if parse_xml ≠ 0 then
    let x := io.xml_parse_string data
    if x.1 < 0 then
      let xe := err_arg.rpc_error (netconf_malformed_message_xml io.clicon_err_reason)
      return_fail (io.api_return_err xe 0) xe pretty 0 []
    else post_input_check io x.2 xrpc pretty []
  else
    let j := io.json_parse_str data
    if j.1 < 0 then
      let xe := err_arg.rpc_error (netconf_malformed_message_xml io.clicon_err_reason)
      return_fail (io.api_return_err xe 0) xe pretty 0 []
    else if j.1 = 0 then
      match io.xpath_first j.2.2 "rpc-error" with
      | none => (-1, [])
      | some xe =>
        return_fail (io.api_return_err (.node (xml_id xe)) 0) (.node (xml_id xe)) pretty 0 []
    else post_input_check io j.2.1 xrpc pretty []

/-- What `api_operations_post_output` leaves behind: its return value, the
calls it made, and the tree stored in `*xoutputp` (`none`: nothing). -/
structure post_output_res where
  retval : Int
  events : List restconf_event
  xoutput : Option cxobj

/-- The loop of `api_operations_post_output` that clears the namespace of the
parameters (lines 646-651) over the element children of `xoutput`: the result
is the return value (negative: `goto done`) and the calls made. -/
def output_clear (io : operations_io) :
    List cxobj → List restconf_event → Int × List restconf_event
  | [], ev => (0, ev)
  | x :: rest, ev =>
    match io.xml_find_xmlns x with
    | some xa =>
      if io.xml_purge xa < 0 then (-1, ev ++ [.xml_purge xa])
      else output_clear io rest (ev ++ [.xml_purge xa])
    | none => output_clear io rest ev

/-- The test `isempty` of `api_operations_post_output` (lines 634-637): the
reply has no element child, or a single one that is named `ok`. -/
def output_isempty (io : operations_io) (xoutput : cxobj) : Bool :=
  decide (xml_child_nr_type xoutput = 0) ||
  (decide (xml_child_nr_type xoutput = 1) &&
    match xml_child_i_type xoutput 0 with
    | some xok => decide (io.xml_name xok = "ok")
    | none => false)

/-- `api_operations_post_output`: handle the output data of
`api_operations_post`. `ev` are the calls made before. -/
def api_operations_post_output (io : operations_io) (xret : cxobj)
    (youtput : Option yang_stmt) (nsp : Option String) (pretty : Int)
    (ev : List restconf_event) : post_output_res :=
  -- Validate that exactly only <rpc-reply> tag
  let malformed : post_output_res :=
    let xe := err_arg.rpc_error
      (netconf_malformed_message_xml "restconf RPC does not have single input")
    let r := return_fail (io.api_return_err xe 0) xe pretty 0 ev
    ⟨r.1, r.2, none⟩
  match xml_child_i_type xret 0 with
  | none => malformed
  | some xoutput =>
    if io.xml_name xoutput ≠ "rpc-reply" ∨ xml_child_nr_type xret ≠ 1 then malformed
    else
      -- 9. Translate to restconf RPC data
      let ev1 := ev ++ [.xml_name_set (xml_id xoutput) "output"]
      let ev2 := match youtput with
        | some y => ev1 ++ [.xml_spec_set (xml_id xoutput) y]
        | none => ev1
      -- Special case, no yang output (single <ok/> - or empty body?)
      if output_isempty io xoutput then
        ⟨0, ev2 ++ [.FCGX_SetExitStatus 204,
          .FCGX_FPrintF "Status: 204 No Content\r\n",
          .FCGX_FPrintF "\r\n"], none⟩
      else
        -- Clear namespace of parameters
        let c := output_clear io (xml_children xoutput) ev2
        if c.1 < 0 then ⟨-1, c.2, none⟩
        else
          -- Set namespace on output
          let ev3 := c.2 ++ [.xmlns_set (xml_id xoutput) nsp]
          if io.xmlns_set (xml_id xoutput) nsp < 0 then ⟨-1, ev3, none⟩
          else ⟨1, ev3, some xoutput⟩

/-- Where the first part of `api_operations_post` (lines 735-895) leaves:
`done` is a return (`goto done` with -1 or `goto ok` with 0) with the calls
made, `reply` the point where the reply `xret` of the operation is there
without an `rpc-error`, with the rpc statement, the namespace of the rpc
element and the calls made so far. -/
inductive operations_stage
  | done (retval : Int) (events : List restconf_event)
  | reply (yrpc : yang_stmt) (nsp : Option String) (xret : cxobj)
      (events : List restconf_event)

/-- The end of `api_operations_post` on the `rpc-error` of an error
document or of a reply. -/
def operations_err (io : operations_io) (xe : err_arg) (pretty : Int)
    (ev : List restconf_event) : operations_stage :=
  let r := return_err (io.api_return_err xe 0) xe pretty 0 ev
  .done r.1 r.2

/-- The part of `api_operations_post` that sends the operation to the local
handler or to the backend (lines 868-895). -/
def operations_send (io : operations_io) (yrpc : yang_stmt) (nsp : Option String)
    (xtop xbot : Nat) (pretty : Int) (ev : List restconf_event) : operations_stage :=
  -- Look for local (client-side) restconf plugins.
  let c := io.rpc_callback_call xbot
  let ev1 := ev ++ [.rpc_callback_call xbot]
  if c.1 < 0 then .done (-1) ev1
  else if c.1 > 0 then
    -- Handled locally
    let p := io.xml_parse_string c.2
    if p.1 < 0 then .done (-1) ev1
    else
      match io.xpath_first p.2 "rpc-reply/rpc-error" with
      | some xe => operations_err io (.node (xml_id xe)) pretty ev1
      | none => .reply yrpc nsp p.2 ev1
  else
    -- Send to backend
    let b := io.clicon_rpc_netconf_xml xtop
    let ev2 := ev1 ++ [.clicon_rpc_netconf_xml xtop]
    if b.1 < 0 then .done (-1) ev2
    else
      match io.xpath_first b.2 "rpc-reply/rpc-error" with
      | some xe => operations_err io (.node (xml_id xe)) pretty ev2
      | none => .reply yrpc nsp b.2 ev2

/-- The part of `api_operations_post` that validates the incoming RPC and
fills in the defaults (lines 842-855), and what follows. -/
def operations_validate (io : operations_io) (yrpc : yang_stmt) (nsp : Option String)
    (xtop xbot : Nat) (pretty : Int) (ev : List restconf_event) : operations_stage :=
  let ev1 := ev ++ [.xml_spec_populate_rpc xtop]
  if io.xml_spec_populate_rpc xtop < 0 then .done (-1) ev1
  else
    let v := io.xml_yang_validate_rpc xtop
    let ev2 := ev1 ++ [.xml_yang_validate_rpc xtop]
    if v.1 < 0 then .done (-1) ev2
    else if v.1 = 0 then
      match io.xpath_first v.2 "rpc-error" with
      | none => .done 0 ev2
      | some xe => operations_err io (.node (xml_id xe)) pretty ev2
    else operations_send io yrpc nsp xtop xbot pretty ev2

/-- The first part of `api_operations_post` (lines 735-895), up to the reply
of the operation. `oppath` is the path after the loop of lines 743-744 has
skipped its first `pi` elements, NULL when nothing is left. -/
def operations_request (io : operations_io) (oppath : Option String) (data : Option String)
    (pretty parse_xml : Int) : operations_stage :=
  -- 1. Initialize
  match io.clicon_dbspec_yang with
  | none => .done (-1) []
  | some _ =>
    match oppath with
    | none =>
      operations_err io
        (.rpc_error (netconf_operation_failed_xml "protocol" "Operation name expected"))
        pretty []
    | some path =>
      if path = "/" then
        operations_err io
          (.rpc_error (netconf_operation_failed_xml "protocol" "Operation name expected"))
          pretty []
      else
        -- 2. Get rpc module and name from uri (oppath) and find yang spec
        let s := io.nodeid_split path
        if s.1 < 0 then .done (-1) []
        else
          match io.yang_find_module s.2.1 with
          | none =>
            operations_err io
              (.rpc_error (netconf_operation_failed_xml "protocol" "yang module not found"))
              pretty []
          | some ys =>
            match io.yang_find_rpc ys s.2.2 with
            | none =>
              operations_err io (.missing_element "application" s.2.2 "RPC not defined")
                pretty []
            | some yrpc =>
              -- 3. Build xml tree with user and rpc
              let xtop := io.xml_new "rpc" none
              let ev0 := [restconf_event.xml_new "rpc" none]
              let u : Int × List restconf_event :=
                match io.clicon_username_get with
                | some username =>
                  let xa := io.xml_new "username" (some xtop)
                  (io.xml_value_set xa username,
                    ev0 ++ [.xml_new "username" (some xtop), .xml_type_set xa .CX_ATTR,
                      .xml_value_set xa username])
                | none => (0, ev0)
              if u.1 < 0 then .done (-1) u.2
              else
                let a := io.api_path2xml path xtop
                if a.1 < 0 then .done (-1) u.2
                else if a.1 = 0 then
                  -- validation failed
                  operations_err io
                    (.rpc_error (netconf_malformed_message_xml io.clicon_err_reason))
                    pretty u.2
                else
                  let xbot := a.2.1
                  let nsp := io.xml_find_type_value_xmlns xbot
                  -- 4. Parse input data (arguments)
                  match data with
                  | some d =>
                    if d ≠ "" then
                      let i := api_operations_post_input io d xbot pretty parse_xml
                      if i.1 < 0 then .done (-1) (u.2 ++ i.2)
                      else if i.1 = 0 then .done 0 (u.2 ++ i.2)
                      else operations_validate io yrpc nsp xtop xbot pretty (u.2 ++ i.2)
                    else operations_validate io yrpc nsp xtop xbot pretty u.2
                  | none => operations_validate io yrpc nsp xtop xbot pretty u.2

/-- The last part of `api_operations_post` (lines 908-930), from the reply of
the operation. -/
def operations_reply (io : operations_io) (yrpc : yang_stmt) (nsp : Option String)
    (xret : cxobj) (pretty use_xml : Int) (ev : List restconf_event) :
    Int × List restconf_event :=
  let youtput := io.yang_find_output yrpc
  let o := api_operations_post_output io xret youtput nsp pretty ev
  if o.retval < 0 then (-1, o.events)
  else if o.retval = 0 then (0, o.events)
  else
    match o.xoutput with
    | none => (-1, o.events) -- not reached: a return of 1 stores the output
    | some xoutput =>
      let ev1 := o.events ++ [.FCGX_SetExitStatus 200,
        .FCGX_FPrintF ("Content-Type: application/yang-data+" ++
          (if use_xml ≠ 0 then "xml" else "json") ++ "\r\n"),
        .FCGX_FPrintF "\r\n"]
      let p : Int × String :=
        if use_xml ≠ 0 then io.clicon_xml2cbuf xoutput pretty
        else io.xml2json_cbuf xoutput pretty
      if p.1 < 0 then (-1, ev1)
      else (0, ev1 ++ [.FCGX_FPrintF p.2, .FCGX_FPrintF "\r\n\r\n"])

/-- `api_operations_post`: REST operation POST method. The result is the
return value and the calls made. -/
def api_operations_post (io : operations_io) (oppath : Option String) (data : Option String)
    (pretty use_xml parse_xml : Int) : Int × List restconf_event :=
  match operations_request io oppath data pretty parse_xml with
  | .done retval events => (retval, events)
  | .reply yrpc nsp xret events => operations_reply io yrpc nsp xret pretty use_xml events

/-- The body of a POST on an operation is parsed: `xml_parse_string` does not
fail, or `json_parse_str` returns 1. -/
def input_parsed (io : operations_io) (data : String) (parse_xml : Int) : Bool :=
  if parse_xml ≠ 0 then decide (0 ≤ (io.xml_parse_string data).1)
  else decide (0 < (io.json_parse_str data).1)

/-- The parsed body `xdata` of a POST on an operation. -/
def input_body (io : operations_io) (data : String) (parse_xml : Int) : cxobj :=
  if parse_xml ≠ 0 then (io.xml_parse_string data).2 else (io.json_parse_str data).2.1

/-- A parsed body is accepted as input, in the words of the description of
`api_operations_post_input`: it has exactly one element child, and that child
is named `input`. -/
def input_accepted (io : operations_io) (xdata : cxobj) : Bool :=
  match xml_children xdata with
  | [xinput] => decide (io.xml_name xinput = "input")
  | _ => false

/-- The environment of a POST on the operation `/ex:reset` for the examples:
every call succeeds, both parsers hand out `body`, the names of the nodes are
those of `names` (`x` otherwise), the operation is not handled locally, and
the backend answers with `reply`, which holds no `rpc-error`. The module is
the statement 1, the rpc 20 and its output section `youtput`. -/
def example_operations_io (body reply : cxobj) (names : List (Nat × String))
    (youtput : Option yang_stmt) : operations_io where
  clicon_err_reason := ""
  clicon_dbspec_yang := some 0
  xml_parse_string := fun _ => (0, body)
  json_parse_str := fun _ => (1, body, .mk 499 none [])
  xpath_first := fun _ _ => none
  xml_name := fun x => ((names.find? (fun p => p.1 = xml_id x)).map Prod.snd).getD "x"
  xml_addsub := fun _ _ => 0
  api_return_err := fun _ _ => 0
  nodeid_split := fun _ => (0, some "ex", some "reset")
  yang_find_module := fun _ => some 1
  yang_find_rpc := fun _ _ => some 20
  yang_find_output := fun _ => youtput
  xml_new := fun name _ => if name = "rpc" then 600 else 601
  clicon_username_get := some "anna"
  xml_value_set := fun _ _ => 0
  api_path2xml := fun _ _ => (1, 602, some 20)
  xml_find_type_value_xmlns := fun _ => some "urn:example"
  xml_spec_populate_rpc := fun _ => 0
  xml_yang_validate_rpc := fun _ => (1, .mk 497 none [])
  rpc_callback_call := fun _ => (0, "")
  clicon_rpc_netconf_xml := fun _ => (0, reply)
  xml_find_xmlns := fun _ => none
  xml_purge := fun _ => 0
  xmlns_set := fun _ _ => 0
  clicon_xml2cbuf := fun _ _ => (0, "<output xmlns=\"urn:example\"><x>0</x></output>")
  xml2json_cbuf := fun _ _ => (0, "")

/-! ## Theorems: the path-arg evaluator -/

/-- A context whose node is set is not the empty node-set. -/
theorem xy_empty_of_node {xy : xp_yang_ctx} (h : xy.xy_node ≠ none) : xy_empty xy = false := by
  simp [xy_empty, h]

/-- C2: a step whose axis is neither child nor parent makes
`xp_yang_eval_step` return -1 without storing a result context, whatever the
context and the rest of the step are; so does `xp_yang_eval` on such a step
node, on every context with a non-null schema node. -/
theorem xp_yang_eval_step_invalid_axis (env : yang_api) (xy : xp_yang_ctx)
    (xs_type : xp_type) (xs_int : Int) (xs_s0 xs_s1 : Option String)
    (xs_c0 xs_c1 : xpath_tree) (hnode : xy.xy_node ≠ none)
    (hchild : xs_int ≠ A_CHILD) (hparent : xs_int ≠ A_PARENT) :
    (∀ eval_c1 : xp_yang_ctx → xp_res,
      xp_yang_eval_step env eval_c1 xy (.node xs_type xs_int xs_s0 xs_s1 xs_c0 xs_c1)
        = .ret (-1) none xy) ∧
    xp_yang_eval env xy (.node .XP_STEP xs_int xs_s0 xs_s1 xs_c0 xs_c1)
      = .ret (-1) none xy := by
  have hstep : ∀ (ty : xp_type) (eval_c1 : xp_yang_ctx → xp_res),
      xp_yang_eval_step env eval_c1 xy (.node ty xs_int xs_s0 xs_s1 xs_c0 xs_c1)
        = .ret (-1) none xy := by
    intro ty eval_c1
    simp [xp_yang_eval_step, step_axis, hchild, hparent]
  refine ⟨hstep xs_type, ?_⟩
  simp [xp_yang_eval, xy_empty_of_node hnode, hstep]

/-- C2, at the step `descendant::node()` on the leaf `ref` of the example
schema. -/
theorem xp_yang_eval_step_invalid_axis_witness :
    (∀ eval_c1 : xp_yang_ctx → xp_res,
      xp_yang_eval_step example_api eval_c1 (start_ctx (some 6))
        (.node .XP_STEP A_DESCENDANT none none
          (.node .XP_NODE_FN A_NAN none (some "node") .null .null) no_preds)
        = .ret (-1) none (start_ctx (some 6))) ∧
    xp_yang_eval example_api (start_ctx (some 6))
      (.node .XP_STEP A_DESCENDANT none none
        (.node .XP_NODE_FN A_NAN none (some "node") .null .null) no_preds)
      = .ret (-1) none (start_ctx (some 6)) :=
  xp_yang_eval_step_invalid_axis example_api (start_ctx (some 6)) .XP_STEP A_DESCENDANT
    none none (.node .XP_NODE_FN A_NAN none (some "node") .null .null) no_preds
    (by decide) (by decide) (by decide)

/-- C7: on a context with a non-null schema node, a function call (a
`XP_PRIME_FN` node carrying a function name) whose function is not
`current()` makes `xp_yang_eval` return -1 without storing a result
context. -/
theorem xp_yang_eval_function_rejected (env : yang_api) (xy : xp_yang_ctx)
    (xs_int : Int) (name : String) (xs_s1 : Option String) (xs_c0 xs_c1 : xpath_tree)
    (hnode : xy.xy_node ≠ none) (hfn : xs_int ≠ XPATHFN_CURRENT) :
    xp_yang_eval env xy (.node .XP_PRIME_FN xs_int (some name) xs_s1 xs_c0 xs_c1)
      = .ret (-1) none xy := by
  simp [xp_yang_eval, xy_empty_of_node hnode, hfn]

/-- C7, at the call `deref()` on the leaf `ref` of the example schema. -/
theorem xp_yang_eval_function_rejected_witness :
    xp_yang_eval example_api (start_ctx (some 6))
      (.node .XP_PRIME_FN XPATHFN_DEREF (some "deref") none .null .null)
      = .ret (-1) none (start_ctx (some 6)) :=
  xp_yang_eval_function_rejected example_api (start_ctx (some 6)) XPATHFN_DEREF "deref"
    none .null .null (by decide) (by decide)

/-- C6: on a context with a non-null schema node, a relational expression
whose two operands both evaluate without error makes `xp_yang_eval` return -1
when its operator is not `=`, and it returns 0 only when the operator is
`=`. The second operand is evaluated on the context as the first one left
it. -/
theorem xp_yang_eval_relex_only_eq (env : yang_api) (xy : xp_yang_ctx) (xs_int : Int)
    (xs_s0 xs_s1 : Option String) (xs_c0 xs_c1 : xpath_tree)
    (r0 r1 : Int) (x0 x1 : Option xp_yang_ctx) (xy1 xy2 : xp_yang_ctx)
    (hnode : xy.xy_node ≠ none) (h0 : xs_c0 ≠ .null) (h1 : xs_c1 ≠ .null)
    (he0 : xp_yang_eval env xy xs_c0 = .ret r0 x0 xy1) (hr0 : 0 ≤ r0)
    (he1 : xp_yang_eval env xy1 xs_c1 = .ret r1 x1 xy2) (hr1 : 0 ≤ r1) :
    (xs_int ≠ XO_EQ →
      xp_yang_eval env xy (.node .XP_RELEX xs_int xs_s0 xs_s1 xs_c0 xs_c1)
        = .ret (-1) none xy2) ∧
    (∀ xyr xy3, xp_yang_eval env xy (.node .XP_RELEX xs_int xs_s0 xs_s1 xs_c0 xs_c1)
        = .ret 0 xyr xy3 → xs_int = XO_EQ) := by
  have key : xs_int ≠ XO_EQ →
      xp_yang_eval env xy (.node .XP_RELEX xs_int xs_s0 xs_s1 xs_c0 xs_c1)
        = .ret (-1) none xy2 := by
    intro hop
    rw [xp_yang_eval]
    cases xs_c0 with
    | null => exact absurd rfl h0
    | node t0 i0 a0 b0 l0 m0 =>
      cases xs_c1 with
      | null => exact absurd rfl h1
      | node t1 i1 a1 b1 l1 m1 =>
        simp only [xy_empty_of_node hnode, eval_children, he0, eval_second, eval_use_xy0, he1]
        simp [not_lt.mpr hr0, not_lt.mpr hr1, hop, he1]
  refine ⟨key, ?_⟩
  intro xyr xy3 h
  by_contra hop
  rw [key hop] at h
  simp at h

/-- C6, at the comparison `name != 'x'` evaluated on the list `if` of the
example schema. -/
theorem xp_yang_eval_relex_only_eq_witness :
    (XO_NE ≠ XO_EQ →
      xp_yang_eval example_api (start_ctx (some 3))
        (.node .XP_RELEX XO_NE none none
          (rel_path (child_step none "name" no_preds) .null)
          (.node .XP_PRIME_STR A_NAN (some "x") none .null .null))
        = .ret (-1) none (start_ctx (some 3))) ∧
    (∀ xyr xy3, xp_yang_eval example_api (start_ctx (some 3))
        (.node .XP_RELEX XO_NE none none
          (rel_path (child_step none "name" no_preds) .null)
          (.node .XP_PRIME_STR A_NAN (some "x") none .null .null))
        = .ret 0 xyr xy3 → XO_NE = XO_EQ) :=
  xp_yang_eval_relex_only_eq example_api (start_ctx (some 3)) XO_NE none none
    (rel_path (child_step none "name" no_preds) .null)
    (.node .XP_PRIME_STR A_NAN (some "x") none .null .null)
    0 0 (some { start_ctx (some 3) with xy_node := some 4 }) (some (start_ctx (some 3)))
    (start_ctx (some 3)) (start_ctx (some 3))
    (by decide) (by decide) (by decide) (by decide) (by decide) (by decide) (by decide)

/-- A one-child node of a pass-through kind hands up the result of its child. -/
theorem xp_yang_eval_pass_through (env : yang_api) (xy : xp_yang_ctx) (xs_type : xp_type)
    (xs_int : Int) (xs_s0 xs_s1 : Option String) (e : xpath_tree)
    (res xy1 : xp_yang_ctx) (hp : pass_through xs_type = true) (hne : xy_empty xy = false)
    (hnn : e ≠ .null)
    (h : xp_yang_eval env xy e = .ret 0 (some res) xy1) :
    xp_yang_eval env xy (.node xs_type xs_int xs_s0 xs_s1 e .null)
      = .ret 0 (some res) xy1 := by
  rw [xp_yang_eval]
  cases e with
  | null => exact absurd rfl hnn
  | node t0 i0 a0 b0 l0 m0 =>
    cases xs_type <;> simp [pass_through] at hp <;>
      simp [hne, h, eval_children, eval_second, eval_finish, eval_use_xy0]

/-- What `operand_ok` says about the evaluation of the operand. -/
theorem operand_ok_eval {env : yang_api} {cn : xp_yang_ctx} {a : xpath_tree}
    (h : operand_ok env cn a = true) :
    ∃ c, xp_yang_eval env cn a = .ret 0 (some c) cn ∧ c.xy_node ≠ none := by
  unfold operand_ok at h
  split at h
  · next r c cn1 heq =>
    simp at h
    obtain ⟨h1, h2, h3⟩ := h
    subst h1
    subst h3
    exact ⟨c, heq, by simpa using h2⟩
  · simp at h

/-- An equality test whose operands are fine evaluates to a true boolean. -/
theorem xp_yang_eval_eq_test (env : yang_api) (cn : xp_yang_ctx) (hne : xy_empty cn = false) :
    ∀ (e a b : xpath_tree), eq_test_operands e = some (a, b) →
      operand_ok env cn a = true → operand_ok env cn b = true →
      ∃ c, xp_yang_eval env cn e = .ret 0 (some c) cn ∧
        c.xy_type = .XT_BOOL ∧ c.xy_bool = 1 := by
  intro e
  induction e with
  | null => intro a b h; simp [eq_test_operands] at h
  | node ty i s0 s1 c0 c1 ih0 _ =>
    intro a b h ha hb
    cases c1 with
    | null =>
      simp only [eq_test_operands] at h
      split at h
      · next hp =>
        obtain ⟨c, hc, hb1, hb2⟩ := ih0 a b h ha hb
        have hnn : c0 ≠ .null := by
          intro h0
          subst h0
          simp [eq_test_operands] at h
        exact ⟨c, xp_yang_eval_pass_through env cn ty i s0 s1 c0 c cn hp hne hnn hc, hb1, hb2⟩
      · simp at h
    | node t1 i1 a1 b1 l1 m1 =>
      simp only [eq_test_operands] at h
      split at h
      · next hp =>
        obtain ⟨hty, hi⟩ := hp
        subst hty
        subst hi
        simp only [Option.some.injEq, Prod.mk.injEq] at h
        obtain ⟨h1, h2⟩ := h
        subst h1
        subst h2
        obtain ⟨ca, hca, hna⟩ := operand_ok_eval ha
        obtain ⟨cb, hcb, hnb⟩ := operand_ok_eval hb
        refine ⟨{ ca with xy_type := .XT_BOOL, xy_bool := 1, xy_node := none }, ?_, rfl, rfl⟩
        rw [xp_yang_eval]
        cases c0 with
        | null =>
          rw [xp_yang_eval] at hca
          simp [hne] at hca
        | node t0 i0 a0 b0 l0 m0 =>
          simp [hne, hca, hcb, eval_children, eval_second, eval_use_xy0, xp_yang_op_eq, hna, hnb,
            eval_finish, xy_dup]
      · simp at h


/-- Predicates that are all fine equality tests leave the context as it is. -/
theorem xp_yang_eval_eq_predicates (env : yang_api) (cn : xp_yang_ctx)
    (hne : xy_empty cn = false) :
    ∀ preds : xpath_tree, eq_predicates env cn preds = true → preds ≠ .null →
      xp_yang_eval env cn preds = .ret 0 (some cn) cn := by
  intro preds
  induction preds with
  | null => intro _ h; exact absurd rfl h
  | node ty i s0 s1 prev expr ihp _ =>
    intro h _
    simp only [eq_predicates, Bool.and_eq_true, decide_eq_true_eq] at h
    obtain ⟨⟨hty, hprev⟩, hexpr⟩ := h
    subst hty
    have hfirst : predicate_first (fun c => xp_yang_eval env c prev) cn prev
        = .ret 0 (some cn) cn := by
      cases prev with
      | null => simp [predicate_first, xy_dup]
      | node t0 i0 a0 b0 l0 m0 =>
        simp only [predicate_first]
        exact ihp hprev (by simp)
    rw [xp_yang_eval]
    simp only [hne, xp_yang_eval_predicate, hfirst]
    cases expr with
    | null => simp
    | node t1 i1 a1 b1 l1 m1 =>
      simp only at hexpr
      split at hexpr
      · next x y hxy =>
        simp only [Bool.and_eq_true] at hexpr
        obtain ⟨c, hc, hb1, hb2⟩ :=
          xp_yang_eval_eq_test env cn hne _ x y hxy hexpr.1 hexpr.2
        simp [hc, hb1, hb2]
      · simp at hexpr

/-- C3 (amended): on a context with a non-null schema node, a child step
whose node test resolves to the schema node `n` and whose predicates are all
equality tests evaluates successfully to `n` itself, provided that both
operands of every test evaluate on `n` without error to a context holding a
node and leave the context they are evaluated on as it was. -/
theorem xp_yang_eval_step_eq_predicates (env : yang_api) (xy : xp_yang_ctx)
    (xs_s0 xs_s1 pfx name : Option String) (i0 : Int) (l0 m0 preds : xpath_tree)
    (n : yang_stmt) (hnode : xy.xy_node ≠ none)
    (hfind : env.yang_find_schemanode (step_lookup_base env xy.xy_node pfx) name = some n)
    (hpreds : eq_predicates env { xy with xy_node := some n } preds = true) :
    xp_yang_eval env xy
      (.node .XP_STEP A_CHILD xs_s0 xs_s1 (.node .XP_NODE i0 pfx name l0 m0) preds)
      = .ret 0 (some { xy with xy_node := some n }) xy := by
  have hne : xy_empty ({ xy with xy_node := some n } : xp_yang_ctx) = false := by
    simp [xy_empty]
  rw [xp_yang_eval]
  simp only [xy_empty_of_node hnode, xp_yang_eval_step, step_axis, xy_dup, hfind]
  cases preds with
  | null => simp [step_tail]
  | node t1 i1 a1 b1 l1 m1 =>
    have h := xp_yang_eval_eq_predicates env _ hne _ hpreds (by simp)
    simp [step_tail, h]

/-- C3, amended, at the step `if[name = current()/../ref]` evaluated on the
container `ifs` for the leafref `ref` of the example schema: it resolves to
the list `if`. -/
theorem xp_yang_eval_step_eq_predicates_witness :
    xp_yang_eval example_api { start_ctx (some 6) with xy_node := some 2 }
      (.node .XP_STEP A_CHILD none none (.node .XP_NODE A_NAN none (some "if") .null .null)
        (pred no_preds (eq_current_sibling "name" "ref")))
      = .ret 0 (some { start_ctx (some 6) with xy_node := some 3 })
          { start_ctx (some 6) with xy_node := some 2 } :=
  xp_yang_eval_step_eq_predicates example_api { start_ctx (some 6) with xy_node := some 2 }
    none none none (some "if") A_NAN .null .null
    (pred no_preds (eq_current_sibling "name" "ref")) 3 (by decide) (by decide) (by decide)

/-- C3 fails as stated: on the container `ifs` of the example schema the
node test of the step `if[name = current()/../ifname]` resolves to the list
`if` (3) and its only predicate is an equality test, but the module has no
`ifname` beside the leafref, the second operand is an empty node-set, and the
step fails with -1 instead of evaluating to the list. -/
theorem xp_yang_eval_step_eq_predicate_counterexample :
    example_api.yang_find_schemanode (step_lookup_base example_api (some 2) none) (some "if")
      = some 3 ∧
    (eq_test_operands (eq_current_sibling "name" "ifname")).isSome = true ∧
    xp_yang_eval example_api { start_ctx (some 6) with xy_node := some 2 }
      (child_step none "if" (pred no_preds (eq_current_sibling "name" "ifname")))
      = .ret (-1) none { start_ctx (some 6) with xy_node := some 2 } := by
  decide

/-- Nothing is evaluated on an empty node-set. -/
theorem xp_yang_eval_empty (env : yang_api) (xy : xp_yang_ctx) (t : xpath_tree)
    (h : xy_empty xy = true) : xp_yang_eval env xy t = .ret 0 none xy := by
  cases t <;> simp [xp_yang_eval, h]

/-- When the left side of a path ends in an empty node-set, that node-set is
the result, whatever the right side is. -/
theorem eval_children_left_empty (eval_c0 eval_c1 : xp_yang_ctx → xp_res) (xs_type : xp_type)
    (xs_int : Int) (xs_c0 xs_c1 : xpath_tree) (x e x1 : xp_yang_ctx)
    (h0 : eval_c0 x = .ret 0 (some e) x1) (he : eval_c1 e = .ret 0 none e)
    (hc0 : xs_c0 ≠ .null) (huse : eval_use_xy0 xs_type xs_c1 = true ∨ xs_c1 = .null) :
    eval_children eval_c0 eval_c1 xs_type xs_int xs_c0 xs_c1 x = .ret 0 (some e) x1 := by
  cases xs_c0 with
  | null => exact absurd rfl hc0
  | node t0 i0 a0 b0 l0 m0 =>
    cases xs_c1 with
    | null => simp [eval_children, h0, eval_second, eval_finish]
    | node t1 i1 a1 b1 l1 m1 =>
      have hu : eval_use_xy0 xs_type (.node t1 i1 a1 b1 l1 m1) = true := by
        rcases huse with h | h
        · exact h
        · simp at h
      cases xs_type <;> simp [eval_use_xy0] at hu <;>
        simp [eval_children, h0, eval_second, eval_use_xy0, he, eval_finish]

/-- When the left side of a path ends in a context on which the right side
evaluates to a result, that result is the result of the path. -/
theorem eval_children_right (eval_c0 eval_c1 : xp_yang_ctx → xp_res) (xs_type : xp_type)
    (xs_int : Int) (xs_c0 xs_c1 : xpath_tree) (x x0 x1 e x2 : xp_yang_ctx)
    (h0 : eval_c0 x = .ret 0 (some x0) x1) (h1 : eval_c1 x0 = .ret 0 (some e) x2)
    (hc0 : xs_c0 ≠ .null) (hc1 : xs_c1 ≠ .null)
    (huse : eval_use_xy0 xs_type xs_c1 = true) :
    eval_children eval_c0 eval_c1 xs_type xs_int xs_c0 xs_c1 x = .ret 0 (some e) x1 := by
  cases xs_c0 with
  | null => exact absurd rfl hc0
  | node t0 i0 a0 b0 l0 m0 =>
    cases xs_c1 with
    | null => exact absurd rfl hc1
    | node t1 i1 a1 b1 l1 m1 =>
      cases xs_type <;> simp [eval_use_xy0] at huse <;>
        simp [eval_children, h0, eval_second, eval_use_xy0, h1, eval_finish]

/-- The exit "name not found" of the axis switch hands out the context with
its node cleared. -/
theorem step_axis_ok {env : yang_api} {xy c : xp_yang_ctx} {xs_int : Int}
    {nodetest : xpath_tree} (h : step_axis env xy xs_int nodetest = .ok c) :
    c = { xy with xy_node := none } := by
  unfold step_axis at h
  split at h
  · split at h
    · simp at h
    · simp only at h
      split at h
      · next hn =>
        simp only [step_axis_res.ok.injEq] at h
        rw [← h, hn]
      · simp at h
    · simp at h
    · simp at h
  · split at h <;> simp at h

/-- A tree on which `path_misses` holds is not NULL. -/
theorem path_misses_ne_null {env : yang_api} {xy : xp_yang_ctx} {t : xpath_tree}
    (h : path_misses env xy t = true) : t ≠ .null := by
  intro h0
  subst h0
  simp [path_misses] at h

/-- A missed child step on the path makes the evaluation end, without
error, in an empty node-set. -/
theorem xp_yang_eval_path_misses (env : yang_api) :
    ∀ (t : xpath_tree) (xy : xp_yang_ctx), path_misses env xy t = true →
      xy.xy_type = .XT_NODESET → xy.xy_node ≠ none →
      ∃ e xy1, xp_yang_eval env xy t = .ret 0 (some e) xy1 ∧ xy_empty e = true := by
  intro t
  induction t with
  | null => intro xy h; simp [path_misses] at h
  | node ty i s0 s1 c0 c1 ih0 ih1 =>
    -- the two-sided path, on any non-empty node-set `x`
    have pair : ∀ x : xp_yang_ctx, x.xy_type = .XT_NODESET → x.xy_node ≠ none →
        (path_misses env x c0 ||
          path_right (xp_yang_eval env x c0) (fun x0 => path_misses env x0 c1)) = true →
        eval_use_xy0 ty c1 = true ∨ c1 = .null →
        ∃ e xy1,
          eval_children (fun c => xp_yang_eval env c c0) (fun c => xp_yang_eval env c c1)
            ty i c0 c1 x = .ret 0 (some e) xy1 ∧ xy_empty e = true := by
      intro x hx1 hx2 hm huse
      rw [Bool.or_eq_true] at hm
      rcases hm with hl | hr
      · obtain ⟨e, x1, he, hemp⟩ := ih0 x hl hx1 hx2
        exact ⟨e, x1, eval_children_left_empty _ _ ty i c0 c1 x e x1 he
          (xp_yang_eval_empty env e c1 hemp) (path_misses_ne_null hl) huse, hemp⟩
      · unfold path_right at hr
        split at hr
        · next r x0 x1 heq =>
          simp only [Bool.and_eq_true, decide_eq_true_eq] at hr
          obtain ⟨⟨hr0, hx0t, hx0n⟩, hmiss⟩ := hr
          subst hr0
          obtain ⟨e, x2, he, hemp⟩ := ih1 x0 hmiss hx0t hx0n
          have hc1 : c1 ≠ .null := path_misses_ne_null hmiss
          have hc0 : c0 ≠ .null := by
            intro h0
            subst h0
            rw [xp_yang_eval] at heq
            simp [xy_empty, hx2] at heq
          have hu : eval_use_xy0 ty c1 = true := by
            rcases huse with h | h
            · exact h
            · exact absurd h hc1
          exact ⟨e, x1, eval_children_right _ _ ty i c0 c1 x x0 x1 e x2 heq he hc0 hc1 hu, hemp⟩
        · simp at hr
    -- a node with one child
    have single : ∀ x : xp_yang_ctx, x.xy_type = .XT_NODESET → x.xy_node ≠ none →
        pass_through ty = true → c1 = .null → path_misses env x c0 = true →
        ∃ e xy1, xp_yang_eval env x (.node ty i s0 s1 c0 c1) = .ret 0 (some e) xy1 ∧
          xy_empty e = true := by
      intro x hx1 hx2 hp hc1 hm
      subst hc1
      obtain ⟨e, x1, he, hemp⟩ := ih0 x hm hx1 hx2
      exact ⟨e, x1, xp_yang_eval_pass_through env x ty i s0 s1 c0 e x1 hp
        (xy_empty_of_node hx2) (path_misses_ne_null hm) he, hemp⟩
    intro xy h hty hnode
    have hne := xy_empty_of_node hnode
    cases ty with
    | XP_STEP =>
      simp only [path_misses] at h
      split at h
      · next c hax =>
        refine ⟨c, xy, ?_, ?_⟩
        · rw [xp_yang_eval]
          simp [hne, xp_yang_eval_step, hax]
        · rw [step_axis_ok hax]
          simp [xy_empty, xy_dup, hty]
      · simp at h
    | XP_RELLOCPATH =>
      simp only [path_misses] at h
      rw [xp_yang_eval]
      simp only [hne]
      exact pair xy hty hnode h (Or.inl rfl)
    | XP_PATHEXPR =>
      simp only [path_misses] at h
      rw [xp_yang_eval]
      simp only [hne]
      refine pair xy hty hnode h ?_
      cases c1 <;> simp [eval_use_xy0]
    | XP_ABSPATH =>
      simp only [path_misses] at h
      rw [xp_yang_eval]
      simp only [hne]
      split at h
      · next hk =>
        simp only [Bool.and_eq_true, decide_eq_true_eq] at h
        rw [if_pos hk]
        exact pair _ hty h.1 h.2 (Or.inl rfl)
      · next hk =>
        rw [if_neg hk]
        exact pair xy hty hnode h (Or.inl rfl)
    | XP_EXP =>
      simp only [path_misses] at h
      cases c1 with
      | null => exact single xy hty hnode rfl rfl h
      | node t1 i1 a1 b1 l1 m1 => simp at h
    | XP_AND =>
      simp only [path_misses] at h
      cases c1 with
      | null => exact single xy hty hnode rfl rfl h
      | node t1 i1 a1 b1 l1 m1 => simp at h
    | XP_RELEX =>
      simp only [path_misses] at h
      cases c1 with
      | null => exact single xy hty hnode rfl rfl h
      | node t1 i1 a1 b1 l1 m1 => simp at h
    | XP_ADD =>
      simp only [path_misses] at h
      cases c1 with
      | null => exact single xy hty hnode rfl rfl h
      | node t1 i1 a1 b1 l1 m1 => simp at h
    | XP_UNION =>
      simp only [path_misses] at h
      cases c1 with
      | null => exact single xy hty hnode rfl rfl h
      | node t1 i1 a1 b1 l1 m1 => simp at h
    | XP_FILTEREXPR =>
      simp only [path_misses] at h
      cases c1 with
      | null => exact single xy hty hnode rfl rfl h
      | node t1 i1 a1 b1 l1 m1 => simp at h
    | XP_LOCPATH =>
      simp only [path_misses] at h
      cases c1 with
      | null => exact single xy hty hnode rfl rfl h
      | node t1 i1 a1 b1 l1 m1 => simp at h
    | XP_NODE => simp [path_misses] at h
    | XP_NODE_FN => simp [path_misses] at h
    | XP_PRED => simp [path_misses] at h
    | XP_PRI0 => simp [path_misses] at h
    | XP_PRIME_NR => simp [path_misses] at h
    | XP_PRIME_STR => simp [path_misses] at h
    | XP_PRIME_FN => simp [path_misses] at h

/-- C5 (amended): when the location path of a path-arg runs into a child step
whose identifier is not a schema child of the node reached so far (the step
lying on the path itself, not inside a predicate, and what precedes it having
evaluated without error), `yang_path_arg` returns 0 and the referred node is
NULL, whatever follows the step: the predicates of the step and the steps
after it are arbitrary trees and have no effect on the result. -/
theorem yang_path_arg_missing_child (env : yang_api)
    (xpath_parse : String → Option xpath_tree) (ys : yang_stmt) (path_arg : String)
    (xptree : xpath_tree) (hparse : xpath_parse path_arg = some xptree)
    (hmiss : path_misses env (start_ctx (some ys)) xptree = true) :
    yang_path_arg env xpath_parse (some ys) (some path_arg) = .ret 0 (some none) := by
  obtain ⟨e, xy1, he, hemp⟩ :=
    xp_yang_eval_path_misses env xptree (start_ctx (some ys)) hmiss rfl (by simp [start_ctx])
  have hstart : ({ xy_dup none with xy_node := some ys, xy_initial := some ys } : xp_yang_ctx)
      = start_ctx (some ys) := rfl
  have hnone : e.xy_node = none := by
    simp only [xy_empty, Bool.decide_and, Bool.and_eq_true, decide_eq_true_eq] at hemp
    exact hemp.2
  simp [yang_path_arg, hparse, hstart, he, hnone]

/-- C5, amended, at the path-arg `../ifs/nosuch/descendant::mtu` of the leafref
`ref` of the example schema: the container `ifs` has no child `nosuch`. -/
theorem yang_path_arg_missing_child_witness :
    yang_path_arg example_api example_parse (some 6) (some "../ifs/nosuch/descendant::mtu")
      = .ret 0 (some none) :=
  yang_path_arg_missing_child example_api example_parse 6 "../ifs/nosuch/descendant::mtu"
    (path_expr (rel_path (rel_path (rel_path (rel_path (axis_step A_PARENT no_preds) .null)
      (child_step none "ifs" no_preds)) (child_step none "nosuch" no_preds))
      (.node .XP_STEP A_DESCENDANT none none
        (.node .XP_NODE A_NAN none (some "mtu") .null .null) no_preds)))
    (by decide) (by decide)

/-- C5 fails as stated: in the path-arg
`../ifs/if[name = current()/../ifname]/mtu` of the leafref `ref` of the
example schema the child step `ifname` names no schema child of the node
reached so far (the module, 1), yet `yang_path_arg` returns -1 and stores no
referred node, instead of returning 0 with NULL. -/
theorem yang_path_arg_missing_child_counterexample :
    example_api.yang_find_schemanode (some 1) (some "ifname") = none ∧
    yang_path_arg example_api example_parse (some 6)
      (some "../ifs/if[name = current()/../ifname]/mtu") = .ret (-1) none := by
  decide

/-! ### The calls of an evaluation: errors, restrictions, `current()` -/

/-- An error in a call of the generic traversal makes the traversal fail,
when that holds of the calls of each child. -/
theorem eval_children_failed (eval_c0 eval_c1 : xp_yang_ctx → xp_res)
    (calls_c0 calls_c1 : xp_yang_ctx → List (xp_yang_ctx × xpath_tree))
    (bad : xp_yang_ctx × xpath_tree → Prop)
    (xs_type : xp_type) (xs_int : Int) (xs_c0 xs_c1 : xpath_tree)
    (h0 : ∀ x p, p ∈ calls_c0 x → bad p → xp_failed (eval_c0 x) = true)
    (h1 : ∀ x p, p ∈ calls_c1 x → bad p → xp_failed (eval_c1 x) = true)
    (x : xp_yang_ctx) (p : xp_yang_ctx × xpath_tree)
    (hp : p ∈ calls_children eval_c0 calls_c0 calls_c1 xs_type xs_c0 xs_c1 x)
    (hbad : bad p) :
    xp_failed (eval_children eval_c0 eval_c1 xs_type xs_int xs_c0 xs_c1 x) = true := by
  have second : ∀ (xy : xp_yang_ctx) (xy0 : Option xp_yang_ctx),
      p ∈ calls_second calls_c1 xs_type xs_c1 xy xy0 →
      xp_failed (eval_second eval_c1 xs_type xs_int xs_c1 xy xy0) = true := by
    intro xy xy0 hp2
    unfold calls_second at hp2
    unfold eval_second
    cases xs_c1 with
    | null => simp at hp2
    | node t1 i1 a1 b1 l1 m1 =>
      simp only at hp2 ⊢
      cases hc : (if eval_use_xy0 xs_type (.node t1 i1 a1 b1 l1 m1) then xy0 else some xy) with
      | none => simp [hc] at hp2
      | some c =>
        simp only [hc] at hp2
        have hf := h1 c p hp2 hbad
        cases he : eval_c1 c with
        | segv => simp [he, xp_failed] at hf
        | ret r o z =>
          simp only [he, xp_failed, decide_eq_true_eq] at hf
          simp [hc, he, hf, xp_failed]
  unfold calls_children at hp
  unfold eval_children
  cases xs_c0 with
  | null => exact second x none hp
  | node t0 i0 a0 b0 l0 m0 =>
    simp only [List.mem_append] at hp
    rcases hp with hp | hp
    · have hf := h0 x p hp hbad
      cases he : eval_c0 x with
      | segv => simp [he, xp_failed] at hf
      | ret r o z =>
        simp only [he, xp_failed, decide_eq_true_eq] at hf
        simp [he, hf, xp_failed]
    · cases he : eval_c0 x with
      | segv => simp [he] at hp
      | ret r o z =>
        simp only [he] at hp ⊢
        by_cases hr : r < 0
        · simp [hr, xp_failed]
        · simp only [hr, if_false] at hp ⊢
          exact second z o hp

/-- An error in any call of an evaluation makes the whole evaluation return
an error. -/
theorem xp_yang_eval_calls_failed (env : yang_api) :
    ∀ (t : xpath_tree) (xy : xp_yang_ctx) (p : xp_yang_ctx × xpath_tree),
      p ∈ xp_yang_eval_calls env xy t →
      xp_failed (xp_yang_eval env p.1 p.2) = true →
      xp_failed (xp_yang_eval env xy t) = true := by
  intro t
  induction t with
  | null =>
    intro xy p hp hbad
    simp only [xp_yang_eval_calls, List.mem_singleton] at hp
    subst hp
    exact hbad
  | node ty i s0 s1 c0 c1 ih0 ih1 =>
    intro xy p hp hbad
    simp only [xp_yang_eval_calls] at hp
    rcases List.mem_cons.1 hp with hp | hp
    · subst hp
      exact hbad
    · by_cases hemp : xy_empty xy = true
      · simp [hemp] at hp
      · have hch : ∀ x, p ∈ calls_children (fun c => xp_yang_eval env c c0)
            (fun c => xp_yang_eval_calls env c c0) (fun c => xp_yang_eval_calls env c c1)
            ty c0 c1 x →
            xp_failed (eval_children (fun c => xp_yang_eval env c c0)
              (fun c => xp_yang_eval env c c1) ty i c0 c1 x) = true :=
          fun x hx => eval_children_failed _ _ _ _
            (fun q => xp_failed (xp_yang_eval env q.1 q.2) = true) ty i c0 c1
            (fun x q hq hb => ih0 x q hq hb) (fun x q hq hb => ih1 x q hq hb) x p hx hbad
        have hne : xy_empty xy = false := by simpa using hemp
        rw [xp_yang_eval]
        simp only [hne, Bool.false_eq_true, if_false] at hp ⊢
        cases ty with
        | XP_RELEX => exact hch xy hp
        | XP_PATHEXPR => exact hch xy hp
        | XP_FILTEREXPR => exact hch xy hp
        | XP_LOCPATH => exact hch xy hp
        | XP_NODE => exact hch xy hp
        | XP_NODE_FN => exact hch xy hp
        | XP_RELLOCPATH => exact hch xy hp
        | XP_EXP =>
          cases c1 with
          | null => exact hch xy hp
          | node t1 i1 a1 b1 l1 m1 => simp at hp
        | XP_AND =>
          cases c1 with
          | null => exact hch xy hp
          | node t1 i1 a1 b1 l1 m1 => simp at hp
        | XP_ADD =>
          cases c1 with
          | null => exact hch xy hp
          | node t1 i1 a1 b1 l1 m1 => simp at hp
        | XP_UNION =>
          cases c1 with
          | null => exact hch xy hp
          | node t1 i1 a1 b1 l1 m1 => simp at hp
        | XP_ABSPATH =>
          simp only at hp ⊢
          split at hp
          · next hk =>
            rw [if_pos hk]
            exact hch _ hp
          · next hk =>
            rw [if_neg hk]
            exact hch _ hp
        | XP_PRIME_FN =>
          cases s0 with
          | none => exact hch xy hp
          | some name => simp at hp
        | XP_PRIME_STR => simp at hp
        | XP_PRI0 => simp at hp
        | XP_PRIME_NR => simp at hp
        | XP_PRED =>
          simp only at hp ⊢
          simp only [xp_yang_eval_predicate]
          simp only [List.mem_append] at hp
          rcases hp with hp | hp
          · cases c0 with
            | null => simp at hp
            | node t0 i0 a0 b0 l0 m0 =>
              simp only at hp
              have hf := ih0 xy p hp hbad
              simp only [predicate_first]
              cases he : xp_yang_eval env xy (.node t0 i0 a0 b0 l0 m0) with
              | segv => simp [he, xp_failed] at hf
              | ret r o z =>
                simp only [he, xp_failed, decide_eq_true_eq] at hf
                simp [hf, xp_failed]
          · cases hfirst : predicate_first (fun c => xp_yang_eval env c c0) xy c0 with
            | segv => simp [hfirst] at hp
            | ret r xy0 z =>
              simp only [hfirst] at hp ⊢
              by_cases hr : r < 0
              · simp [hr, xp_failed]
              · simp only [hr, if_false] at hp ⊢
                cases c1 with
                | null => simp at hp
                | node t1 i1 a1 b1 l1 m1 =>
                  cases xy0 with
                  | none => simp at hp
                  | some x0 =>
                    simp only at hp ⊢
                    have hf := ih1 x0 p hp hbad
                    cases he : xp_yang_eval env x0 (.node t1 i1 a1 b1 l1 m1) with
                    | segv => simp [he, xp_failed] at hf
                    | ret r1 o1 z1 =>
                      simp only [he, xp_failed, decide_eq_true_eq] at hf
                      simp [hf, xp_failed]
        | XP_STEP =>
          simp only at hp ⊢
          simp only [xp_yang_eval_step]
          cases hax : step_axis env (xy_dup (some xy)) i c0 with
          | error => simp [hax] at hp
          | ok c => simp [hax] at hp
          | next c =>
            simp only [hax] at hp ⊢
            cases c1 with
            | null => simp at hp
            | node t1 i1 a1 b1 l1 m1 =>
              simp only at hp
              have hf := ih1 c p hp hbad
              simp only [step_tail]
              cases he : xp_yang_eval env c (.node t1 i1 a1 b1 l1 m1) with
              | segv => simp [he, xp_failed] at hf
              | ret r1 o1 z1 =>
                simp only [he, xp_failed, decide_eq_true_eq] at hf
                simp [hf, xp_failed]

/-- A call of the generic traversal that is not accepted keeps the traversal
from being accepted, when that holds of the calls of each child. -/
theorem eval_children_rejected (eval_c0 eval_c1 : xp_yang_ctx → xp_res)
    (calls_c0 calls_c1 : xp_yang_ctx → List (xp_yang_ctx × xpath_tree))
    (bad : xp_yang_ctx × xpath_tree → Prop)
    (xs_type : xp_type) (xs_int : Int) (xs_c0 xs_c1 : xpath_tree)
    (h0 : ∀ x p, p ∈ calls_c0 x → bad p → xp_accepted (eval_c0 x) = false)
    (h1 : ∀ x p, p ∈ calls_c1 x → bad p → xp_accepted (eval_c1 x) = false)
    (x : xp_yang_ctx) (p : xp_yang_ctx × xpath_tree)
    (hp : p ∈ calls_children eval_c0 calls_c0 calls_c1 xs_type xs_c0 xs_c1 x)
    (hbad : bad p) :
    xp_accepted (eval_children eval_c0 eval_c1 xs_type xs_int xs_c0 xs_c1 x) = false := by
  have second : ∀ (xy : xp_yang_ctx) (xy0 : Option xp_yang_ctx),
      p ∈ calls_second calls_c1 xs_type xs_c1 xy xy0 →
      xp_accepted (eval_second eval_c1 xs_type xs_int xs_c1 xy xy0) = false := by
    intro xy xy0 hp2
    unfold calls_second at hp2
    unfold eval_second
    cases xs_c1 with
    | null => simp at hp2
    | node t1 i1 a1 b1 l1 m1 =>
      simp only at hp2 ⊢
      cases hc : (if eval_use_xy0 xs_type (.node t1 i1 a1 b1 l1 m1) then xy0 else some xy) with
      | none => simp [hc] at hp2
      | some c =>
        simp only [hc] at hp2
        have hf := h1 c p hp2 hbad
        cases he : eval_c1 c with
        | segv => simp [he, xp_accepted]
        | ret r o z =>
          simp only [he, xp_accepted, decide_eq_false_iff_not, not_le] at hf
          simp [hc, he, hf, xp_accepted]
  unfold calls_children at hp
  unfold eval_children
  cases xs_c0 with
  | null => exact second x none hp
  | node t0 i0 a0 b0 l0 m0 =>
    simp only [List.mem_append] at hp
    rcases hp with hp | hp
    · have hf := h0 x p hp hbad
      cases he : eval_c0 x with
      | segv => simp [he, xp_accepted]
      | ret r o z =>
        simp only [he, xp_accepted, decide_eq_false_iff_not, not_le] at hf
        simp [he, hf, xp_accepted]
    · cases he : eval_c0 x with
      | segv => simp [he] at hp
      | ret r o z =>
        simp only [he] at hp ⊢
        by_cases hr : r < 0
        · simp [hr, xp_accepted]
        · simp only [hr, if_false] at hp ⊢
          exact second z o hp

/-- A call of an evaluation that is not accepted (an error, or a NULL
dereference) keeps the whole evaluation from being accepted. -/
theorem xp_yang_eval_calls_rejected (env : yang_api) :
    ∀ (t : xpath_tree) (xy : xp_yang_ctx) (p : xp_yang_ctx × xpath_tree),
      p ∈ xp_yang_eval_calls env xy t →
      xp_accepted (xp_yang_eval env p.1 p.2) = false →
      xp_accepted (xp_yang_eval env xy t) = false := by
  intro t
  induction t with
  | null =>
    intro xy p hp hbad
    simp only [xp_yang_eval_calls, List.mem_singleton] at hp
    subst hp
    exact hbad
  | node ty i s0 s1 c0 c1 ih0 ih1 =>
    intro xy p hp hbad
    simp only [xp_yang_eval_calls] at hp
    rcases List.mem_cons.1 hp with hp | hp
    · subst hp
      exact hbad
    · by_cases hemp : xy_empty xy = true
      · simp [hemp] at hp
      · have hch : ∀ x, p ∈ calls_children (fun c => xp_yang_eval env c c0)
            (fun c => xp_yang_eval_calls env c c0) (fun c => xp_yang_eval_calls env c c1)
            ty c0 c1 x →
            xp_accepted (eval_children (fun c => xp_yang_eval env c c0)
              (fun c => xp_yang_eval env c c1) ty i c0 c1 x) = false :=
          fun x hx => eval_children_rejected _ _ _ _
            (fun q => xp_accepted (xp_yang_eval env q.1 q.2) = false) ty i c0 c1
            (fun x q hq hb => ih0 x q hq hb) (fun x q hq hb => ih1 x q hq hb) x p hx hbad
        have hne : xy_empty xy = false := by simpa using hemp
        rw [xp_yang_eval]
        simp only [hne, Bool.false_eq_true, if_false] at hp ⊢
        cases ty with
        | XP_RELEX => exact hch xy hp
        | XP_PATHEXPR => exact hch xy hp
        | XP_FILTEREXPR => exact hch xy hp
        | XP_LOCPATH => exact hch xy hp
        | XP_NODE => exact hch xy hp
        | XP_NODE_FN => exact hch xy hp
        | XP_RELLOCPATH => exact hch xy hp
        | XP_EXP =>
          cases c1 with
          | null => exact hch xy hp
          | node t1 i1 a1 b1 l1 m1 => simp at hp
        | XP_AND =>
          cases c1 with
          | null => exact hch xy hp
          | node t1 i1 a1 b1 l1 m1 => simp at hp
        | XP_ADD =>
          cases c1 with
          | null => exact hch xy hp
          | node t1 i1 a1 b1 l1 m1 => simp at hp
        | XP_UNION =>
          cases c1 with
          | null => exact hch xy hp
          | node t1 i1 a1 b1 l1 m1 => simp at hp
        | XP_ABSPATH =>
          simp only at hp ⊢
          split at hp
          · next hk =>
            rw [if_pos hk]
            exact hch _ hp
          · next hk =>
            rw [if_neg hk]
            exact hch _ hp
        | XP_PRIME_FN =>
          cases s0 with
          | none => exact hch xy hp
          | some name => simp at hp
        | XP_PRIME_STR => simp at hp
        | XP_PRI0 => simp at hp
        | XP_PRIME_NR => simp at hp
        | XP_PRED =>
          simp only at hp ⊢
          simp only [xp_yang_eval_predicate]
          simp only [List.mem_append] at hp
          rcases hp with hp | hp
          · cases c0 with
            | null => simp at hp
            | node t0 i0 a0 b0 l0 m0 =>
              simp only at hp
              have hf := ih0 xy p hp hbad
              simp only [predicate_first]
              cases he : xp_yang_eval env xy (.node t0 i0 a0 b0 l0 m0) with
              | segv => simp [he, xp_accepted]
              | ret r o z =>
                simp only [he, xp_accepted, decide_eq_false_iff_not, not_le] at hf
                simp [hf, xp_accepted]
          · cases hfirst : predicate_first (fun c => xp_yang_eval env c c0) xy c0 with
            | segv => simp [hfirst] at hp
            | ret r xy0 z =>
              simp only [hfirst] at hp ⊢
              by_cases hr : r < 0
              · simp [hr, xp_accepted]
              · simp only [hr, if_false] at hp ⊢
                cases c1 with
                | null => simp at hp
                | node t1 i1 a1 b1 l1 m1 =>
                  cases xy0 with
                  | none => simp at hp
                  | some x0 =>
                    simp only at hp ⊢
                    have hf := ih1 x0 p hp hbad
                    cases he : xp_yang_eval env x0 (.node t1 i1 a1 b1 l1 m1) with
                    | segv => simp [he, xp_accepted]
                    | ret r1 o1 z1 =>
                      simp only [he, xp_accepted, decide_eq_false_iff_not, not_le] at hf
                      simp [hf, xp_accepted]
        | XP_STEP =>
          simp only at hp ⊢
          simp only [xp_yang_eval_step]
          cases hax : step_axis env (xy_dup (some xy)) i c0 with
          | error => simp [hax] at hp
          | ok c => simp [hax] at hp
          | next c =>
            simp only [hax] at hp ⊢
            cases c1 with
            | null => simp at hp
            | node t1 i1 a1 b1 l1 m1 =>
              simp only at hp
              have hf := ih1 c p hp hbad
              simp only [step_tail]
              cases he : xp_yang_eval env c (.node t1 i1 a1 b1 l1 m1) with
              | segv => simp [he, xp_accepted]
              | ret r1 o1 z1 =>
                simp only [he, xp_accepted, decide_eq_false_iff_not, not_le] at hf
                simp [hf, xp_accepted]


/-- A node that breaks one of the three restrictions is not accepted on a
non-empty context. -/
theorem xp_yang_eval_node_rejected (env : yang_api) (c : xp_yang_ctx) (n : xpath_tree)
    (hne : xy_empty c = false) (hbad : path_arg_node n = false) :
    xp_accepted (xp_yang_eval env c n) = false := by
  cases n with
  | null => simp [path_arg_node] at hbad
  | node ty i s0 s1 c0 c1 =>
    rw [xp_yang_eval]
    simp only [hne, Bool.false_eq_true, if_false]
    cases ty with
    | XP_STEP =>
      simp only [path_arg_node, decide_eq_false_iff_not, not_or] at hbad
      simp [xp_yang_eval_step, step_axis, hbad.1, hbad.2, xp_accepted]
    | XP_PRIME_FN =>
      cases s0 with
      | none => simp [path_arg_node] at hbad
      | some name =>
        simp only [path_arg_node, decide_eq_false_iff_not] at hbad
        simp [hbad, xp_accepted]
    | XP_RELEX =>
      simp only [path_arg_node, decide_eq_false_iff_not, not_or] at hbad
      obtain ⟨hc1, hop⟩ := hbad
      have second : ∀ (x : xp_yang_ctx) (x0 : Option xp_yang_ctx),
          xp_accepted (eval_second (fun c => xp_yang_eval env c c1) .XP_RELEX i c1 x x0)
            = false := by
        intro x x0
        cases c1 with
        | null => exact absurd rfl hc1
        | node t1 i1 a1 b1 l1 m1 =>
          simp only [eval_second, eval_use_xy0, Bool.false_eq_true, if_false]
          cases he : xp_yang_eval env x (.node t1 i1 a1 b1 l1 m1) with
          | segv => simp [xp_accepted]
          | ret r o z =>
            by_cases hr : r < 0
            · simp [hr, xp_accepted]
            · simp [hr, hop, xp_accepted]
      simp only [eval_children]
      cases c0 with
      | null => exact second c none
      | node t0 i0 a0 b0 l0 m0 =>
        simp only
        cases he : xp_yang_eval env c (.node t0 i0 a0 b0 l0 m0) with
        | segv => simp [xp_accepted]
        | ret r o z =>
          by_cases hr : r < 0
          · simp [hr, xp_accepted]
          · simp only [hr, if_false]
            exact second z o
    | XP_EXP => simp [path_arg_node] at hbad
    | XP_AND => simp [path_arg_node] at hbad
    | XP_ADD => simp [path_arg_node] at hbad
    | XP_UNION => simp [path_arg_node] at hbad
    | XP_PATHEXPR => simp [path_arg_node] at hbad
    | XP_FILTEREXPR => simp [path_arg_node] at hbad
    | XP_LOCPATH => simp [path_arg_node] at hbad
    | XP_ABSPATH => simp [path_arg_node] at hbad
    | XP_RELLOCPATH => simp [path_arg_node] at hbad
    | XP_NODE => simp [path_arg_node] at hbad
    | XP_NODE_FN => simp [path_arg_node] at hbad
    | XP_PRED => simp [path_arg_node] at hbad
    | XP_PRI0 => simp [path_arg_node] at hbad
    | XP_PRIME_NR => simp [path_arg_node] at hbad
    | XP_PRIME_STR => simp [path_arg_node] at hbad

/-- C1 (amended): when `xp_yang_eval` accepts a tree (returns 0), every node
of the tree on which the evaluation calls `xp_yang_eval` with a non-empty
context keeps the restrictions of a path-arg: a step uses the child or the
parent axis, a relational expression with a second operand uses `=`, and a
function call is `current()`. What the evaluation does not reach in this way
is not checked. And an error returned by the call on any node makes the
evaluation of the tree return an error. -/
theorem xp_yang_eval_accepted_restricted (env : yang_api) (xy : xp_yang_ctx)
    (xptree : xpath_tree) (c : xp_yang_ctx) (n : xpath_tree)
    (hcall : (c, n) ∈ xp_yang_eval_calls env xy xptree) (hne : xy_empty c = false) :
    ((∃ xyr xy1, xp_yang_eval env xy xptree = .ret 0 xyr xy1) → path_arg_node n = true) ∧
    (xp_failed (xp_yang_eval env c n) = true →
      xp_failed (xp_yang_eval env xy xptree) = true) := by
  constructor
  · intro hacc
    obtain ⟨xyr, xy1, h⟩ := hacc
    by_contra hbad
    have hbad2 : path_arg_node n = false := by simpa using hbad
    have hrej := xp_yang_eval_calls_rejected env xptree xy (c, n) hcall
      (xp_yang_eval_node_rejected env c n hne hbad2)
    simp [h, xp_accepted] at hrej
  · intro hf
    exact xp_yang_eval_calls_failed env xptree xy (c, n) hcall hf

/-- C1, amended, at the path-arg `../ifs/if/name` of the leafref `ref` of the
example schema, and the call on its last step, made on the list `if`. -/
theorem xp_yang_eval_accepted_restricted_witness :
    (({ start_ctx (some 6) with xy_node := some 3 }, child_step none "name" no_preds) ∈
        xp_yang_eval_calls example_api (start_ctx (some 6))
          (rel_path (rel_path (rel_path (rel_path (axis_step A_PARENT no_preds) .null)
            (child_step none "ifs" no_preds)) (child_step none "if" no_preds))
            (child_step none "name" no_preds))) ∧
    xy_empty { start_ctx (some 6) with xy_node := some 3 } = false ∧
    (((∃ xyr xy1, xp_yang_eval example_api (start_ctx (some 6))
        (rel_path (rel_path (rel_path (rel_path (axis_step A_PARENT no_preds) .null)
          (child_step none "ifs" no_preds)) (child_step none "if" no_preds))
          (child_step none "name" no_preds)) = .ret 0 xyr xy1) →
        path_arg_node (child_step none "name" no_preds) = true) ∧
      (xp_failed (xp_yang_eval example_api { start_ctx (some 6) with xy_node := some 3 }
          (child_step none "name" no_preds)) = true →
        xp_failed (xp_yang_eval example_api (start_ctx (some 6))
          (rel_path (rel_path (rel_path (rel_path (axis_step A_PARENT no_preds) .null)
            (child_step none "ifs" no_preds)) (child_step none "if" no_preds))
            (child_step none "name" no_preds))) = true)) :=
  ⟨by decide, by decide,
    xp_yang_eval_accepted_restricted example_api (start_ctx (some 6))
      (rel_path (rel_path (rel_path (rel_path (axis_step A_PARENT no_preds) .null)
        (child_step none "ifs" no_preds)) (child_step none "if" no_preds))
        (child_step none "name" no_preds))
      { start_ctx (some 6) with xy_node := some 3 } (child_step none "name" no_preds) (by decide) (by decide)⟩

/-- C1 fails as stated: on the leaf `ref` of the example schema, whose
module has no child `nosuch`, `xp_yang_eval` accepts the tree of
`nosuch/descendant::mtu` (it returns 0, with an empty node-set), although
the tree has a step on the descendant axis. -/
theorem xp_yang_eval_accepts_descendant_counterexample :
    (start_ctx (some 6)).xy_node ≠ none ∧
    xp_yang_eval example_api (start_ctx (some 6))
      (path_expr (rel_path (rel_path (child_step none "nosuch" no_preds) .null)
        (.node .XP_STEP A_DESCENDANT none none
          (.node .XP_NODE A_NAN none (some "mtu") .null .null) no_preds)))
      = .ret 0 (some { start_ctx (some 6) with xy_node := none }) (start_ctx (some 6)) ∧
    path_arg_tree
      (path_expr (rel_path (rel_path (child_step none "nosuch" no_preds) .null)
        (.node .XP_STEP A_DESCENDANT none none
          (.node .XP_NODE A_NAN none (some "mtu") .null .null) no_preds))) = false := by
  decide


/-- What `res_initial` says of a call that returned. -/
theorem res_initial_ret (i : Option yang_stmt) (r : Int) (xyr : Option xp_yang_ctx)
    (xy : xp_yang_ctx) :
    res_initial i (.ret r xyr xy) = true ↔
      xy.xy_initial = i ∧ ∀ o, xyr = some o → o.xy_initial = i := by
  cases xyr <;> simp [res_initial]

/-- The result assigned at the end of `xp_yang_eval` is one of the local
results or a copy of the context. -/
theorem eval_finish_initial (i : Option yang_stmt) (xs_type : xp_type) (xy : xp_yang_ctx)
    (xy0 xy1 xy2 : Option xp_yang_ctx) (hxy : xy.xy_initial = i)
    (h0 : ∀ o, xy0 = some o → o.xy_initial = i) (h1 : ∀ o, xy1 = some o → o.xy_initial = i)
    (h2 : ∀ o, xy2 = some o → o.xy_initial = i) :
    res_initial i (eval_finish xs_type xy xy0 xy1 xy2) = true := by
  cases xy2 with
  | some c2 => simpa [eval_finish, res_initial, hxy] using h2 c2 rfl
  | none =>
    cases xy1 with
    | some c1 => simpa [eval_finish, res_initial, hxy] using h1 c1 rfl
    | none =>
      cases xy0 with
      | some c0 => simpa [eval_finish, res_initial, hxy] using h0 c0 rfl
      | none =>
        by_cases ha : xs_type = .XP_ABSPATH
        · simp [eval_finish, res_initial, hxy, ha, xy_dup]
        · simp [eval_finish, res_initial, hxy, ha]

/-- The boolean that `xp_yang_op_eq` stores is a copy of its first operand. -/
theorem xp_yang_op_eq_initial (i : Option yang_stmt) (xy1 xy2 : Option xp_yang_ctx)
    (h1 : ∀ o, xy1 = some o → o.xy_initial = i) :
    ∀ o, (xp_yang_op_eq xy1 xy2).2 = some o → o.xy_initial = i := by
  intro o ho
  cases xy1 with
  | none => simp [xp_yang_op_eq] at ho
  | some c1 =>
    cases xy2 with
    | none => simp [xp_yang_op_eq] at ho
    | some c2 =>
      simp only [xp_yang_op_eq, xy_dup] at ho
      split at ho
      · simp at ho
      · simp only [Option.some.injEq] at ho
        rw [← ho]
        exact h1 c1 rfl

/-- The second half of the generic traversal keeps the initial node. -/
theorem eval_second_initial (eval_c1 : xp_yang_ctx → xp_res)
    (H1 : ∀ c, res_initial c.xy_initial (eval_c1 c) = true)
    (i : Option yang_stmt) (xs_type : xp_type) (xs_int : Int) (xs_c1 : xpath_tree)
    (xy : xp_yang_ctx) (xy0 : Option xp_yang_ctx) (hxy : xy.xy_initial = i)
    (h0 : ∀ o, xy0 = some o → o.xy_initial = i) :
    res_initial i (eval_second eval_c1 xs_type xs_int xs_c1 xy xy0) = true := by
  unfold eval_second
  cases xs_c1 with
  | null => exact eval_finish_initial i xs_type xy xy0 none none hxy h0 (by simp) (by simp)
  | node t1 i1 a1 b1 l1 m1 =>
    simp only
    cases hc : (if eval_use_xy0 xs_type (.node t1 i1 a1 b1 l1 m1) then xy0 else some xy) with
    | none => simp [res_initial]
    | some c =>
      have hci : c.xy_initial = i := by
        by_cases hu : eval_use_xy0 xs_type (.node t1 i1 a1 b1 l1 m1) = true
        · rw [if_pos hu] at hc
          exact h0 c hc
        · rw [if_neg hu] at hc
          simp only [Option.some.injEq] at hc
          rw [← hc]
          exact hxy
      have hres := H1 c
      simp only
      cases he : eval_c1 c with
      | segv => simp [res_initial]
      | ret r xy1 z =>
        rw [he, res_initial_ret, hci] at hres
        obtain ⟨hz, ho⟩ := hres
        have hxy2 : (if eval_use_xy0 xs_type (.node t1 i1 a1 b1 l1 m1) = true then xy else z).xy_initial
            = i := by
          split
          · exact hxy
          · exact hz
        have h02 : ∀ o, (if eval_use_xy0 xs_type (.node t1 i1 a1 b1 l1 m1) = true then some z
            else xy0) = some o → o.xy_initial = i := by
          intro o ho2
          split at ho2
          · simp only [Option.some.injEq] at ho2
            rw [← ho2]
            exact hz
          · exact h0 o ho2
        simp only
        generalize (if eval_use_xy0 xs_type (.node t1 i1 a1 b1 l1 m1) = true then xy else z)
          = xyA at hxy2 ⊢
        generalize (if eval_use_xy0 xs_type (.node t1 i1 a1 b1 l1 m1) = true then some z
          else xy0) = xy0A at h02 ⊢
        by_cases hr : r < 0
        · simp [hr, res_initial, hxy2]
        · simp only [hr, if_false]
          cases xs_type with
          | XP_RELEX =>
            simp only
            by_cases hop : xs_int ≠ XO_EQ
            · simp [hop, res_initial, hxy2]
            · simp only [hop, if_false]
              by_cases heq : (xp_yang_op_eq xy0A xy1).1 < 0
              · simp [heq, res_initial, hxy2]
              · simp only [heq, if_false]
                exact eval_finish_initial i _ _ _ _ _ hxy2 h02 ho
                  (xp_yang_op_eq_initial i _ _ h02)
          | _ => exact eval_finish_initial i _ _ _ _ _ hxy2 h02 ho (by simp)


/-- The generic traversal keeps the initial node. -/
theorem eval_children_initial (eval_c0 eval_c1 : xp_yang_ctx → xp_res)
    (H0 : ∀ c, res_initial c.xy_initial (eval_c0 c) = true)
    (H1 : ∀ c, res_initial c.xy_initial (eval_c1 c) = true)
    (xs_type : xp_type) (xs_int : Int) (xs_c0 xs_c1 : xpath_tree) (xy : xp_yang_ctx) :
    res_initial xy.xy_initial (eval_children eval_c0 eval_c1 xs_type xs_int xs_c0 xs_c1 xy)
      = true := by
  unfold eval_children
  cases xs_c0 with
  | null => exact eval_second_initial eval_c1 H1 _ _ _ _ _ _ rfl (by simp)
  | node t0 i0 a0 b0 l0 m0 =>
    simp only
    have hres := H0 xy
    cases he : eval_c0 xy with
    | segv => simp [res_initial]
    | ret r xy0 z =>
      rw [he, res_initial_ret] at hres
      simp only
      by_cases hr : r < 0
      · simp [hr, res_initial, hres.1]
      · simp only [hr, if_false]
        exact eval_second_initial eval_c1 H1 _ _ _ _ _ _ hres.1 hres.2

/-- The axis switch of a step keeps the initial node. -/
theorem step_axis_initial (env : yang_api) (xy : xp_yang_ctx) (xs_int : Int)
    (nodetest : xpath_tree) :
    (∀ c, step_axis env xy xs_int nodetest = .ok c → c.xy_initial = xy.xy_initial) ∧
    (∀ c, step_axis env xy xs_int nodetest = .next c → c.xy_initial = xy.xy_initial) := by
  unfold step_axis
  constructor <;> intro c h
  · split at h
    · split at h
      · simp at h
      · simp only at h
        split at h
        · simp only [step_axis_res.ok.injEq] at h
          rw [← h]
        · simp at h
      · simp at h
      · simp at h
    · split at h <;> simp at h
  · split at h
    · split at h
      · simp at h
      · simp only at h
        split at h
        · simp at h
        · simp only [step_axis_res.next.injEq] at h
          rw [← h]
      · simp only [step_axis_res.next.injEq] at h
        rw [← h]
      · simp at h
    · split at h
      · simp only [step_axis_res.next.injEq] at h
        rw [← h]
      · simp at h

/-- A step keeps the initial node. -/
theorem xp_yang_eval_step_initial (env : yang_api) (eval_c1 : xp_yang_ctx → xp_res)
    (H1 : ∀ c, res_initial c.xy_initial (eval_c1 c) = true)
    (xy0 : xp_yang_ctx) (xptree : xpath_tree) :
    res_initial xy0.xy_initial (xp_yang_eval_step env eval_c1 xy0 xptree) = true := by
  cases xptree with
  | null => simp [xp_yang_eval_step, res_initial]
  | node ty i s0 s1 c0 c1 =>
    simp only [xp_yang_eval_step, xy_dup]
    have hax := step_axis_initial env xy0 i c0
    cases h : step_axis env xy0 i c0 with
    | error => simp [res_initial]
    | ok c => simpa [res_initial] using hax.1 c h
    | next c =>
      have hc := hax.2 c h
      simp only [step_tail]
      cases c1 with
      | null => simpa [res_initial] using hc
      | node t1 i1 a1 b1 l1 m1 =>
        simp only
        have hres := H1 c
        cases he : eval_c1 c with
        | segv => simp [res_initial]
        | ret r o z =>
          rw [he, res_initial_ret, hc] at hres
          have ho : res_initial xy0.xy_initial (.ret 0 o xy0) = true := by
            rw [res_initial_ret]
            exact ⟨rfl, hres.2⟩
          have ho1 : res_initial xy0.xy_initial (.ret (-1) o xy0) = true := by
            rw [res_initial_ret]
            exact ⟨rfl, hres.2⟩
          by_cases hr : r < 0
          · simpa [hr] using ho1
          · simpa [hr] using ho

/-- Predicates keep the initial node. -/
theorem xp_yang_eval_predicate_initial (eval_c0 eval_c1 : xp_yang_ctx → xp_res)
    (H0 : ∀ c, res_initial c.xy_initial (eval_c0 c) = true)
    (H1 : ∀ c, res_initial c.xy_initial (eval_c1 c) = true)
    (xy : xp_yang_ctx) (xptree : xpath_tree) :
    res_initial xy.xy_initial (xp_yang_eval_predicate eval_c0 eval_c1 xy xptree) = true := by
  cases xptree with
  | null => simp [xp_yang_eval_predicate, res_initial]
  | node ty i s0 s1 c0 c1 =>
    simp only [xp_yang_eval_predicate]
    have hfirst : res_initial xy.xy_initial (predicate_first eval_c0 xy c0) = true := by
      cases c0 with
      | null => simp [predicate_first, res_initial, xy_dup]
      | node t0 i0 a0 b0 l0 m0 => exact H0 xy
    cases hf : predicate_first eval_c0 xy c0 with
    | segv => simp [res_initial]
    | ret r xy0 z =>
      rw [hf, res_initial_ret] at hfirst
      obtain ⟨hz, hxy0⟩ := hfirst
      simp only
      by_cases hr : r < 0
      · simp [hr, res_initial, hz]
      · simp only [hr, if_false]
        cases c1 with
        | null =>
          simp only
          rw [res_initial_ret]
          exact ⟨hz, hxy0⟩
        | node t1 i1 a1 b1 l1 m1 =>
          simp only
          cases xy0 with
          | none => simp [res_initial]
          | some x0 =>
            simp only
            have hx0 := hxy0 x0 rfl
            have hres := H1 x0
            cases he : eval_c1 x0 with
            | segv => simp [res_initial]
            | ret r1 xy1 z1 =>
              rw [he, res_initial_ret, hx0] at hres
              simp only
              by_cases hr1 : r1 < 0
              · simp [hr1, res_initial, hz]
              · simp only [hr1, if_false]
                cases xy1 with
                | none => simp [res_initial]
                | some c1 =>
                  simp only
                  split <;> simp [res_initial, hz, hres.1]

/-- Every context that `xp_yang_eval` hands back has the initial node of the
context it was given: the result context and the context itself. -/
theorem xp_yang_eval_initial (env : yang_api) :
    ∀ (t : xpath_tree) (xy : xp_yang_ctx),
      res_initial xy.xy_initial (xp_yang_eval env xy t) = true := by
  intro t
  induction t with
  | null =>
    intro xy
    rw [xp_yang_eval]
    split <;> simp [res_initial]
  | node ty i s0 s1 c0 c1 ih0 ih1 =>
    intro xy
    rw [xp_yang_eval]
    by_cases hemp : xy_empty xy = true
    · simp [hemp, res_initial]
    · have hne : xy_empty xy = false := by simpa using hemp
      have hch : ∀ x : xp_yang_ctx, res_initial x.xy_initial
          (eval_children (fun c => xp_yang_eval env c c0) (fun c => xp_yang_eval env c c1)
            ty i c0 c1 x) = true :=
        fun x => eval_children_initial _ _ (fun c => ih0 c) (fun c => ih1 c) ty i c0 c1 x
      simp only [hne, Bool.false_eq_true, if_false]
      cases ty with
      | XP_RELEX => exact hch xy
      | XP_PATHEXPR => exact hch xy
      | XP_FILTEREXPR => exact hch xy
      | XP_LOCPATH => exact hch xy
      | XP_NODE => exact hch xy
      | XP_NODE_FN => exact hch xy
      | XP_RELLOCPATH => exact hch xy
      | XP_EXP =>
        cases c1 with
        | null => exact hch xy
        | node t1 i1 a1 b1 l1 m1 => simp [res_initial]
      | XP_AND =>
        cases c1 with
        | null => exact hch xy
        | node t1 i1 a1 b1 l1 m1 => simp [res_initial]
      | XP_ADD =>
        cases c1 with
        | null => exact hch xy
        | node t1 i1 a1 b1 l1 m1 => simp [res_initial]
      | XP_UNION =>
        cases c1 with
        | null => exact hch xy
        | node t1 i1 a1 b1 l1 m1 => simp [res_initial]
      | XP_ABSPATH =>
        simp only
        split
        · exact hch { xy with xy_node := env.ys_module xy.xy_node }
        · exact hch xy
      | XP_PRIME_FN =>
        cases s0 with
        | none => exact hch xy
        | some name =>
          simp only
          split <;> simp [res_initial, xy_dup]
      | XP_PRIME_STR => simp [res_initial, xy_dup]
      | XP_PRI0 => simp [res_initial]
      | XP_PRIME_NR => simp [res_initial]
      | XP_PRED =>
        simp only
        have hp := xp_yang_eval_predicate_initial (fun c => xp_yang_eval env c c0)
          (fun c => xp_yang_eval env c c1) (fun c => ih0 c) (fun c => ih1 c) xy
          (.node .XP_PRED i s0 s1 c0 c1)
        cases he : xp_yang_eval_predicate (fun c => xp_yang_eval env c c0)
            (fun c => xp_yang_eval env c c1) xy (.node .XP_PRED i s0 s1 c0 c1) with
        | segv => simp [res_initial]
        | ret r o z =>
          rw [he, res_initial_ret] at hp
          have h0 : res_initial xy.xy_initial (.ret 0 o z) = true := by
            rw [res_initial_ret]
            exact hp
          have h1 : res_initial xy.xy_initial (.ret (-1) o z) = true := by
            rw [res_initial_ret]
            exact hp
          by_cases hr : r < 0
          · simpa [hr] using h1
          · simpa [hr] using h0
      | XP_STEP =>
        simp only
        have hp := xp_yang_eval_step_initial env (fun c => xp_yang_eval env c c1)
          (fun c => ih1 c) xy (.node .XP_STEP i s0 s1 c0 c1)
        cases he : xp_yang_eval_step env (fun c => xp_yang_eval env c c1) xy
            (.node .XP_STEP i s0 s1 c0 c1) with
        | segv => simp [res_initial]
        | ret r o z =>
          rw [he, res_initial_ret] at hp
          have h0 : res_initial xy.xy_initial (.ret 0 o z) = true := by
            rw [res_initial_ret]
            exact hp
          have h1 : res_initial xy.xy_initial (.ret (-1) o z) = true := by
            rw [res_initial_ret]
            exact hp
          by_cases hr : r < 0
          · simpa [hr] using h1
          · simpa [hr] using h0


/-- The calls of the generic traversal are made on contexts with the initial
node of the context of the traversal. -/
theorem calls_children_initial (eval_c0 : xp_yang_ctx → xp_res)
    (calls_c0 calls_c1 : xp_yang_ctx → List (xp_yang_ctx × xpath_tree))
    (H0 : ∀ c, res_initial c.xy_initial (eval_c0 c) = true)
    (J0 : ∀ x p, p ∈ calls_c0 x → p.1.xy_initial = x.xy_initial)
    (J1 : ∀ x p, p ∈ calls_c1 x → p.1.xy_initial = x.xy_initial)
    (xs_type : xp_type) (xs_c0 xs_c1 : xpath_tree) (x : xp_yang_ctx)
    (p : xp_yang_ctx × xpath_tree)
    (hp : p ∈ calls_children eval_c0 calls_c0 calls_c1 xs_type xs_c0 xs_c1 x) :
    p.1.xy_initial = x.xy_initial := by
  have second : ∀ (xy : xp_yang_ctx) (xy0 : Option xp_yang_ctx),
      xy.xy_initial = x.xy_initial → (∀ o, xy0 = some o → o.xy_initial = x.xy_initial) →
      p ∈ calls_second calls_c1 xs_type xs_c1 xy xy0 → p.1.xy_initial = x.xy_initial := by
    intro xy xy0 hxy hxy0 hp2
    unfold calls_second at hp2
    cases xs_c1 with
    | null => simp at hp2
    | node t1 i1 a1 b1 l1 m1 =>
      simp only at hp2
      cases hc : (if eval_use_xy0 xs_type (.node t1 i1 a1 b1 l1 m1) then xy0 else some xy) with
      | none => simp [hc] at hp2
      | some c =>
        simp only [hc] at hp2
        have hci : c.xy_initial = x.xy_initial := by
          by_cases hu : eval_use_xy0 xs_type (.node t1 i1 a1 b1 l1 m1) = true
          · rw [if_pos hu] at hc
            exact hxy0 c hc
          · rw [if_neg hu] at hc
            simp only [Option.some.injEq] at hc
            rw [← hc]
            exact hxy
        rw [J1 c p hp2, hci]
  unfold calls_children at hp
  cases xs_c0 with
  | null => exact second x none rfl (by simp) hp
  | node t0 i0 a0 b0 l0 m0 =>
    simp only [List.mem_append] at hp
    rcases hp with hp | hp
    · exact J0 x p hp
    · have hres := H0 x
      cases he : eval_c0 x with
      | segv => simp [he] at hp
      | ret r o z =>
        rw [he, res_initial_ret] at hres
        simp only [he] at hp
        by_cases hr : r < 0
        · simp [hr] at hp
        · simp only [hr, if_false] at hp
          exact second z o hres.1 hres.2 hp

/-- Every call of an evaluation is made on a context that has the initial
node of the context the evaluation started from. -/
theorem xp_yang_eval_calls_initial (env : yang_api) :
    ∀ (t : xpath_tree) (xy : xp_yang_ctx) (p : xp_yang_ctx × xpath_tree),
      p ∈ xp_yang_eval_calls env xy t → p.1.xy_initial = xy.xy_initial := by
  intro t
  induction t with
  | null =>
    intro xy p hp
    simp only [xp_yang_eval_calls, List.mem_singleton] at hp
    subst hp
    rfl
  | node ty i s0 s1 c0 c1 ih0 ih1 =>
    intro xy p hp
    simp only [xp_yang_eval_calls] at hp
    rcases List.mem_cons.1 hp with hp | hp
    · subst hp
      rfl
    · by_cases hemp : xy_empty xy = true
      · simp [hemp] at hp
      · have hne : xy_empty xy = false := by simpa using hemp
        have hch : ∀ x, p ∈ calls_children (fun c => xp_yang_eval env c c0)
            (fun c => xp_yang_eval_calls env c c0) (fun c => xp_yang_eval_calls env c c1)
            ty c0 c1 x → p.1.xy_initial = x.xy_initial :=
          fun x hx => calls_children_initial _ _ _ (fun c => xp_yang_eval_initial env c0 c)
            (fun x q hq => ih0 x q hq) (fun x q hq => ih1 x q hq) ty c0 c1 x p hx
        simp only [hne, Bool.false_eq_true, if_false] at hp
        cases ty with
        | XP_RELEX => exact hch xy hp
        | XP_PATHEXPR => exact hch xy hp
        | XP_FILTEREXPR => exact hch xy hp
        | XP_LOCPATH => exact hch xy hp
        | XP_NODE => exact hch xy hp
        | XP_NODE_FN => exact hch xy hp
        | XP_RELLOCPATH => exact hch xy hp
        | XP_EXP =>
          cases c1 with
          | null => exact hch xy hp
          | node t1 i1 a1 b1 l1 m1 => simp at hp
        | XP_AND =>
          cases c1 with
          | null => exact hch xy hp
          | node t1 i1 a1 b1 l1 m1 => simp at hp
        | XP_ADD =>
          cases c1 with
          | null => exact hch xy hp
          | node t1 i1 a1 b1 l1 m1 => simp at hp
        | XP_UNION =>
          cases c1 with
          | null => exact hch xy hp
          | node t1 i1 a1 b1 l1 m1 => simp at hp
        | XP_ABSPATH =>
          simp only at hp
          split at hp
          · exact hch { xy with xy_node := env.ys_module xy.xy_node } hp
          · exact hch xy hp
        | XP_PRIME_FN =>
          cases s0 with
          | none => exact hch xy hp
          | some name => simp at hp
        | XP_PRIME_STR => simp at hp
        | XP_PRI0 => simp at hp
        | XP_PRIME_NR => simp at hp
        | XP_PRED =>
          simp only [List.mem_append] at hp
          rcases hp with hp | hp
          · cases c0 with
            | null => simp at hp
            | node t0 i0 a0 b0 l0 m0 => exact ih0 xy p hp
          · have hfirst : res_initial xy.xy_initial
                (predicate_first (fun c => xp_yang_eval env c c0) xy c0) = true := by
              cases c0 with
              | null => simp [predicate_first, res_initial, xy_dup]
              | node t0 i0 a0 b0 l0 m0 => exact xp_yang_eval_initial env _ xy
            cases hf : predicate_first (fun c => xp_yang_eval env c c0) xy c0 with
            | segv => simp [hf] at hp
            | ret r xy0 z =>
              rw [hf, res_initial_ret] at hfirst
              simp only [hf] at hp
              by_cases hr : r < 0
              · simp [hr] at hp
              · simp only [hr, if_false] at hp
                cases c1 with
                | null => simp at hp
                | node t1 i1 a1 b1 l1 m1 =>
                  cases xy0 with
                  | none => simp at hp
                  | some x0 =>
                    simp only at hp
                    rw [ih1 x0 p hp, hfirst.2 x0 rfl]
        | XP_STEP =>
          simp only [xy_dup] at hp
          cases hax : step_axis env xy i c0 with
          | error => simp [hax] at hp
          | ok c => simp [hax] at hp
          | next c =>
            simp only [hax] at hp
            cases c1 with
            | null => simp at hp
            | node t1 i1 a1 b1 l1 m1 =>
              simp only at hp
              rw [ih1 c p hp, (step_axis_initial env xy i c0).2 c hax]

/-- C4: in the evaluation that `yang_path_arg(ys, ..)` starts (on the context
whose node and initial node are both `ys`), every call of `current()` made on
a non-empty context succeeds with a result context whose node is `ys`,
whatever node the context of the call holds. -/
theorem current_resolves_to_initial (env : yang_api) (ys : Option yang_stmt)
    (xptree : xpath_tree) (c : xp_yang_ctx) (name : String) (xs_s1 : Option String)
    (xs_c0 xs_c1 : xpath_tree)
    (hcall : (c, .node .XP_PRIME_FN XPATHFN_CURRENT (some name) xs_s1 xs_c0 xs_c1) ∈
      xp_yang_eval_calls env { xy_dup none with xy_node := ys, xy_initial := ys } xptree)
    (hne : xy_empty c = false) :
    ∃ r, xp_yang_eval env c (.node .XP_PRIME_FN XPATHFN_CURRENT (some name) xs_s1 xs_c0 xs_c1)
        = .ret 0 (some r) c ∧ r.xy_node = ys := by
  have hi := xp_yang_eval_calls_initial env xptree _ _ hcall
  simp only at hi
  refine ⟨{ c with xy_node := c.xy_initial }, ?_, hi⟩
  rw [xp_yang_eval]
  simp [hne, xy_dup]

/-- C4, at the path-arg `../ifs/if[name = current()/../ifname]/mtu` of the
leafref `ref` (6) of the example schema: `current()` is called on the list
`if` (3) and resolves to the leafref. -/
theorem current_resolves_to_initial_witness :
    (({ start_ctx (some 6) with xy_node := some 3 },
        .node .XP_PRIME_FN XPATHFN_CURRENT (some "current") none .null .null) ∈
      xp_yang_eval_calls example_api { xy_dup none with xy_node := some 6, xy_initial := some 6 }
        (path_expr (rel_path (rel_path (rel_path (rel_path (axis_step A_PARENT no_preds) .null)
          (child_step none "ifs" no_preds))
          (child_step none "if" (pred no_preds (eq_current_sibling "name" "ifname"))))
          (child_step none "mtu" no_preds)))) ∧
    xy_empty { start_ctx (some 6) with xy_node := some 3 } = false ∧
    ∃ r, xp_yang_eval example_api { start_ctx (some 6) with xy_node := some 3 }
        (.node .XP_PRIME_FN XPATHFN_CURRENT (some "current") none .null .null)
        = .ret 0 (some r) { start_ctx (some 6) with xy_node := some 3 } ∧ r.xy_node = some 6 :=
  ⟨by decide, by decide,
    current_resolves_to_initial example_api (some 6)
      (path_expr (rel_path (rel_path (rel_path (rel_path (axis_step A_PARENT no_preds) .null)
        (child_step none "ifs" no_preds))
        (child_step none "if" (pred no_preds (eq_current_sibling "name" "ifname"))))
        (child_step none "mtu" no_preds)))
      { start_ctx (some 6) with xy_node := some 3 } "current" none .null .null
      (by decide) (by decide)⟩

/-! ## Theorems: schema mount -/

/-- C8: `yang_schema_mount_point0(y)` returns 1 exactly when `y` is a
container or a list whose `mount-point` extension is found with a non-null
label value; it returns 0 for every other non-null `y` on which the extension
lookup does not fail; and it returns -1 exactly when `y` is NULL or the
extension lookup fails. The lookup is the call of `yang_extension_value`, which
the function makes for containers and lists only. -/
theorem yang_schema_mount_point0_spec (env : yang_api) (y : Option yang_stmt) :
    (yang_schema_mount_point0 env y = 1 ↔
      ∃ ys, y = some ys ∧
        (env.yang_keyword_get (some ys) = .Y_CONTAINER ∨
          env.yang_keyword_get (some ys) = .Y_LIST) ∧
        0 ≤ (env.yang_extension_value ys "mount-point" YANG_SCHEMA_MOUNT_NAMESPACE).retval ∧
        (env.yang_extension_value ys "mount-point" YANG_SCHEMA_MOUNT_NAMESPACE).exist ≠ 0 ∧
        (env.yang_extension_value ys "mount-point" YANG_SCHEMA_MOUNT_NAMESPACE).value ≠ none) ∧
    (∀ ys, y = some ys →
      (env.yang_keyword_get (some ys) = .Y_CONTAINER ∨
          env.yang_keyword_get (some ys) = .Y_LIST →
        0 ≤ (env.yang_extension_value ys "mount-point" YANG_SCHEMA_MOUNT_NAMESPACE).retval) →
      yang_schema_mount_point0 env y ≠ 1 → yang_schema_mount_point0 env y = 0) ∧
    (yang_schema_mount_point0 env y = -1 ↔
      y = none ∨ ∃ ys, y = some ys ∧
        (env.yang_keyword_get (some ys) = .Y_CONTAINER ∨
          env.yang_keyword_get (some ys) = .Y_LIST) ∧
        (env.yang_extension_value ys "mount-point" YANG_SCHEMA_MOUNT_NAMESPACE).retval < 0) := by
  cases y with
  | none => simp [yang_schema_mount_point0]
  | some ys =>
    simp only [yang_schema_mount_point0]
    by_cases hk : env.yang_keyword_get (some ys) = .Y_CONTAINER ∨
        env.yang_keyword_get (some ys) = .Y_LIST
    · have hk2 : ¬ (env.yang_keyword_get (some ys) ≠ .Y_CONTAINER ∧
          env.yang_keyword_get (some ys) ≠ .Y_LIST) := by
        intro h
        rcases hk with hk | hk
        · exact h.1 hk
        · exact h.2 hk
      by_cases hr : (env.yang_extension_value ys "mount-point"
          YANG_SCHEMA_MOUNT_NAMESPACE).retval < 0
      · simp [hk2, hk, hr]
      · by_cases he : (env.yang_extension_value ys "mount-point"
            YANG_SCHEMA_MOUNT_NAMESPACE).exist = 0
        · simp [hk2, hk, hr, he]
        · by_cases hv : (env.yang_extension_value ys "mount-point"
              YANG_SCHEMA_MOUNT_NAMESPACE).value = none
          · simp [hk2, hk, hr, he, hv]
          · simp [hk2, hk, hr, he, hv, not_lt.mp hr]
    · have hk2 : env.yang_keyword_get (some ys) ≠ .Y_CONTAINER ∧
          env.yang_keyword_get (some ys) ≠ .Y_LIST := by
        constructor
        · intro h
          exact hk (Or.inl h)
        · intro h
          exact hk (Or.inr h)
      simp [hk2, hk]

/-- C10 (what the code does): when the top-level mounts of `ys` are not found
(`ys_mounts(ys)` is NULL) `yang_mount_get` returns 1, not -1, and stores no
yspec; `yang_mount_get_yspec_any`, which tests for a negative return, then
reports 0 ("not found") instead of the error. -/
theorem yang_mount_get_no_mounts (env : yang_api) (ys : Option yang_stmt)
    (xpath : Option String) (hmounts : env.ys_mounts ys = none) :
    yang_mount_get env ys xpath = (1, none) ∧
    yang_mount_get_yspec_any env ys = (0, none) := by
  simp [yang_mount_get, yang_mount_get_yspec_any, hmounts]

/-- C10, at the container `ifs` of the example schema, which has no mounts
root above it. -/
theorem yang_mount_get_no_mounts_witness :
    yang_mount_get example_api (some 2) (some "/ex:ifs") = (1, none) ∧
    yang_mount_get_yspec_any example_api (some 2) = (0, none) :=
  yang_mount_get_no_mounts example_api (some 2) (some "/ex:ifs") (by decide)

/-- The loops of `yang_mount_get` do not read the `MOUNTPOINT` flag. -/
theorem mount_get_yspec_flag_set (env : yang_api) (y : yang_stmt) (xpath : Option String)
    (l : List yang_stmt) :
    mount_get_yspec (yang_flag_set env y .YANG_FLAG_MOUNTPOINT) xpath l
      = mount_get_yspec env xpath l := by
  have hk : (yang_flag_set env y .YANG_FLAG_MOUNTPOINT).yang_keyword_get
      = env.yang_keyword_get := rfl
  have hc : (yang_flag_set env y .YANG_FLAG_MOUNTPOINT).yang_cvec_get
      = env.yang_cvec_get := rfl
  have hf : ∀ a, (yang_flag_set env y .YANG_FLAG_MOUNTPOINT).yang_flag_get a
      .YANG_FLAG_SPEC_MOUNT = env.yang_flag_get a .YANG_FLAG_SPEC_MOUNT := by
    intro a
    simp [yang_flag_set]
  induction l with
  | nil => rfl
  | cons a l ih => simp only [mount_get_yspec, hk, hc, hf, ih]

/-- The outer loop of `yang_mount_get` does not read the `MOUNTPOINT` flag. -/
theorem mount_get_ydomain_flag_set (env : yang_api) (y : yang_stmt) (xpath : Option String)
    (l : List yang_stmt) :
    mount_get_ydomain (yang_flag_set env y .YANG_FLAG_MOUNTPOINT) xpath l
      = mount_get_ydomain env xpath l := by
  induction l with
  | nil => rfl
  | cons a l ih =>
    simp only [mount_get_ydomain, mount_get_yspec_flag_set, ih]
    rfl

/-- The whole effect of `yang_mount_set(y, xpath, yspec)`: it returns 0 and
sets the `MOUNTPOINT` flag of `y`; every other flag of every statement is as
before, and `yang_mount_get` answers every query, the one for `(y, xpath)`
included, exactly as it did before the call. -/
theorem yang_mount_set_only_flags (env : yang_api) (y : yang_stmt) (xpath : String)
    (yspec : Option yang_stmt) :
    (yang_mount_set env y xpath yspec).1 = 0 ∧
    (yang_mount_set env y xpath yspec).2.yang_flag_get y .YANG_FLAG_MOUNTPOINT = true ∧
    (∀ s f, (s, f) ≠ (y, yang_flag.YANG_FLAG_MOUNTPOINT) →
      (yang_mount_set env y xpath yspec).2.yang_flag_get s f = env.yang_flag_get s f) ∧
    (∀ ys xp, yang_mount_get (yang_mount_set env y xpath yspec).2 ys xp
      = yang_mount_get env ys xp) := by
  refine ⟨rfl, by simp [yang_mount_set, yang_flag_set], ?_, ?_⟩
  · intro s f h
    have h2 : ¬ (s = y ∧ f = yang_flag.YANG_FLAG_MOUNTPOINT) := by
      intro hh
      exact h (by rw [hh.1, hh.2])
    simp [yang_mount_set, yang_flag_set, h2]
  · intro ys xp
    simp only [yang_mount_set, yang_mount_get]
    have hm : (yang_flag_set env y .YANG_FLAG_MOUNTPOINT).ys_mounts ys = env.ys_mounts ys := rfl
    rw [hm]
    cases env.ys_mounts ys with
    | none => rfl
    | some ymounts =>
      simp only [mount_get_ydomain_flag_set]
      rfl

/-- C9 does not hold of the code: `yang_mount_set(y, xpath, yspec)` returns 0
without recording the pair `(xpath, yspec)`. Whenever `yang_mount_get(y,
xpath, &r)` did not already return 0 with `r = yspec` before the call, it
does not do so after it either: it answers as it did before. The doc comment
of `yang_mount_set` names `xpath` the "Key for yspec on y" and `yspec` the
"Yangspec for this mount-point (consumed)". -/
theorem yang_mount_set_no_binding (env : yang_api) (y : yang_stmt) (xpath : String)
    (yspec : yang_stmt)
    (h : yang_mount_get env (some y) (some xpath) ≠ (0, some (some yspec))) :
    (yang_mount_set env y xpath (some yspec)).1 = 0 ∧
    yang_mount_get (yang_mount_set env y xpath (some yspec)).2 (some y) (some xpath)
      = yang_mount_get env (some y) (some xpath) ∧
    yang_mount_get (yang_mount_set env y xpath (some yspec)).2 (some y) (some xpath)
      ≠ (0, some (some yspec)) := by
  have hget := (yang_mount_set_only_flags env y xpath (some yspec)).2.2.2 (some y) (some xpath)
  refine ⟨rfl, hget, ?_⟩
  rw [hget]
  exact h

/-- C9, in the example with mounts: the container `ifs` (2) is a mount-point
and the mounted yang spec 12 is bound to `/ex:other` only. The call
`yang_mount_set(2, "/ex:ifs", 12)` returns 0, and the `yang_mount_get(2,
"/ex:ifs", &r)` that follows returns 0 with `r = NULL`, not with the yang
spec 12. -/
theorem yang_mount_set_no_binding_witness :
    yang_schema_mount_point0 example_mounts (some 2) = 1 ∧
    yang_mount_get example_mounts (some 2) (some "/ex:ifs") ≠ (0, some (some 12)) ∧
    (yang_mount_set example_mounts 2 "/ex:ifs" (some 12)).1 = 0 ∧
    yang_mount_get (yang_mount_set example_mounts 2 "/ex:ifs" (some 12)).2 (some 2)
      (some "/ex:ifs") = (0, some none) ∧
    yang_mount_get (yang_mount_set example_mounts 2 "/ex:ifs" (some 12)).2 (some 2)
      (some "/ex:ifs") ≠ (0, some (some 12)) :=
  ⟨by decide, by decide,
    (yang_mount_set_no_binding example_mounts 2 "/ex:ifs" 12 (by decide)).1,
    by decide,
    (yang_mount_set_no_binding example_mounts 2 "/ex:ifs" 12 (by decide)).2.2⟩

/-! ## Theorems: mount lookup -/

/-- The inner loop of `yang_mount_get` finds the first fitting statement. -/
theorem mount_get_yspec_find (env : yang_api) (xpath : Option String) (l : List yang_stmt) :
    mount_get_yspec env xpath l = l.find? (mounted_yspec_for env xpath) := by
  induction l with
  | nil => rfl
  | cons a l ih =>
    simp only [mount_get_yspec, List.find?_cons, mounted_yspec_for]
    by_cases hk : env.yang_keyword_get (some a) = .Y_SPEC
    · cases hc : env.yang_cvec_get a with
      | none => simp [hk, ih, mounted_yspec_for]
      | some names =>
        by_cases hf : env.yang_flag_get a .YANG_FLAG_SPEC_MOUNT = true
        · by_cases hx : xpath_null_or_found (some names) xpath = true
          · simp [hk, hf, hx]
          · simp [hk, hf, hx, ih, mounted_yspec_for]
        · simp [hk, hf, ih, mounted_yspec_for]
    · simp [hk, ih, mounted_yspec_for]

/-- The outer loop of `yang_mount_get` finds the first fitting statement of
the first domain that has one. -/
theorem mount_get_ydomain_find (env : yang_api) (xpath : Option String) (l : List yang_stmt) :
    mount_get_ydomain env xpath l
      = (l.flatMap env.yn_children).find? (mounted_yspec_for env xpath) := by
  induction l with
  | nil => rfl
  | cons a l ih =>
    simp only [mount_get_ydomain, List.flatMap_cons, List.find?_append, mount_get_yspec_find, ih]
    cases (env.yn_children a).find? (mounted_yspec_for env xpath) <;> rfl

/-- C11: when the top-level mounts of `ys` exist, `yang_mount_get` returns 0
and yields the first statement, in domain order and then in child order
within the domain, that has the keyword `Y_SPEC`, a cvec, the `SPEC_MOUNT` flag
and `xpath` in its cvec (any such statement when `xpath` is NULL); it yields
NULL if and only if no statement satisfies these conditions. -/
theorem yang_mount_get_first (env : yang_api) (ys : Option yang_stmt)
    (xpath : Option String) (ymounts : yang_stmt) (hmounts : env.ys_mounts ys = some ymounts) :
    yang_mount_get env ys xpath
      = (0, some ((mounts_statements env ymounts).find? (mounted_yspec_for env xpath))) ∧
    ((yang_mount_get env ys xpath).2 = some none ↔
      ∀ s ∈ mounts_statements env ymounts, mounted_yspec_for env xpath s = false) := by
  have h : yang_mount_get env ys xpath
      = (0, some ((mounts_statements env ymounts).find? (mounted_yspec_for env xpath))) := by
    simp [yang_mount_get, hmounts, mount_get_ydomain_find, mounts_statements]
  refine ⟨h, ?_⟩
  rw [h]
  simp [List.find?_eq_none]

/-- C11, at the container `ifs` of the example with mounts and the bound path
`/ex:other`: the mounted yang spec 12 is found. -/
theorem yang_mount_get_first_witness :
    yang_mount_get example_mounts (some 2) (some "/ex:other")
      = (0, some ((mounts_statements example_mounts 10).find?
          (mounted_yspec_for example_mounts (some "/ex:other")))) ∧
    ((yang_mount_get example_mounts (some 2) (some "/ex:other")).2 = some none ↔
      ∀ s ∈ mounts_statements example_mounts 10,
        mounted_yspec_for example_mounts (some "/ex:other") s = false) :=
  yang_mount_get_first example_mounts (some 2) (some "/ex:other") 10 (by decide)

/-! ## Theorems: XML mount-points -/

/-- C12: `xml_yang_mount_get` returns -1 when `xmnt` is NULL; it returns 0 and
leaves `xpathp` and `yspec` unassigned when `xmnt` has no bound schema node or
its schema node is not flagged as a mount-point; and it returns 1 only if the
bound schema node of `xmnt` is flagged as a mount-point and its XPath could be
built and put in canonical form. -/
theorem xml_yang_mount_get_spec (h : clixon_handle) (env : yang_api) (vl xpathp yspec : Bool) :
    xml_yang_mount_get h env none vl xpathp yspec = ⟨-1, none, none⟩ ∧
    (∀ x : cxobj,
      (xml_spec x = none ∨
        ∃ y, xml_spec x = some y ∧ env.yang_flag_get y .YANG_FLAG_MTPOINT_POTENTIAL = false) →
      xml_yang_mount_get h env (some x) vl xpathp yspec = ⟨0, none, none⟩) ∧
    (∀ x : cxobj, (xml_yang_mount_get h env (some x) vl xpathp yspec).retval = 1 →
      ∃ y, xml_spec x = some y ∧ env.yang_flag_get y .YANG_FLAG_MTPOINT_POTENTIAL = true ∧
        0 ≤ (h.xml2xpath x).1 ∧ 0 < (h.xpath2canonical (h.xml2xpath x).2 x).1) := by
  refine ⟨by simp [xml_yang_mount_get, yang_mount_xmnt2ymnt_xpath], ?_, ?_⟩
  · intro x hx
    rcases hx with hx | ⟨y, hy, hf⟩
    · simp [xml_yang_mount_get, yang_mount_xmnt2ymnt_xpath, hx]
    · simp [xml_yang_mount_get, yang_mount_xmnt2ymnt_xpath, hy, yang_schema_mount_point, hf]
  · intro x hret
    cases hs : xml_spec x with
    | none => simp [xml_yang_mount_get, yang_mount_xmnt2ymnt_xpath, hs] at hret
    | some y =>
      refine ⟨y, rfl, ?_⟩
      by_cases hf : env.yang_flag_get y .YANG_FLAG_MTPOINT_POTENTIAL = true
      · refine ⟨hf, ?_⟩
        by_cases h1 : (h.xml2xpath x).1 < 0
        · simp [xml_yang_mount_get, yang_mount_xmnt2ymnt_xpath, hs, yang_schema_mount_point,
            hf, h1] at hret
        · refine ⟨not_lt.mp h1, ?_⟩
          by_contra h2
          have h3 : (h.xpath2canonical (h.xml2xpath x).2 x).1 < 0 ∨
              (h.xpath2canonical (h.xml2xpath x).2 x).1 = 0 := by omega
          by_cases h4 : h.xml_nsctx_node x < 0
          · simp [xml_yang_mount_get, yang_mount_xmnt2ymnt_xpath, hs, yang_schema_mount_point,
              hf, h1, h4] at hret
          · rcases h3 with h3 | h3
            · simp [xml_yang_mount_get, yang_mount_xmnt2ymnt_xpath, hs, yang_schema_mount_point,
                hf, h1, h4, h3] at hret
            · simp [xml_yang_mount_get, yang_mount_xmnt2ymnt_xpath, hs, yang_schema_mount_point,
                hf, h1, h4, h3] at hret
      · simp [xml_yang_mount_get, yang_mount_xmnt2ymnt_xpath, hs, yang_schema_mount_point,
          hf] at hret

/-- The return value of `yang_mount_get` is never negative. -/
theorem yang_mount_get_nonneg (env : yang_api) (ys : Option yang_stmt) (xpath : Option String) :
    ¬ (yang_mount_get env ys xpath).1 < 0 := by
  unfold yang_mount_get
  cases env.ys_mounts ys <;> simp

/-- When `xml_yang_mount_get` has stored something in `*yspec`, it returns 1. -/
theorem xml_yang_mount_get_stored (h : clixon_handle) (env : yang_api) (xmnt : Option cxobj)
    (vl xpathp yspec : Bool) (v : Option yang_stmt)
    (hv : (xml_yang_mount_get h env xmnt vl xpathp yspec).yspec = some v) :
    (xml_yang_mount_get h env xmnt vl xpathp yspec).retval = 1 := by
  unfold xml_yang_mount_get at hv ⊢
  simp only at hv ⊢
  by_cases h0 : (yang_mount_xmnt2ymnt_xpath h env xmnt).retval < 0
  · simp [h0] at hv
  · by_cases h1 : (yang_mount_xmnt2ymnt_xpath h env xmnt).retval = 0
    · simp [h0, h1] at hv
    · simp only [h0, h1, if_false] at hv ⊢
      cases xmnt with
      | none => simp at hv
      | some x =>
        simp only at hv ⊢
        by_cases h2 : vl = true ∧ (h.clixon_plugin_yang_mount_all x).retval < 0
        · simp [h2] at hv
        · simp only [h2, if_false] at hv ⊢
          by_cases h3 : (if yspec = true then
              yang_mount_get env (yang_mount_xmnt2ymnt_xpath h env (some x)).ymnt
                (yang_mount_xmnt2ymnt_xpath h env (some x)).xpath
              else ((0 : Int), (none : Option (Option yang_stmt)))).1 < 0
          · exfalso
            by_cases hy : yspec = true
            · simp only [hy, if_true] at h3
              exact yang_mount_get_nonneg _ _ _ h3
            · simp [hy] at h3
          · simp [h3]

/-- A yang spec that the loop of `yang_schema_find_share` leaves in `*yspecp`
was there before, or is the one bound to a mount-point of the list that is
not `xt` and whose yang-library `xml_tree_equal` does not report as
different. -/
theorem find_share_loop_source (h : clixon_handle) (env : yang_api) (xt xyanglib : cxobj)
    (y : yang_stmt) :
    ∀ (l : List cxobj) (yspecp : Option (Option yang_stmt)),
      (find_share_loop h env xt xyanglib l yspecp).2 = some (some y) →
      yspecp = some (some y) ∨
      ∃ xmnt ∈ l, xml_id xmnt ≠ xml_id xt ∧
        ∃ xylib, (h.clixon_plugin_yang_mount_all xmnt).yanglib = some xylib ∧
          h.xml_tree_equal xyanglib xylib ≠ 1 ∧
          (xml_yang_mount_get h env (some xmnt) false false true).retval = 1 ∧
          (xml_yang_mount_get h env (some xmnt) false false true).yspec = some (some y) := by
  intro l
  induction l with
  | nil =>
    intro yspecp hres
    left
    simpa [find_share_loop] using hres
  | cons xmnt rest ih =>
    intro yspecp hres
    -- a result of the rest of the list is a result of the list
    have later : ∀ yp : Option (Option yang_stmt),
        (find_share_loop h env xt xyanglib rest yp).2 = some (some y) →
        yp = some (some y) ∨
        ∃ x ∈ xmnt :: rest, xml_id x ≠ xml_id xt ∧
          ∃ xylib, (h.clixon_plugin_yang_mount_all x).yanglib = some xylib ∧
            h.xml_tree_equal xyanglib xylib ≠ 1 ∧
            (xml_yang_mount_get h env (some x) false false true).retval = 1 ∧
            (xml_yang_mount_get h env (some x) false false true).yspec = some (some y) := by
      intro yp hyp
      rcases ih yp hyp with h1 | ⟨x, hx, hrest⟩
      · exact Or.inl h1
      · exact Or.inr ⟨x, List.mem_cons_of_mem _ hx, hrest⟩
    simp only [find_share_loop] at hres
    by_cases hid : xml_id xmnt = xml_id xt
    · rw [if_pos hid] at hres
      exact later yspecp hres
    · rw [if_neg hid] at hres
      by_cases hp : (h.clixon_plugin_yang_mount_all xmnt).retval < 0
      · rw [if_pos hp] at hres
        exact Or.inl hres
      · rw [if_neg hp] at hres
        cases hlib : (h.clixon_plugin_yang_mount_all xmnt).yanglib with
        | none =>
          simp only [hlib] at hres
          exact later yspecp hres
        | some xylib =>
          simp only [hlib] at hres
          by_cases heq : h.xml_tree_equal xyanglib xylib = 1
          · rw [if_pos heq] at hres
            exact later yspecp hres
          · rw [if_neg heq] at hres
            -- what the lookup leaves in `*yspecp`
            have hnew : ∀ yy : yang_stmt,
                (match (xml_yang_mount_get h env (some xmnt) false false true).yspec with
                  | some v => some v
                  | none => some none) = some (some yy) →
                (xml_yang_mount_get h env (some xmnt) false false true).yspec
                  = some (some yy) := by
              intro yy hyy
              cases hg : (xml_yang_mount_get h env (some xmnt) false false true).yspec with
              | none => simp [hg] at hyy
              | some v =>
                simp only [hg, Option.some.injEq] at hyy
                rw [hyy]
            have hone : ∀ yy : yang_stmt,
                (xml_yang_mount_get h env (some xmnt) false false true).yspec
                  = some (some yy) →
                (xml_yang_mount_get h env (some xmnt) false false true).retval = 1 :=
              fun yy hyy => xml_yang_mount_get_stored h env (some xmnt) false false true _ hyy
            by_cases hneg : (xml_yang_mount_get h env (some xmnt) false false true).retval < 0
            · rw [if_pos hneg] at hres
              have hy := hnew y hres
              have := hone y hy
              omega
            · rw [if_neg hneg] at hres
              split at hres
              · exact Or.inr ⟨xmnt, List.mem_cons_self _ _, hid, xylib, hlib, heq,
                  hone y (hnew y hres), hnew y hres⟩
              · rcases later _ hres with h1 | h2
                · exact Or.inr ⟨xmnt, List.mem_cons_self _ _, hid, xylib, hlib, heq,
                    hone y (hnew y h1), hnew y h1⟩
                · exact Or.inr h2

/-- C13: a yang spec that `yang_schema_find_share` yields is the one bound to
an XML mount-point `xmnt` of the tree of `xt` (one that `yang_mount_xtop2xmnt`
collects under the root) that is not `xt` itself and whose yang-library, as
the mount callback returns it, `xml_tree_equal` does not report as different
from `xyanglib`; the yang spec of a mount-point whose yang-library differs is
never yielded. -/
theorem yang_schema_find_share_equal (h : clixon_handle) (env : yang_api)
    (xt xyanglib : cxobj) (y : yang_stmt)
    (hres : (yang_schema_find_share h env xt xyanglib).2 = some (some y)) :
    ∃ cvv xmnt, yang_mount_xtop2xmnt h env (h.xml_root xt) = (0, some cvv) ∧ xmnt ∈ cvv ∧
      xml_id xmnt ≠ xml_id xt ∧
      ∃ xylib, (h.clixon_plugin_yang_mount_all xmnt).yanglib = some xylib ∧
        h.xml_tree_equal xyanglib xylib ≠ 1 ∧
        (xml_yang_mount_get h env (some xmnt) false false true).retval = 1 ∧
        (xml_yang_mount_get h env (some xmnt) false false true).yspec = some (some y) := by
  unfold yang_schema_find_share at hres
  simp only at hres
  by_cases hm : (yang_mount_xtop2xmnt h env (h.xml_root xt)).1 < 0
  · simp [hm] at hres
  · rw [if_neg hm] at hres
    cases hc : (yang_mount_xtop2xmnt h env (h.xml_root xt)).2 with
    | none => simp [hc] at hres
    | some cvv =>
      simp only [hc] at hres
      have h0 : yang_mount_xtop2xmnt h env (h.xml_root xt) = (0, some cvv) := by
        unfold yang_mount_xtop2xmnt at hm hc ⊢
        simp only at hm hc ⊢
        split at hc
        · simp at hc
        · next hh =>
          rw [if_neg hh]
          simp only [Option.some.injEq] at hc
          rw [hc]
      rcases find_share_loop_source h env xt xyanglib y cvv none hres with h1 | ⟨x, hx, hrest⟩
      · simp at h1
      · exact ⟨cvv, x, h0, hx, hrest⟩

/-- C13, in the example: for the mount-point instance 102 the yang spec 12,
bound to the other instance 101 with the same yang-library, is found. -/
theorem yang_schema_find_share_equal_witness :
    (yang_schema_find_share example_handle example_mounts_flagged (example_xmnt 102)
      example_yanglib).2 = some (some 12) ∧
    ∃ cvv xmnt, yang_mount_xtop2xmnt example_handle example_mounts_flagged
        (example_handle.xml_root (example_xmnt 102)) = (0, some cvv) ∧ xmnt ∈ cvv ∧
      xml_id xmnt ≠ xml_id (example_xmnt 102) ∧
      ∃ xylib, (example_handle.clixon_plugin_yang_mount_all xmnt).yanglib = some xylib ∧
        example_handle.xml_tree_equal example_yanglib xylib ≠ 1 ∧
        (xml_yang_mount_get example_handle example_mounts_flagged (some xmnt)
          false false true).retval = 1 ∧
        (xml_yang_mount_get example_handle example_mounts_flagged (some xmnt)
          false false true).yspec = some (some 12) :=
  ⟨by decide,
    yang_schema_find_share_equal example_handle example_mounts_flagged (example_xmnt 102)
      example_yanglib 12 (by decide)⟩

/-! ## Theorems: mounting a yang-library -/

/-- The calls at the end of `yang_schema_yanglib_parse_mount` come after the
calls made before and do not create or look for a yang spec. -/
theorem parse_mount_bind_events (h : clixon_handle) (env : yang_api) (xt xyanglib : cxobj)
    (xpath domain : String) (yspec0 yspec1 : Option yang_stmt) (ev : List mount_event)
    (e : mount_event)
    (he : e ∈ (parse_mount_bind h env xt xyanglib xpath domain yspec0 yspec1 ev).events) :
    e ∈ ev ∨ (∃ y1, e = .yang_lib2yspec xpath domain y1) ∨ (∃ y1, e = .ys_prune_self y1) ∨
      e = .xml_yang_mount_set yspec1 ∨ (∃ y1, e = .ys_free y1) := by
  unfold parse_mount_bind at he
  cases yspec0 <;> cases yspec1 <;> simp only at he <;>
    (repeat' split at he) <;> simp at he <;> aesop

/-- A yang spec that is new (no shared candidate) has the yang-library
parsed into it. -/
theorem parse_mount_bind_new (h : clixon_handle) (env : yang_api) (xt xyanglib : cxobj)
    (xpath domain : String) (y1 : yang_stmt) (ev : List mount_event) :
    mount_event.yang_lib2yspec xpath domain y1 ∈
      (parse_mount_bind h env xt xyanglib xpath domain none (some y1) ev).events := by
  unfold parse_mount_bind
  simp only
  (repeat' split) <;> simp

/-- The calls before the binding are kept. -/
theorem parse_mount_bind_prefix (h : clixon_handle) (env : yang_api) (xt xyanglib : cxobj)
    (xpath domain : String) (yspec0 yspec1 : Option yang_stmt) (ev : List mount_event)
    (e : mount_event) (he : e ∈ ev) :
    e ∈ (parse_mount_bind h env xt xyanglib xpath domain yspec0 yspec1 ev).events := by
  unfold parse_mount_bind
  cases yspec0 <;> cases yspec1 <;> simp only <;> (repeat' split) <;> simp [he]

/-- With sharing switched off, the run of `yang_schema_yanglib_parse_mount`
either stops before a yang spec is created, having called at most
`ydomain_new`, or is the binding of the yang spec that `yspec_new_shared`
returned for the candidate NULL. -/
theorem parse_mount_no_share_run (h : clixon_handle) (env : yang_api) (xt : cxobj) (nr : Nat)
    (hopt : h.clicon_option_bool "CLICON_YANG_SCHEMA_MOUNT_SHARE" = false) :
    (∀ e ∈ (yang_schema_yanglib_parse_mount h env xt nr).events,
      ∃ domain, e = .ydomain_new domain) ∨
    ∃ (env0 env1 : yang_api) (xyanglib : cxobj) (xpath domain : String)
      (yspec1 : Option yang_stmt) (ev : List mount_event),
      (∀ e ∈ ev, ∃ d, e = .ydomain_new d) ∧
      yspec1 = (h.yspec_new_shared env0 xpath domain (toString nr) none).1 ∧
      yang_schema_yanglib_parse_mount h env xt nr
        = parse_mount_bind h env1 xt xyanglib xpath domain none yspec1
            (ev ++ [.yspec_new_shared xpath domain (toString nr) none yspec1]) := by
  unfold yang_schema_yanglib_parse_mount
  simp only [hopt, Bool.false_eq_true, if_false]
  by_cases hp : (h.clixon_plugin_yang_mount_all xt).retval < 0
  · left
    simp [hp]
  · rw [if_neg hp]
    cases hlib : (h.clixon_plugin_yang_mount_all xt).yanglib with
    | none => left; simp
    | some xyanglib =>
      simp only
      cases hdom : h.yanglib_module_set_name xyanglib with
      | none => left; simp
      | some domain =>
        simp only
        by_cases hm0 : (yang_mount_xmnt2ymnt_xpath h env (some xt)).retval < 0
        · left
          simp [hm0]
        · rw [if_neg hm0]
          by_cases hm1 : (yang_mount_xmnt2ymnt_xpath h env (some xt)).retval = 0
          · left
            simp [hm1]
          · rw [if_neg hm1]
            cases hx : (yang_mount_xmnt2ymnt_xpath h env (some xt)).xpath with
            | none => left; simp
            | some xpath =>
              cases hmo : h.clixon_yang_mounts_get env with
              | none => left; simp
              | some ymounts =>
                simp only
                cases hfd : h.yang_find_domain env ymounts domain with
                | some ydomain =>
                  right
                  refine ⟨env, (h.yspec_new_shared env xpath domain (toString nr) none).2,
                    xyanglib, xpath, domain,
                    (h.yspec_new_shared env xpath domain (toString nr) none).1, [],
                    by simp, rfl, ?_⟩
                  simp
                | none =>
                  simp only
                  cases hnew : (h.ydomain_new env domain).1 with
                  | none =>
                    left
                    simp
                  | some ydomain =>
                    right
                    refine ⟨(h.ydomain_new env domain).2,
                      (h.yspec_new_shared (h.ydomain_new env domain).2 xpath domain
                        (toString nr) none).2,
                      xyanglib, xpath, domain,
                      (h.yspec_new_shared (h.ydomain_new env domain).2 xpath domain
                        (toString nr) none).1,
                      [.ydomain_new domain], by simp, rfl, ?_⟩
                    simp [hnew]

/-- C14: when the option `CLICON_YANG_SCHEMA_MOUNT_SHARE` is false,
`yang_schema_yanglib_parse_mount` does not call `yang_schema_find_share`,
passes NULL to `yspec_new_shared` as the shared candidate, and calls
`yang_lib2yspec` on the yang spec that `yspec_new_shared` created, to parse the
yang-library into it. -/
theorem parse_mount_no_share (h : clixon_handle) (env : yang_api) (xt : cxobj) (nr : Nat)
    (hopt : h.clicon_option_bool "CLICON_YANG_SCHEMA_MOUNT_SHARE" = false) :
    mount_event.yang_schema_find_share ∉ (yang_schema_yanglib_parse_mount h env xt nr).events ∧
    (∀ xpath domain name yspec0 yspec1,
      mount_event.yspec_new_shared xpath domain name yspec0 yspec1 ∈
        (yang_schema_yanglib_parse_mount h env xt nr).events → yspec0 = none) ∧
    (∀ xpath domain name yspec0 y1,
      mount_event.yspec_new_shared xpath domain name yspec0 (some y1) ∈
        (yang_schema_yanglib_parse_mount h env xt nr).events →
      mount_event.yang_lib2yspec xpath domain y1 ∈
        (yang_schema_yanglib_parse_mount h env xt nr).events) := by
  rcases parse_mount_no_share_run h env xt nr hopt with hearly |
    ⟨env0, env1, xyanglib, xp, dom, y1o, ev, hev, _, hrun⟩
  · refine ⟨?_, ?_, ?_⟩
    · intro hin
      obtain ⟨d, hd⟩ := hearly _ hin
      simp at hd
    · intro xpath domain name yspec0 yspec1 hin
      obtain ⟨d, hd⟩ := hearly _ hin
      simp at hd
    · intro xpath domain name yspec0 y1 hin
      obtain ⟨d, hd⟩ := hearly _ hin
      simp at hd
  · rw [hrun]
    -- where an event of the run can come from
    have src : ∀ e, e ∈ (parse_mount_bind h env1 xt xyanglib xp dom none y1o
          (ev ++ [.yspec_new_shared xp dom (toString nr) none y1o])).events →
        (∃ d, e = .ydomain_new d) ∨ e = .yspec_new_shared xp dom (toString nr) none y1o ∨
        (∃ y, e = .yang_lib2yspec xp dom y) ∨ (∃ y, e = .ys_prune_self y) ∨
        e = .xml_yang_mount_set y1o ∨ (∃ y, e = .ys_free y) := by
      intro e he
      rcases parse_mount_bind_events h env1 xt xyanglib xp dom none y1o _ e he with
        h1 | h2 | h3 | h4 | h5
      · rcases List.mem_append.1 h1 with h1 | h1
        · exact Or.inl (hev e h1)
        · exact Or.inr (Or.inl (by simpa using h1))
      · exact Or.inr (Or.inr (Or.inl h2))
      · exact Or.inr (Or.inr (Or.inr (Or.inl h3)))
      · exact Or.inr (Or.inr (Or.inr (Or.inr (Or.inl h4))))
      · exact Or.inr (Or.inr (Or.inr (Or.inr (Or.inr h5))))
    refine ⟨?_, ?_, ?_⟩
    · intro hin
      rcases src _ hin with ⟨d, hd⟩ | hd | ⟨y, hd⟩ | ⟨y, hd⟩ | hd | ⟨y, hd⟩ <;> simp at hd
    · intro xpath domain name yspec0 yspec1 hin
      rcases src _ hin with ⟨d, hd⟩ | hd | ⟨y, hd⟩ | ⟨y, hd⟩ | hd | ⟨y, hd⟩ <;>
        simp at hd
      exact hd.2.2.2.1
    · intro xpath domain name yspec0 y1 hin
      rcases src _ hin with ⟨d, hd⟩ | hd | ⟨y, hd⟩ | ⟨y, hd⟩ | hd | ⟨y, hd⟩ <;>
        simp at hd
      obtain ⟨hx, hd2, _, _, hy⟩ := hd
      subst hx
      subst hd2
      rw [← hy]
      exact parse_mount_bind_new h env1 xt xyanglib xpath domain y1 _

/-- C14, in the example, for the mount-point instance 102: the run creates
the yang spec 14 and parses the yang-library into it. -/
theorem parse_mount_no_share_witness :
    (yang_schema_yanglib_parse_mount example_handle example_mounts_flagged
        (example_xmnt 102) 0).events
      = [.yspec_new_shared "/ex:ifs" "dom" "0" none (some 14),
          .yang_lib2yspec "/ex:ifs" "dom" 14, .xml_yang_mount_set (some 14)] ∧
    (mount_event.yang_schema_find_share ∉
        (yang_schema_yanglib_parse_mount example_handle example_mounts_flagged
          (example_xmnt 102) 0).events ∧
      (∀ xpath domain name yspec0 yspec1,
        mount_event.yspec_new_shared xpath domain name yspec0 yspec1 ∈
          (yang_schema_yanglib_parse_mount example_handle example_mounts_flagged
            (example_xmnt 102) 0).events → yspec0 = none) ∧
      (∀ xpath domain name yspec0 y1,
        mount_event.yspec_new_shared xpath domain name yspec0 (some y1) ∈
          (yang_schema_yanglib_parse_mount example_handle example_mounts_flagged
            (example_xmnt 102) 0).events →
        mount_event.yang_lib2yspec xpath domain y1 ∈
          (yang_schema_yanglib_parse_mount example_handle example_mounts_flagged
            (example_xmnt 102) 0).events)) :=
  ⟨by decide,
    parse_mount_no_share example_handle example_mounts_flagged (example_xmnt 102) 0
      (by decide)⟩

/-- C15: when the mount callback succeeds, then for an XML node `xt` for
which it supplies no yang-library `yang_schema_yanglib_parse_mount` returns 0
(treat as anydata), having called none of the functions that create a domain
or a yang spec or bind one, and leaves the YANG tree, its flags included, as
it was; and for a yang-library without a `module-set/name` it returns -1. -/
theorem parse_mount_anydata (h : clixon_handle) (env : yang_api) (xt : cxobj) (nr : Nat)
    (hp : 0 ≤ (h.clixon_plugin_yang_mount_all xt).retval) :
    ((h.clixon_plugin_yang_mount_all xt).yanglib = none →
      (yang_schema_yanglib_parse_mount h env xt nr).retval = 0 ∧
      (yang_schema_yanglib_parse_mount h env xt nr).events = [] ∧
      (yang_schema_yanglib_parse_mount h env xt nr).env = env) ∧
    (∀ xyanglib, (h.clixon_plugin_yang_mount_all xt).yanglib = some xyanglib →
      h.yanglib_module_set_name xyanglib = none →
      (yang_schema_yanglib_parse_mount h env xt nr).retval = -1) := by
  have hp2 : ¬ (h.clixon_plugin_yang_mount_all xt).retval < 0 := not_lt.mpr hp
  constructor
  · intro hlib
    simp [yang_schema_yanglib_parse_mount, hp2, hlib]
  · intro xyanglib hlib hname
    simp [yang_schema_yanglib_parse_mount, hp2, hlib, hname]

/-- C15, in the example, at the root of the XML tree, for which the mount
callback supplies no yang-library. -/
theorem parse_mount_anydata_witness :
    ((example_handle.clixon_plugin_yang_mount_all example_xml_root).yanglib = none →
      (yang_schema_yanglib_parse_mount example_handle example_mounts_flagged
        example_xml_root 0).retval = 0 ∧
      (yang_schema_yanglib_parse_mount example_handle example_mounts_flagged
        example_xml_root 0).events = [] ∧
      (yang_schema_yanglib_parse_mount example_handle example_mounts_flagged
        example_xml_root 0).env = example_mounts_flagged) ∧
    (∀ xyanglib,
      (example_handle.clixon_plugin_yang_mount_all example_xml_root).yanglib = some xyanglib →
      example_handle.yanglib_module_set_name xyanglib = none →
      (yang_schema_yanglib_parse_mount example_handle example_mounts_flagged
        example_xml_root 0).retval = -1) :=
  parse_mount_anydata example_handle example_mounts_flagged example_xml_root 0 (by decide)

/-! ## Theorems: RESTCONF GET and HEAD -/

/-- The common start of GET and HEAD: when the api-path is translated, the
backend answers and its reply holds no `rpc-error`, the handler goes on after
the call of the backend with its normal return. -/
theorem api_data_get2_normal (io : get_io) (pretty : Int) (media_out : restconf_media)
    (head : Int)
    (hpath : 0 < io.api_path2xpath_cvv.1)
    (hget : 0 ≤ (get_reply io).1)
    (hpop : 0 ≤ io.xml_spec_populate (get_reply io).2)
    (hnoerr : io.xpath_first (get_reply io).2 "//rpc-error" = none) :
    api_data_get2 io pretty media_out head =
      get_normal io pretty media_out head
        [.clicon_rpc_get (get_xpath io) io.api_path2xpath_cvv.2.2] := by
  have h1 : ¬ io.api_path2xpath_cvv.1 < 0 := by omega
  have h2 : ¬ io.api_path2xpath_cvv.1 = 0 := by omega
  have h3 : ¬ (get_reply io).1 < 0 := by omega
  have h4 : ¬ io.xml_spec_populate (get_reply io).2 < 0 := by omega
  simp only [api_data_get2, h1, h2, h3, h4, hnoerr, if_false]

/-- GET (`head = 0`) when the XPath finds no node: the only answer is
`api_return_err` on the invalid-value document with the code 404. -/
theorem api_data_get2_not_found (io : get_io) (pretty : Int) (media_out : restconf_media)
    (hpath : 0 < io.api_path2xpath_cvv.1)
    (hroot : get_xpath io ≠ "/")
    (hget : 0 ≤ (get_reply io).1)
    (hpop : 0 ≤ io.xml_spec_populate (get_reply io).2)
    (hnoerr : io.xpath_first (get_reply io).2 "//rpc-error" = none)
    (hvec : 0 ≤ (io.xpath_vec_nsc (get_reply io).2 (get_xpath io)).1)
    (hzero : (io.xpath_vec_nsc (get_reply io).2 (get_xpath io)).2 = []) :
    (api_data_get2 io pretty media_out 0).2 =
      [.clicon_rpc_get (get_xpath io) io.api_path2xpath_cvv.2.2,
       .api_return_err
         (.xerr (netconf_invalid_value_xml "application" "Instance does not exist"))
         pretty 404] := by
  rw [api_data_get2_normal io pretty media_out 0 hpath hget hpop hnoerr]
  have h1 : ¬ (io.xpath_vec_nsc (get_reply io).2 (get_xpath io)).1 < 0 := by omega
  simp only [get_normal, ne_eq, not_true_eq_false, if_false, hroot, h1, hzero,
    List.length_nil, if_true, return_err]
  split <;> rfl

/-- HEAD (`head = 1`) when the reply of the backend holds no error: the
answer is 200 with the content type, whatever the XPath finds. -/
theorem api_data_get2_head (io : get_io) (pretty : Int) (media_out : restconf_media)
    (hpath : 0 < io.api_path2xpath_cvv.1)
    (hget : 0 ≤ (get_reply io).1)
    (hpop : 0 ≤ io.xml_spec_populate (get_reply io).2)
    (hnoerr : io.xpath_first (get_reply io).2 "//rpc-error" = none) :
    api_data_get2 io pretty media_out 1 =
      (0, [.clicon_rpc_get (get_xpath io) io.api_path2xpath_cvv.2.2,
        .FCGX_SetExitStatus 200,
        .FCGX_FPrintF ("Content-Type: " ++ restconf_media_int2str media_out ++ "\r\n"),
        .FCGX_FPrintF "\r\n"]) := by
  rw [api_data_get2_normal io pretty media_out 1 hpath hget hpop hnoerr]
  simp [get_normal]

/-- C16: a GET on a path that is not the data root, for which the backend
answers without an `rpc-error` and the XPath made from the api-path finds no
node (the calls that come before the XPath is evaluated do not fail), is
answered by `api_return_err` alone, on an error document whose error-tag is
`invalid-value`, with the HTTP code 404; no status 200 is set. -/
theorem api_data_get_not_found (io : get_io) (pretty : Int) (media_out : restconf_media)
    (hpath : 0 < io.api_path2xpath_cvv.1)
    (hroot : get_xpath io ≠ "/")
    (hget : 0 ≤ (get_reply io).1)
    (hpop : 0 ≤ io.xml_spec_populate (get_reply io).2)
    (hnoerr : io.xpath_first (get_reply io).2 "//rpc-error" = none)
    (hvec : 0 ≤ (io.xpath_vec_nsc (get_reply io).2 (get_xpath io)).1)
    (hzero : (io.xpath_vec_nsc (get_reply io).2 (get_xpath io)).2 = []) :
    (api_data_get io pretty media_out).2 =
      [.clicon_rpc_get (get_xpath io) io.api_path2xpath_cvv.2.2,
       .api_return_err
         (.xerr (netconf_invalid_value_xml "application" "Instance does not exist"))
         pretty 404] ∧
    (netconf_invalid_value_xml "application" "Instance does not exist").error_tag =
      "invalid-value" ∧
    ∀ e ∈ (api_data_get io pretty media_out).2, e ≠ .FCGX_SetExitStatus 200 := by
  have h := api_data_get2_not_found io pretty media_out hpath hroot hget hpop hnoerr hvec hzero
  refine ⟨h, rfl, ?_⟩
  intro e he
  rw [api_data_get, h] at he
  simp only [List.mem_cons, List.mem_singleton, List.not_mem_nil, or_false] at he
  rcases he with he | he <;> rw [he] <;> simp

/-- C16, in the example, when the XPath finds nothing. -/
theorem api_data_get_not_found_witness :
    (api_data_get (example_get_io []) 0 .YANG_DATA_JSON).2 =
      [.clicon_rpc_get (get_xpath (example_get_io [])) (some "urn:example"),
       .api_return_err
         (.xerr (netconf_invalid_value_xml "application" "Instance does not exist")) 0 404] ∧
    (netconf_invalid_value_xml "application" "Instance does not exist").error_tag =
      "invalid-value" ∧
    ∀ e ∈ (api_data_get (example_get_io []) 0 .YANG_DATA_JSON).2,
      e ≠ .FCGX_SetExitStatus 200 :=
  api_data_get_not_found (example_get_io []) 0 .YANG_DATA_JSON (by decide) (by decide)
    (by decide) (by decide) rfl (by decide) rfl

/-- C17: what the code does against the note in the comment of
`api_data_get2` (400 Bad Request for more than one instance with XML). A GET
with XML output whose XPath finds more than one node, every call succeeding,
is answered with the status 200 and a body that is the serialisation of
every node found, one after the other; `api_return_err` is not called. -/
theorem api_data_get_xml_many (io : get_io) (pretty : Int)
    (hpath : 0 < io.api_path2xpath_cvv.1)
    (hroot : get_xpath io ≠ "/")
    (hget : 0 ≤ (get_reply io).1)
    (hpop : 0 ≤ io.xml_spec_populate (get_reply io).2)
    (hnoerr : io.xpath_first (get_reply io).2 "//rpc-error" = none)
    (hvec : 0 ≤ (io.xpath_vec_nsc (get_reply io).2 (get_xpath io)).1)
    (hmany : 1 < (io.xpath_vec_nsc (get_reply io).2 (get_xpath io)).2.length)
    (hser : 0 ≤ (get_xml_vec io pretty
      (io.xpath_vec_nsc (get_reply io).2 (get_xpath io)).2 "").1) :
    api_data_get io pretty .YANG_DATA_XML =
      (0, [.clicon_rpc_get (get_xpath io) io.api_path2xpath_cvv.2.2,
        .FCGX_SetExitStatus 200,
        .FCGX_FPrintF "Cache-Control: no-cache\r\n",
        .FCGX_FPrintF "Content-Type: application/yang-data+xml\r\n",
        .FCGX_FPrintF "\r\n",
        .FCGX_FPrintF (get_xml_vec io pretty
          (io.xpath_vec_nsc (get_reply io).2 (get_xpath io)).2 "").2,
        .FCGX_FPrintF "\r\n\r\n"]) ∧
    ∀ xe p code0, restconf_event.api_return_err xe p code0 ∉
      (api_data_get io pretty .YANG_DATA_XML).2 := by
  have h1 : ¬ (io.xpath_vec_nsc (get_reply io).2 (get_xpath io)).1 < 0 := by omega
  have h2 : ¬ (io.xpath_vec_nsc (get_reply io).2 (get_xpath io)).2.length = 0 := by omega
  have h3 : ¬ (get_xml_vec io pretty
      (io.xpath_vec_nsc (get_reply io).2 (get_xpath io)).2 "").1 < 0 := by omega
  have h : api_data_get io pretty .YANG_DATA_XML =
      (0, [.clicon_rpc_get (get_xpath io) io.api_path2xpath_cvv.2.2] ++
        get_ok .YANG_DATA_XML (get_xml_vec io pretty
          (io.xpath_vec_nsc (get_reply io).2 (get_xpath io)).2 "").2) := by
    rw [api_data_get, api_data_get2_normal io pretty _ 0 hpath hget hpop hnoerr]
    simp only [get_normal, ne_eq, not_true_eq_false, if_false, hroot, h1, h2, h3]
  refine ⟨by rw [h]; rfl, ?_⟩
  intro xe p code0 hmem
  rw [h] at hmem
  simp [get_ok] at hmem

/-- C17, in the example: the XPath finds the two instances of the list in the
reply, and the answer is 200 with both in the body. -/
theorem api_data_get_xml_many_witness :
    api_data_get (example_get_io [.mk 301 (some 3) [], .mk 302 (some 3) []]) 0
        .YANG_DATA_XML =
      (0, [.clicon_rpc_get "/ex:ifs/ex:if" (some "urn:example"),
        .FCGX_SetExitStatus 200,
        .FCGX_FPrintF "Cache-Control: no-cache\r\n",
        .FCGX_FPrintF "Content-Type: application/yang-data+xml\r\n",
        .FCGX_FPrintF "\r\n",
        .FCGX_FPrintF "<if>a</if><if>b</if>",
        .FCGX_FPrintF "\r\n\r\n"]) ∧
    ∀ xe p code0, restconf_event.api_return_err xe p code0 ∉
      (api_data_get (example_get_io [.mk 301 (some 3) [], .mk 302 (some 3) []]) 0
        .YANG_DATA_XML).2 :=
  api_data_get_xml_many (example_get_io [.mk 301 (some 3) [], .mk 302 (some 3) []]) 0
    (by decide) (by decide) (by decide) (by decide) rfl (by decide) (by decide) (by decide)

/-- C18: what the code does against the comment of `api_data_head` (the
header fields that the comparable GET would return). When the backend answers
without an `rpc-error` and the XPath made from the api-path finds no node,
HEAD sets the status 200 and GET answers with the error 404. -/
theorem api_data_head_get_differ (io : get_io) (pretty : Int) (media_out : restconf_media)
    (hpath : 0 < io.api_path2xpath_cvv.1)
    (hroot : get_xpath io ≠ "/")
    (hget : 0 ≤ (get_reply io).1)
    (hpop : 0 ≤ io.xml_spec_populate (get_reply io).2)
    (hnoerr : io.xpath_first (get_reply io).2 "//rpc-error" = none)
    (hvec : 0 ≤ (io.xpath_vec_nsc (get_reply io).2 (get_xpath io)).1)
    (hzero : (io.xpath_vec_nsc (get_reply io).2 (get_xpath io)).2 = []) :
    api_data_head io pretty media_out =
      (0, [.clicon_rpc_get (get_xpath io) io.api_path2xpath_cvv.2.2,
        .FCGX_SetExitStatus 200,
        .FCGX_FPrintF ("Content-Type: " ++ restconf_media_int2str media_out ++ "\r\n"),
        .FCGX_FPrintF "\r\n"]) ∧
    (api_data_get io pretty media_out).2 =
      [.clicon_rpc_get (get_xpath io) io.api_path2xpath_cvv.2.2,
       .api_return_err
         (.xerr (netconf_invalid_value_xml "application" "Instance does not exist"))
         pretty 404] :=
  ⟨api_data_get2_head io pretty media_out hpath hget hpop hnoerr,
   api_data_get2_not_found io pretty media_out hpath hroot hget hpop hnoerr hvec hzero⟩

/-- C18, in the example, when the XPath finds nothing. -/
theorem api_data_head_get_differ_witness :
    api_data_head (example_get_io []) 0 .YANG_DATA_JSON =
      (0, [.clicon_rpc_get "/ex:ifs/ex:if" (some "urn:example"),
        .FCGX_SetExitStatus 200,
        .FCGX_FPrintF "Content-Type: application/yang-data+json\r\n",
        .FCGX_FPrintF "\r\n"]) ∧
    (api_data_get (example_get_io []) 0 .YANG_DATA_JSON).2 =
      [.clicon_rpc_get "/ex:ifs/ex:if" (some "urn:example"),
       .api_return_err
         (.xerr (netconf_invalid_value_xml "application" "Instance does not exist")) 0 404] :=
  api_data_head_get_differ (example_get_io []) 0 .YANG_DATA_JSON (by decide) (by decide)
    (by decide) (by decide) rfl (by decide) rfl

/-! ## Theorems: RESTCONF POST on a data resource -/

/-- From an accepted api-path and a parsed body, `api_data_post` comes to the
check of the body with the top of the tree as its only call so far. -/
theorem api_data_post_body (io : post_io) (api_path : Option String) (data : String)
    (pretty use_xml parse_xml : Int)
    (hpath : post_path_accepted io api_path = true)
    (hbody : post_body_parsed io data parse_xml = true) :
    api_data_post io api_path data pretty use_xml parse_xml =
      post_data io pretty parse_xml .OP_CREATE (post_xtop io) (post_bottom io api_path).1
        (post_bottom io api_path).2 (post_body io data parse_xml) [.xml_new "config" none] := by
  unfold post_path_accepted at hpath
  unfold post_body_parsed at hbody
  have hparse : ∀ xbot ymodapi,
      post_parse io data pretty parse_xml .OP_CREATE (post_xtop io) xbot ymodapi
          [.xml_new "config" none] =
        post_data io pretty parse_xml .OP_CREATE (post_xtop io) xbot ymodapi
          (post_body io data parse_xml) [.xml_new "config" none] := by
    intro xbot ymodapi
    unfold post_parse post_body
    by_cases hx : parse_xml ≠ 0
    · rw [if_pos hx] at hbody
      rw [if_pos hx, if_pos hx]
      have h1 : ¬ (io.xml_parse_string data).1 < 0 := by
        have := of_decide_eq_true hbody
        omega
      simp only [h1, if_false]
    · rw [if_neg hx] at hbody
      rw [if_neg hx, if_neg hx]
      have h0 := of_decide_eq_true hbody
      have h1 : ¬ (io.json_parse_str data).1 < 0 := by omega
      have h2 : ¬ (io.json_parse_str data).1 = 0 := by omega
      simp only [h1, h2, if_false]
  cases hs : io.clicon_dbspec_yang with
  | none => simp [hs] at hpath
  | some yspec =>
    cases api_path with
    | none =>
      simp only [api_data_post, hs, post_bottom]
      exact hparse _ _
    | some p =>
      simp only [hs, Option.isSome_some, Bool.true_and] at hpath
      have h0 := of_decide_eq_true hpath
      have h1 : ¬ (io.api_path2xml p (post_xtop io)).1 < 0 := by omega
      have h2 : ¬ (io.api_path2xml p (post_xtop io)).1 = 0 := by omega
      have h1' : ¬ (io.api_path2xml p (io.xml_new "config" none)).1 < 0 := h1
      have h2' : ¬ (io.api_path2xml p (io.xml_new "config" none)).1 = 0 := h2
      simp only [api_data_post, hs, post_bottom, h1', h2', if_false]
      exact hparse _ _

/-- C20: when the api-path of a POST is accepted and its body is parsed, and
the parsed body does not have exactly one child, `api_data_post` answers with
`api_return_err` on the `rpc-error` of a malformed-message document and sends
no request to the backend. -/
theorem api_data_post_one_instance (io : post_io) (api_path : Option String) (data : String)
    (pretty use_xml parse_xml : Int)
    (hpath : post_path_accepted io api_path = true)
    (hbody : post_body_parsed io data parse_xml = true)
    (hnr : xml_child_nr (post_body io data parse_xml) ≠ 1) :
    (api_data_post io api_path data pretty use_xml parse_xml).2 =
      [.xml_new "config" none,
       .api_return_err (.rpc_error (netconf_malformed_message_xml io.clicon_err_reason))
         pretty 0] ∧
    (netconf_malformed_message_xml io.clicon_err_reason).error_tag = "malformed-message" ∧
    ∀ e ∈ (api_data_post io api_path data pretty use_xml parse_xml).2, is_rpc e = false := by
  have h : (api_data_post io api_path data pretty use_xml parse_xml).2 =
      [.xml_new "config" none,
       .api_return_err (.rpc_error (netconf_malformed_message_xml io.clicon_err_reason))
         pretty 0] := by
    rw [api_data_post_body io api_path data pretty use_xml parse_xml hpath hbody]
    simp only [post_data, hnr, ne_eq, not_false_eq_true, if_true, post_malformed, return_err]
    split <;> rfl
  refine ⟨h, rfl, ?_⟩
  intro e he
  rw [h] at he
  simp only [List.mem_cons, List.mem_singleton, List.not_mem_nil, or_false] at he
  rcases he with he | he <;> rw [he] <;> rfl

/-- C20, in the example, for a body with two children. -/
theorem api_data_post_one_instance_witness :
    (api_data_post (example_post_io (.mk 410 none [.mk 411 none [], .mk 412 none []]) false)
        (some "/ex:ifs") "" 0 1 1).2 =
      [.xml_new "config" none,
       .api_return_err (.rpc_error (netconf_malformed_message_xml "")) 0 0] ∧
    (netconf_malformed_message_xml "").error_tag = "malformed-message" ∧
    ∀ e ∈ (api_data_post
        (example_post_io (.mk 410 none [.mk 411 none [], .mk 412 none []]) false)
        (some "/ex:ifs") "" 0 1 1).2, is_rpc e = false :=
  api_data_post_one_instance
    (example_post_io (.mk 410 none [.mk 411 none [], .mk 412 none []]) false)
    (some "/ex:ifs") "" 0 1 1 (by decide) (by decide) (by decide)

/-- The calls of `api_return_err` are appended to the calls made so far. -/
theorem return_err_events (ret : Int) (xe : err_arg) (pretty code0 : Int)
    (ev : List restconf_event) :
    (return_err ret xe pretty code0 ev).2 = ev ++ [.api_return_err xe pretty code0] := by
  unfold return_err
  split <;> rfl

/-- After a commit, `api_data_post` answers "201 Created", with at most a
copy-config request and a warning in between, when the copy-config request,
if it is sent, is answered. -/
theorem post_startup_created (io : post_io) (xdata : cxobj) (ev : List restconf_event)
    (hcopy : io.if_feature "ietf-netconf" "startup" = true →
      0 ≤ (io.clicon_rpc_netconf (copy_config_msg io)).1) :
    ∃ mid, post_startup io xdata ev = (0, ev ++ mid ++ created_events xdata) ∧
      ∀ e ∈ mid, e = .clicon_rpc_netconf (copy_config_msg io) ∨
        e = .clicon_log "api_data_post: copy-config running->startup failed" := by
  unfold post_startup
  by_cases hf : io.if_feature "ietf-netconf" "startup" = true
  · have h1 : ¬ (io.clicon_rpc_netconf (copy_config_msg io)).1 < 0 := by
      have := hcopy hf
      omega
    simp only [hf, if_true, h1, if_false]
    cases io.xpath_first (io.clicon_rpc_netconf (copy_config_msg io)).2 "//rpc-error" with
    | none =>
      exact ⟨[.clicon_rpc_netconf (copy_config_msg io)], by simp [post_created, created_events],
        by simp⟩
    | some xe =>
      exact ⟨[.clicon_rpc_netconf (copy_config_msg io),
        .clicon_log "api_data_post: copy-config running->startup failed"],
        by simp [post_created, created_events], by simp⟩
  · simp only [hf, if_false]
    exact ⟨[], by simp [post_created, created_events], by simp⟩

/-- A commit that is answered without an `rpc-error` is followed by the
copy to startup and the response. -/
theorem post_commit_ok (io : post_io) (pretty : Int) (xdata : cxobj)
    (ev : List restconf_event)
    (hc : 0 ≤ (io.clicon_rpc_netconf (commit_msg io)).1)
    (hnoerr : io.xpath_first (io.clicon_rpc_netconf (commit_msg io)).2 "//rpc-error" = none) :
    post_commit io pretty xdata ev =
      post_startup io xdata (ev ++ [.clicon_rpc_netconf (commit_msg io)]) := by
  have h1 : ¬ (io.clicon_rpc_netconf (commit_msg io)).1 < 0 := by omega
  simp only [post_commit, h1, if_false, hnoerr]

/-- An edit-config that is answered without an `rpc-error` is followed by
the commit. -/
theorem post_edit_ok (io : post_io) (pretty : Int) (xtop : Nat) (xdata : cxobj)
    (ev : List restconf_event)
    (hser : 0 ≤ (io.clicon_xml2cbuf xtop).1)
    (hr : 0 ≤ (io.clicon_rpc_netconf (edit_config_msg io (io.clicon_xml2cbuf xtop).2)).1)
    (hnoerr : io.xpath_first
      (io.clicon_rpc_netconf (edit_config_msg io (io.clicon_xml2cbuf xtop).2)).2
      "//rpc-error" = none) :
    post_edit io pretty xtop xdata ev =
      post_commit io pretty xdata
        (ev ++ [.clicon_rpc_netconf (edit_config_msg io (io.clicon_xml2cbuf xtop).2)]) := by
  have h1 : ¬ (io.clicon_xml2cbuf xtop).1 < 0 := by omega
  have h2 : ¬ (io.clicon_rpc_netconf (edit_config_msg io (io.clicon_xml2cbuf xtop).2)).1 < 0 := by
    omega
  simp only [post_edit, h1, h2, if_false, hnoerr]

/-- The calls of `post_startup` are appended to the calls made so far. -/
theorem post_startup_prefix (io : post_io) (xdata : cxobj) (ev : List restconf_event) :
    ∃ rest, (post_startup io xdata ev).2 = ev ++ rest := by
  unfold post_startup post_created
  simp only
  split
  · split
    · exact ⟨_, rfl⟩
    · split
      · exact ⟨_, by rw [List.append_assoc, List.append_assoc]⟩
      · exact ⟨_, by rw [List.append_assoc]⟩
  · exact ⟨_, rfl⟩

/-- The calls of `post_commit` are appended to the calls made so far. -/
theorem post_commit_prefix (io : post_io) (pretty : Int) (xdata : cxobj)
    (ev : List restconf_event) :
    ∃ rest, (post_commit io pretty xdata ev).2 = ev ++ rest := by
  unfold post_commit
  simp only
  split
  · exact ⟨_, rfl⟩
  · split
    · split
      · exact ⟨_, by rw [List.append_assoc]⟩
      · unfold post_rpc_error
        rw [return_err_events]
        split
        · exact ⟨_, by rw [List.append_assoc, List.append_assoc, List.append_assoc]⟩
        · exact ⟨_, by rw [List.append_assoc, List.append_assoc]⟩
    · obtain ⟨rest, h⟩ := post_startup_prefix io xdata
        (ev ++ [.clicon_rpc_netconf (commit_msg io)])
      exact ⟨_, by rw [h, List.append_assoc]⟩

/-- When the tree is printed, the first call of `post_edit` is the
edit-config request. -/
theorem post_edit_first (io : post_io) (pretty : Int) (xtop : Nat) (xdata : cxobj)
    (ev : List restconf_event)
    (hser : 0 ≤ (io.clicon_xml2cbuf xtop).1) :
    ∃ rest, (post_edit io pretty xtop xdata ev).2 =
      ev ++ [.clicon_rpc_netconf (edit_config_msg io (io.clicon_xml2cbuf xtop).2)] ++ rest := by
  have h1 : ¬ (io.clicon_xml2cbuf xtop).1 < 0 := by omega
  unfold post_edit
  simp only [h1, if_false]
  split
  · exact ⟨[], by simp⟩
  · split
    · unfold post_rpc_error
      rw [return_err_events]
      exact ⟨_, rfl⟩
    · exact post_commit_prefix io pretty xdata _

/-- When the body has the one child `xdata`, the data is accepted and the
calls that build the tree do not fail, `api_data_post` comes to the
edit-config after the calls of `post_build_events`. -/
theorem post_data_built (io : post_io) (api_path : Option String) (pretty parse_xml : Int)
    (xdata0 xdata : cxobj) (ev : List restconf_event)
    (hone : xml_child_nr xdata0 = 1)
    (hx : xml_child_i xdata0 0 = some xdata)
    (hdata : post_data_accepted io api_path parse_xml xdata = true)
    (hbuilt : post_tree_built io api_path xdata = true) :
    post_data io pretty parse_xml .OP_CREATE (post_xtop io) (post_bottom io api_path).1
        (post_bottom io api_path).2 xdata0 ev =
      post_edit io pretty (post_xtop io) xdata
        (ev ++ post_build_events io .OP_CREATE (post_bottom io api_path).1 parse_xml xdata) := by
  simp only [post_data_accepted, Bool.and_eq_true, decide_eq_true_eq,
    Bool.not_eq_true'] at hdata
  simp only [post_tree_built, Bool.and_eq_true, decide_eq_true_eq] at hbuilt
  obtain ⟨⟨hm, hmis⟩, hdec⟩ := hdata
  obtain ⟨⟨⟨⟨hv, ha⟩, hp⟩, hi⟩, _⟩ := hbuilt
  have h1 : ¬ (io.ys_module_by_xml xdata).1 < 0 := by omega
  have h2 : ¬ io.xml_value_set (io.xml_new "operation" (some (xml_id xdata)))
      (xml_operation2str .OP_CREATE) < 0 := by omega
  have h3 : ¬ io.xml_addsub (post_bottom io api_path).1 (xml_id xdata) < 0 := by omega
  have h4 : ¬ io.xml_spec_populate xdata < 0 := by omega
  have h5 : ¬ io.restconf_insert_attributes xdata < 0 := by omega
  have hone' : ¬ xml_child_nr xdata0 ≠ 1 := by simp [hone]
  unfold post_data
  rw [if_neg hone', hx]
  simp only [h1, if_false, hmis, Bool.false_eq_true, h2, h3, h4]
  by_cases hj : parse_xml = 0 ∧ (xml_spec xdata).isNone = true
  · rw [if_pos hj] at hdec
    have hd := of_decide_eq_true hdec
    have h6 : ¬ (io.json2xml_decode xdata).1 < 0 := by omega
    have h7 : ¬ (io.json2xml_decode xdata).1 = 0 := by omega
    rw [if_pos hj]
    simp only [h6, h7, if_false, post_insert, h5, post_build_events, if_pos hj,
      List.append_assoc, List.cons_append, List.nil_append, List.singleton_append]
  · rw [if_neg hj]
    simp only [post_insert, h5, if_false, post_build_events, if_neg hj, List.append_assoc,
      List.cons_append, List.nil_append, List.singleton_append]

/-- C19: POST on a data resource is a create. When the api-path is accepted,
the body is parsed and has the one child `xdata`, the data is accepted and the
calls that build the tree do not fail: the calls of `api_data_post` start
with the making of the attribute `operation`, with the prefix of the NETCONF
base namespace and the value `create`, on `xdata`, and the putting of `xdata`
under the bottom of the api-path, and the first request to the backend, which
follows, is an edit-config on candidate with the default operation `none`
around the text of the tree. If moreover the edit-config and the commit are
answered without an `rpc-error` (and the copy to startup, if it is sent, is
answered), the handler returns 0, the request after the edit-config is the
commit, and the last calls are the response 201 Created with the location of
`xdata`; between the two there is at most the copy to startup and a warning,
so that `api_return_err` is not called. -/
theorem api_data_post_create (io : post_io) (api_path : Option String) (data : String)
    (pretty use_xml parse_xml : Int) (xdata : cxobj)
    (hpath : post_path_accepted io api_path = true)
    (hbody : post_body_parsed io data parse_xml = true)
    (hone : xml_child_nr (post_body io data parse_xml) = 1)
    (hx : xml_child_i (post_body io data parse_xml) 0 = some xdata)
    (hdata : post_data_accepted io api_path parse_xml xdata = true)
    (hbuilt : post_tree_built io api_path xdata = true) :
    (∃ rest, (api_data_post io api_path data pretty use_xml parse_xml).2 =
      [.xml_new "config" none,
       .xml_new "operation" (some (xml_id xdata)),
       .xml_type_set (io.xml_new "operation" (some (xml_id xdata))) .CX_ATTR,
       .xml_prefix_set (io.xml_new "operation" (some (xml_id xdata))) io.NETCONF_BASE_PREFIX,
       .xml_value_set (io.xml_new "operation" (some (xml_id xdata))) "create",
       .xml_addsub (post_bottom io api_path).1 (xml_id xdata),
       .xml_spec_populate (xml_id xdata)] ++
      (if parse_xml = 0 ∧ (xml_spec xdata).isNone = true then
        [.json2xml_decode (xml_id xdata)] else []) ++
      [.restconf_insert_attributes (xml_id xdata),
       .clicon_rpc_netconf
        ("<rpc username=\"" ++ post_username io ++ "\" xmlns:" ++ io.NETCONF_BASE_PREFIX ++
          "=\"" ++ io.NETCONF_BASE_NAMESPACE ++ "\">" ++
          "<edit-config><target><candidate /></target>" ++
          "<default-operation>none</default-operation>" ++
          (io.clicon_xml2cbuf (post_xtop io)).2 ++
          "</edit-config></rpc>")] ++ rest) ∧
    (0 ≤ (io.clicon_rpc_netconf
        (edit_config_msg io (io.clicon_xml2cbuf (post_xtop io)).2)).1 →
      io.xpath_first (io.clicon_rpc_netconf
        (edit_config_msg io (io.clicon_xml2cbuf (post_xtop io)).2)).2 "//rpc-error" = none →
      0 ≤ (io.clicon_rpc_netconf (commit_msg io)).1 →
      io.xpath_first (io.clicon_rpc_netconf (commit_msg io)).2 "//rpc-error" = none →
      (io.if_feature "ietf-netconf" "startup" = true →
        0 ≤ (io.clicon_rpc_netconf (copy_config_msg io)).1) →
      ∃ mid, api_data_post io api_path data pretty use_xml parse_xml =
          (0, [.xml_new "config" none] ++
            post_build_events io .OP_CREATE (post_bottom io api_path).1 parse_xml xdata ++
            [.clicon_rpc_netconf (edit_config_msg io (io.clicon_xml2cbuf (post_xtop io)).2),
             .clicon_rpc_netconf (commit_msg io)] ++ mid ++
            [.FCGX_SetExitStatus 201,
             .FCGX_FPrintF "Status: 201 Created\r\n",
             .http_location (xml_id xdata),
             .FCGX_FPrintF "\r\n"]) ∧
        ∀ e ∈ mid, e = .clicon_rpc_netconf (copy_config_msg io) ∨
          e = .clicon_log "api_data_post: copy-config running->startup failed") := by
  have hstart := api_data_post_body io api_path data pretty use_xml parse_xml hpath hbody
  have hbuild := post_data_built io api_path pretty parse_xml (post_body io data parse_xml)
    xdata [.xml_new "config" none] hone hx hdata hbuilt
  have hser : 0 ≤ (io.clicon_xml2cbuf (post_xtop io)).1 := by
    simp only [post_tree_built, Bool.and_eq_true, decide_eq_true_eq] at hbuilt
    exact hbuilt.2
  constructor
  · obtain ⟨rest, h⟩ := post_edit_first io pretty (post_xtop io) xdata
      ([.xml_new "config" none] ++
        post_build_events io .OP_CREATE (post_bottom io api_path).1 parse_xml xdata) hser
    refine ⟨rest, ?_⟩
    rw [hstart, hbuild, h]
    simp only [post_build_events, edit_config_msg, xml_operation2str, List.append_assoc,
      List.cons_append, List.nil_append, List.singleton_append]
  · intro hr hnoerr hc hnoerr2 hcopy
    obtain ⟨mid, h, hmid⟩ := post_startup_created io xdata
      ([.xml_new "config" none] ++
        post_build_events io .OP_CREATE (post_bottom io api_path).1 parse_xml xdata ++
        [.clicon_rpc_netconf (edit_config_msg io (io.clicon_xml2cbuf (post_xtop io)).2)] ++
        [.clicon_rpc_netconf (commit_msg io)]) hcopy
    refine ⟨mid, ?_, hmid⟩
    rw [hstart, hbuild, post_edit_ok io pretty (post_xtop io) xdata _ hser hr hnoerr,
      post_commit_ok io pretty xdata _ hc hnoerr2, h]
    simp only [created_events, List.append_assoc, List.cons_append, List.nil_append,
      List.singleton_append]

/-- C19, in the example: a POST of one list instance in XML on `/ex:ifs`,
the feature `startup` enabled. -/
theorem api_data_post_create_witness :
    (∃ rest, (api_data_post (example_post_io (.mk 410 none [.mk 411 (some 3) []]) true)
        (some "/ex:ifs") "<if>a</if>" 0 1 1).2 =
      [.xml_new "config" none,
       .xml_new "operation" (some 411),
       .xml_type_set 401 .CX_ATTR,
       .xml_prefix_set 401 "nc",
       .xml_value_set 401 "create",
       .xml_addsub 402 411,
       .xml_spec_populate 411] ++
      [] ++
      [.restconf_insert_attributes 411,
       .clicon_rpc_netconf
        ("<rpc username=\"anna\" xmlns:nc=\"urn:ietf:params:xml:ns:netconf:base:1.0\">" ++
          "<edit-config><target><candidate /></target>" ++
          "<default-operation>none</default-operation>" ++
          "<config><ifs><if nc:operation=\"create\">a</if></ifs></config>" ++
          "</edit-config></rpc>")] ++ rest) ∧
    (0 ≤ (0 : Int) →
      (none : Option cxobj) = none →
      0 ≤ (0 : Int) →
      (none : Option cxobj) = none →
      (true = true → 0 ≤ (0 : Int)) →
      ∃ mid, api_data_post (example_post_io (.mk 410 none [.mk 411 (some 3) []]) true)
          (some "/ex:ifs") "<if>a</if>" 0 1 1 =
          (0, [.xml_new "config" none] ++
            post_build_events (example_post_io (.mk 410 none [.mk 411 (some 3) []]) true)
              .OP_CREATE 402 1 (.mk 411 (some 3) []) ++
            [.clicon_rpc_netconf (edit_config_msg
              (example_post_io (.mk 410 none [.mk 411 (some 3) []]) true)
              "<config><ifs><if nc:operation=\"create\">a</if></ifs></config>"),
             .clicon_rpc_netconf "<rpc username=\"_nacm_recovery\"><commit/></rpc>"] ++ mid ++
            [.FCGX_SetExitStatus 201,
             .FCGX_FPrintF "Status: 201 Created\r\n",
             .http_location 411,
             .FCGX_FPrintF "\r\n"]) ∧
        ∀ e ∈ mid, e = .clicon_rpc_netconf
            (copy_config_msg (example_post_io (.mk 410 none [.mk 411 (some 3) []]) true)) ∨
          e = .clicon_log "api_data_post: copy-config running->startup failed") :=
  api_data_post_create (example_post_io (.mk 410 none [.mk 411 (some 3) []]) true)
    (some "/ex:ifs") "<if>a</if>" 0 1 1 (.mk 411 (some 3) []) (by decide) (by decide)
    (by decide) rfl (by decide) (by decide)

/-- Two texts that end in different texts of the same length differ. -/
theorem append_ne_of_suffix (a b s t : String) (hlen : s.length = t.length) (hne : s ≠ t) :
    a ++ s ≠ b ++ t := by
  intro h
  have h1 := congrArg String.data h
  simp only [String.data_append] at h1
  have h2 := List.append_inj' h1 hlen
  exact hne (String.ext h2.2)

/-- The copy-config request is not the edit-config request. -/
theorem copy_msg_ne_edit (io : post_io) (xml : String) :
    copy_config_msg io ≠ edit_config_msg io xml := by
  unfold copy_config_msg edit_config_msg
  have e2 : "<copy-config><source><running/></source><target><startup/></target></copy-config></rpc>"
      = "<copy-config><source><running/></source><target><startup/></target>" ++
        "</copy-config></rpc>" := by decide
  rw [e2, ← String.append_assoc]
  exact append_ne_of_suffix _ _ _ _ (by decide) (by decide)

/-- The copy-config request is not the commit request. -/
theorem copy_msg_ne_commit (io : post_io) : copy_config_msg io ≠ commit_msg io := by
  unfold copy_config_msg commit_msg
  have e2 : "<copy-config><source><running/></source><target><startup/></target></copy-config></rpc>"
      = "<copy-config><source><running/></source><target><startup/></target></copy" ++
        "-config></rpc>" := by decide
  have e : "<commit/></rpc>" = "<" ++ "commit/></rpc>" := by decide
  rw [e2, e, ← String.append_assoc, ← String.append_assoc]
  exact append_ne_of_suffix _ _ _ _ (by decide) (by decide)

/-- The calls that build the tree hold no request to the backend. -/
theorem post_build_events_no_rpc (io : post_io) (op : operation_type) (xbot : Nat)
    (parse_xml : Int) (xdata : cxobj) :
    ∀ e ∈ post_build_events io op xbot parse_xml xdata, is_rpc e = false := by
  intro e he
  unfold post_build_events at he
  split at he <;>
    simp only [List.cons_append, List.nil_append, List.mem_cons, List.mem_singleton,
      List.not_mem_nil, or_false] at he <;>
    rcases he with he | he | he | he | he | he | he <;> (try rcases he with he | he) <;>
    first | rfl | (rw [he]; rfl)

/-- The copy to startup and the response after a commit, call by call, when
the copy-config request, if it is sent, is answered. -/
theorem post_startup_events (io : post_io) (xdata : cxobj) (ev : List restconf_event)
    (hcopy : io.if_feature "ietf-netconf" "startup" = true →
      0 ≤ (io.clicon_rpc_netconf (copy_config_msg io)).1) :
    post_startup io xdata ev =
      (0, ev ++
        (if io.if_feature "ietf-netconf" "startup" = true then
          restconf_event.clicon_rpc_netconf (copy_config_msg io) ::
            (if (io.xpath_first (io.clicon_rpc_netconf (copy_config_msg io)).2
                "//rpc-error").isSome = true then
              [.clicon_log "api_data_post: copy-config running->startup failed"]
            else [])
        else []) ++ created_events xdata) := by
  unfold post_startup
  by_cases hf : io.if_feature "ietf-netconf" "startup" = true
  · have h1 : ¬ (io.clicon_rpc_netconf (copy_config_msg io)).1 < 0 := by
      have := hcopy hf
      omega
    simp only [hf, if_true, h1, if_false]
    cases io.xpath_first (io.clicon_rpc_netconf (copy_config_msg io)).2 "//rpc-error" <;>
      simp [post_created, created_events]
  · simp only [hf, if_false]
    simp [post_created, created_events]

/-- C23: a POST whose data is accepted and built into the tree, whose
edit-config and commit are answered without an `rpc-error`, and whose
copy-config request, if it is sent, is answered. The calls of `api_data_post`
are then, after the commit request, the copy-config from running to startup
exactly when the feature `startup` of `ietf-netconf` is enabled, a warning
when its reply holds an `rpc-error`, and in every case the response
"201 Created"; the handler returns 0. -/
theorem api_data_post_startup (io : post_io) (api_path : Option String) (data : String)
    (pretty use_xml parse_xml : Int) (xdata : cxobj)
    (hpath : post_path_accepted io api_path = true)
    (hbody : post_body_parsed io data parse_xml = true)
    (hone : xml_child_nr (post_body io data parse_xml) = 1)
    (hx : xml_child_i (post_body io data parse_xml) 0 = some xdata)
    (hdata : post_data_accepted io api_path parse_xml xdata = true)
    (hbuilt : post_tree_built io api_path xdata = true)
    (hr : 0 ≤ (io.clicon_rpc_netconf
      (edit_config_msg io (io.clicon_xml2cbuf (post_xtop io)).2)).1)
    (hnoerr : io.xpath_first (io.clicon_rpc_netconf
      (edit_config_msg io (io.clicon_xml2cbuf (post_xtop io)).2)).2 "//rpc-error" = none)
    (hc : 0 ≤ (io.clicon_rpc_netconf (commit_msg io)).1)
    (hnoerr2 : io.xpath_first (io.clicon_rpc_netconf (commit_msg io)).2 "//rpc-error" = none)
    (hcopy : io.if_feature "ietf-netconf" "startup" = true →
      0 ≤ (io.clicon_rpc_netconf (copy_config_msg io)).1) :
    api_data_post io api_path data pretty use_xml parse_xml =
      (0, [.xml_new "config" none] ++
        post_build_events io .OP_CREATE (post_bottom io api_path).1 parse_xml xdata ++
        [.clicon_rpc_netconf (edit_config_msg io (io.clicon_xml2cbuf (post_xtop io)).2),
         .clicon_rpc_netconf (commit_msg io)] ++
        (if io.if_feature "ietf-netconf" "startup" = true then
          restconf_event.clicon_rpc_netconf (copy_config_msg io) ::
            (if (io.xpath_first (io.clicon_rpc_netconf (copy_config_msg io)).2
                "//rpc-error").isSome = true then
              [.clicon_log "api_data_post: copy-config running->startup failed"]
            else [])
        else []) ++
        [.FCGX_SetExitStatus 201,
         .FCGX_FPrintF "Status: 201 Created\r\n",
         .http_location (xml_id xdata),
         .FCGX_FPrintF "\r\n"]) ∧
    (restconf_event.clicon_rpc_netconf (copy_config_msg io) ∈
        (api_data_post io api_path data pretty use_xml parse_xml).2 ↔
      io.if_feature "ietf-netconf" "startup" = true) := by
  have hser : 0 ≤ (io.clicon_xml2cbuf (post_xtop io)).1 := by
    simp only [post_tree_built, Bool.and_eq_true, decide_eq_true_eq] at hbuilt
    exact hbuilt.2
  have h : api_data_post io api_path data pretty use_xml parse_xml =
      (0, [.xml_new "config" none] ++
        post_build_events io .OP_CREATE (post_bottom io api_path).1 parse_xml xdata ++
        [.clicon_rpc_netconf (edit_config_msg io (io.clicon_xml2cbuf (post_xtop io)).2),
         .clicon_rpc_netconf (commit_msg io)] ++
        (if io.if_feature "ietf-netconf" "startup" = true then
          restconf_event.clicon_rpc_netconf (copy_config_msg io) ::
            (if (io.xpath_first (io.clicon_rpc_netconf (copy_config_msg io)).2
                "//rpc-error").isSome = true then
              [.clicon_log "api_data_post: copy-config running->startup failed"]
            else [])
        else []) ++
        [.FCGX_SetExitStatus 201,
         .FCGX_FPrintF "Status: 201 Created\r\n",
         .http_location (xml_id xdata),
         .FCGX_FPrintF "\r\n"]) := by
    rw [api_data_post_body io api_path data pretty use_xml parse_xml hpath hbody,
      post_data_built io api_path pretty parse_xml _ xdata _ hone hx hdata hbuilt,
      post_edit_ok io pretty (post_xtop io) xdata _ hser hr hnoerr,
      post_commit_ok io pretty xdata _ hc hnoerr2,
      post_startup_events io xdata _ hcopy]
    simp only [created_events, List.append_assoc, List.cons_append, List.nil_append,
      List.singleton_append]
  refine ⟨h, ?_⟩
  rw [h]
  have hb := post_build_events_no_rpc io .OP_CREATE (post_bottom io api_path).1 parse_xml xdata
  have hcb : restconf_event.clicon_rpc_netconf (copy_config_msg io) ∉
      post_build_events io .OP_CREATE (post_bottom io api_path).1 parse_xml xdata := by
    intro hin
    have := hb _ hin
    simp [is_rpc] at this
  have h1 := copy_msg_ne_edit io (io.clicon_xml2cbuf (post_xtop io)).2
  have h2 := copy_msg_ne_commit io
  by_cases hf : io.if_feature "ietf-netconf" "startup" = true
  · simp [hf]
  · simp [hf, hcb, h1, h2]

/-- C23, in the example with the feature `startup` enabled: the copy-config
follows the commit, and the response is 201. -/
theorem api_data_post_startup_witness :
    api_data_post (example_post_io (.mk 410 none [.mk 411 (some 3) []]) true)
        (some "/ex:ifs") "<if>a</if>" 0 1 1 =
      (0, [.xml_new "config" none] ++
        post_build_events (example_post_io (.mk 410 none [.mk 411 (some 3) []]) true)
          .OP_CREATE 402 1 (.mk 411 (some 3) []) ++
        [.clicon_rpc_netconf (edit_config_msg
          (example_post_io (.mk 410 none [.mk 411 (some 3) []]) true)
          "<config><ifs><if nc:operation=\"create\">a</if></ifs></config>"),
         .clicon_rpc_netconf "<rpc username=\"_nacm_recovery\"><commit/></rpc>"] ++
        (if true = true then
          restconf_event.clicon_rpc_netconf
            (copy_config_msg (example_post_io (.mk 410 none [.mk 411 (some 3) []]) true)) ::
            (if (none : Option cxobj).isSome = true then
              [.clicon_log "api_data_post: copy-config running->startup failed"]
            else [])
        else []) ++
        [.FCGX_SetExitStatus 201,
         .FCGX_FPrintF "Status: 201 Created\r\n",
         .http_location 411,
         .FCGX_FPrintF "\r\n"]) ∧
    (restconf_event.clicon_rpc_netconf
        (copy_config_msg (example_post_io (.mk 410 none [.mk 411 (some 3) []]) true)) ∈
        (api_data_post (example_post_io (.mk 410 none [.mk 411 (some 3) []]) true)
          (some "/ex:ifs") "<if>a</if>" 0 1 1).2 ↔
      true = true) :=
  api_data_post_startup (example_post_io (.mk 410 none [.mk 411 (some 3) []]) true)
    (some "/ex:ifs") "<if>a</if>" 0 1 1 (.mk 411 (some 3) []) (by decide) (by decide)
    (by decide) rfl (by decide) (by decide) (by decide) rfl (by decide) rfl
    (fun _ => by decide)

/-- C26: the initial node is invariant during the evaluation of a path-arg.
Whatever the parse tree and the context: the result context that
`xp_yang_eval` stores has the `xy_initial` of the context it was given; so
has the result of `xp_yang_eval_step` and of `xp_yang_eval_predicate` at a
node of the tree (their recursive calls being those of `xp_yang_eval` on the
children); and the result of `xp_yang_op_eq` has the `xy_initial` of its
first operand. -/
theorem xy_initial_invariant (env : yang_api) :
    (∀ (t : xpath_tree) (xy : xp_yang_ctx) (r : Int) (o xy1 : xp_yang_ctx),
      xp_yang_eval env xy t = .ret r (some o) xy1 → o.xy_initial = xy.xy_initial) ∧
    (∀ (xs_type : xp_type) (xs_int : Int) (xs_s0 xs_s1 : Option String)
      (xs_c0 xs_c1 : xpath_tree) (xy : xp_yang_ctx) (r : Int) (o xy1 : xp_yang_ctx),
      xp_yang_eval_step env (fun c => xp_yang_eval env c xs_c1) xy
          (.node xs_type xs_int xs_s0 xs_s1 xs_c0 xs_c1) = .ret r (some o) xy1 →
        o.xy_initial = xy.xy_initial) ∧
    (∀ (xs_type : xp_type) (xs_int : Int) (xs_s0 xs_s1 : Option String)
      (xs_c0 xs_c1 : xpath_tree) (xy : xp_yang_ctx) (r : Int) (o xy1 : xp_yang_ctx),
      xp_yang_eval_predicate (fun c => xp_yang_eval env c xs_c0)
          (fun c => xp_yang_eval env c xs_c1) xy
          (.node xs_type xs_int xs_s0 xs_s1 xs_c0 xs_c1) = .ret r (some o) xy1 →
        o.xy_initial = xy.xy_initial) ∧
    (∀ (xy1 : xp_yang_ctx) (xy2 : Option xp_yang_ctx) (o : xp_yang_ctx),
      (xp_yang_op_eq (some xy1) xy2).2 = some o → o.xy_initial = xy1.xy_initial) := by
  refine ⟨?_, ?_, ?_, ?_⟩
  · intro t xy r o xy1 h
    have := xp_yang_eval_initial env t xy
    rw [h, res_initial_ret] at this
    exact this.2 o rfl
  · intro xs_type xs_int xs_s0 xs_s1 xs_c0 xs_c1 xy r o xy1 h
    have := xp_yang_eval_step_initial env (fun c => xp_yang_eval env c xs_c1)
      (fun c => xp_yang_eval_initial env xs_c1 c) xy
      (.node xs_type xs_int xs_s0 xs_s1 xs_c0 xs_c1)
    rw [h, res_initial_ret] at this
    exact this.2 o rfl
  · intro xs_type xs_int xs_s0 xs_s1 xs_c0 xs_c1 xy r o xy1 h
    have := xp_yang_eval_predicate_initial (fun c => xp_yang_eval env c xs_c0)
      (fun c => xp_yang_eval env c xs_c1)
      (fun c => xp_yang_eval_initial env xs_c0 c)
      (fun c => xp_yang_eval_initial env xs_c1 c) xy
      (.node xs_type xs_int xs_s0 xs_s1 xs_c0 xs_c1)
    rw [h, res_initial_ret] at this
    exact this.2 o rfl
  · intro xy1 xy2 o h
    exact xp_yang_op_eq_initial xy1.xy_initial (some xy1) xy2
      (fun c hc => by cases hc; rfl) o h

/-- A step `..` from a node without a parent, followed by predicates,
returns 0 and stores no result context. -/
theorem xp_yang_eval_parent_of_top (env : yang_api) (xy : xp_yang_ctx) (n : yang_stmt)
    (preds : xpath_tree) (hp : preds ≠ .null)
    (htype : xy.xy_type = .XT_NODESET) (hnode : xy.xy_node = some n)
    (hparent : env.yang_parent_get (some n) = none) :
    xp_yang_eval env xy (axis_step A_PARENT preds) = .ret 0 none xy := by
  have hne : xy_empty xy = false := xy_empty_of_node (by rw [hnode]; simp)
  have hemp : xy_empty { xy with xy_node := none } = true := by simp [xy_empty, htype]
  cases preds with
  | null => exact absurd rfl hp
  | node tp ip ap bp lp rp =>
    have h104 : ¬ ((10 : Int) = 4) := by decide
    rw [axis_step, xp_yang_eval]
    simp only [hne, Bool.false_eq_true, if_false, xp_yang_eval_step, step_axis, xy_dup,
      A_PARENT, A_CHILD, hnode, hparent, step_tail, h104, if_true]
    rw [xp_yang_eval_empty env _ _ hemp]
    simp

/-- C27: what the code does where the claim says a result context is never
absent. When the previous predicates of a predicate list evaluate, without
error, to an empty node-set (a previous predicate was not true), the next
predicate expression is evaluated on that empty node-set, which returns 0 and
stores nothing, and `xp_yang_eval_predicate` then reads the type of the
absent result: a NULL dereference. Moreover, on a node-set holding a node
`n` without a parent, a step `..` followed by predicates returns 0 without a
result context, and a relative path with that step as its first child and a
second child passes the absent context to the evaluation of the second
child: a NULL dereference too. -/
theorem xp_yang_eval_result_absent (env : yang_api) (xy x0 xy1 : xp_yang_ctx) (r : Int)
    (xs_int : Int) (xs_s0 xs_s1 : Option String) (prev expr : xpath_tree)
    (hprev : prev ≠ .null) (hexpr : expr ≠ .null)
    (hxy : xy_empty xy = false)
    (h0 : xp_yang_eval env xy prev = .ret r (some x0) xy1)
    (hr : 0 ≤ r) (hx0 : xy_empty x0 = true) :
    xp_yang_eval env xy (.node .XP_PRED xs_int xs_s0 xs_s1 prev expr) = .segv ∧
    (∀ (c : xp_yang_ctx) (n : yang_stmt) (preds second : xpath_tree),
      preds ≠ .null → second ≠ .null → c.xy_type = .XT_NODESET → c.xy_node = some n →
      env.yang_parent_get (some n) = none →
      xp_yang_eval env c (axis_step A_PARENT preds) = .ret 0 none c ∧
      xp_yang_eval env c (rel_path (axis_step A_PARENT preds) second) = .segv) := by
  constructor
  · cases prev with
    | null => exact absurd rfl hprev
    | node t0 i0 a0 b0 l0 r0 =>
      cases expr with
      | null => exact absurd rfl hexpr
      | node t1 i1 a1 b1 l1 r1 =>
        have hr' : ¬ r < 0 := by omega
        rw [xp_yang_eval]
        simp only [hxy, Bool.false_eq_true, if_false, xp_yang_eval_predicate, predicate_first,
          h0, hr']
        rw [xp_yang_eval_empty env _ _ hx0]
        simp
  · intro c n preds second hp hs htype hnode hparent
    have h1 := xp_yang_eval_parent_of_top env c n preds hp htype hnode hparent
    refine ⟨h1, ?_⟩
    have hne : xy_empty c = false := xy_empty_of_node (by rw [hnode]; simp)
    cases second with
    | null => exact absurd rfl hs
    | node t1 i1 a1 b1 l1 r1 =>
      have hax : ∃ t i a b l rr, axis_step A_PARENT preds = .node t i a b l rr :=
        ⟨_, _, _, _, _, _, rfl⟩
      obtain ⟨t, i, a, b, l, rr, hax⟩ := hax
      rw [rel_path, xp_yang_eval]
      simp only [hne, Bool.false_eq_true, if_false]
      rw [hax, eval_children, ← hax, h1]
      simp [eval_second, eval_use_xy0]

/-- C27, in the example: the two predicates `[name][mtu]` on the list `if`
(statement 3). The first one is a path, so it leaves an empty node-set, and
the second one makes the evaluator dereference NULL; so does `yang_path_arg`
on the path-arg `../ifs/if[name][mtu]/mtu` of the leaf `ref` (6). -/
theorem xp_yang_eval_result_absent_witness :
    (xp_yang_eval example_api (start_ctx (some 3))
        (.node .XP_PRED A_NAN none none
          (pred no_preds (path_expr (rel_path (child_step none "name" no_preds) .null)))
          (path_expr (rel_path (child_step none "mtu" no_preds) .null))) = .segv ∧
      (∀ (c : xp_yang_ctx) (n : yang_stmt) (preds second : xpath_tree),
        preds ≠ .null → second ≠ .null → c.xy_type = .XT_NODESET → c.xy_node = some n →
        example_api.yang_parent_get (some n) = none →
        xp_yang_eval example_api c (axis_step A_PARENT preds) = .ret 0 none c ∧
        xp_yang_eval example_api c (rel_path (axis_step A_PARENT preds) second) = .segv)) ∧
    yang_path_arg example_api (fun _ => some example_two_predicates) (some 6)
      (some "../ifs/if[name][mtu]/mtu") = .segv :=
  ⟨xp_yang_eval_result_absent example_api (start_ctx (some 3))
      { xy_type := .XT_NODESET, xy_node := none, xy_bool := 0, xy_initial := some 3 }
      (start_ctx (some 3)) 0 A_NAN none none
      (pred no_preds (path_expr (rel_path (child_step none "name" no_preds) .null)))
      (path_expr (rel_path (child_step none "mtu" no_preds) .null))
      (by decide) (by decide) (by decide) (by decide) (by decide) (by decide),
    by decide⟩

/-- What `ctx_frame` says. -/
theorem ctx_frame_iff (strict : Bool) (xy xy1 : xp_yang_ctx) :
    ctx_frame strict xy xy1 = true ↔
      xy1.xy_type = xy.xy_type ∧ xy1.xy_bool = xy.xy_bool ∧
      xy1.xy_initial = xy.xy_initial ∧ (strict = true → xy1.xy_node = xy.xy_node) := by
  cases strict <;> simp [ctx_frame, and_assoc]

/-- A context is `ctx_frame` of itself. -/
theorem ctx_frame_refl (strict : Bool) (xy : xp_yang_ctx) : ctx_frame strict xy xy = true := by
  rw [ctx_frame_iff]
  exact ⟨rfl, rfl, rfl, fun _ => rfl⟩

/-- `ctx_frame` is transitive. -/
theorem ctx_frame_trans (strict : Bool) (a b c : xp_yang_ctx)
    (h1 : ctx_frame strict a b = true) (h2 : ctx_frame strict b c = true) :
    ctx_frame strict a c = true := by
  rw [ctx_frame_iff] at h1 h2 ⊢
  obtain ⟨a1, a2, a3, a4⟩ := h1
  obtain ⟨b1, b2, b3, b4⟩ := h2
  exact ⟨b1.trans a1, b2.trans a2, b3.trans a3, fun hs => (b4 hs).trans (a4 hs)⟩

/-- The end of `xp_yang_eval` hands the context back as it is. -/
theorem eval_finish_frame (xs_type : xp_type) (xy : xp_yang_ctx)
    (xy0 xy1 xy2 : Option xp_yang_ctx) :
    ∀ r o z, eval_finish xs_type xy xy0 xy1 xy2 = .ret r o z → z = xy := by
  intro r o z h
  unfold eval_finish at h
  split at h
  · split at h <;> simp only [xp_res.ret.injEq] at h <;> exact h.2.2.symm
  all_goals (simp only [xp_res.ret.injEq] at h; exact h.2.2.symm)

/-- The second half of the generic traversal leaves the context as the call
on the second child leaves it. -/
theorem eval_second_frame (strict : Bool) (eval_c1 : xp_yang_ctx → xp_res)
    (H1 : ∀ c, res_frame strict c (eval_c1 c) = true)
    (xs_type : xp_type) (xs_int : Int) (xs_c1 : xpath_tree)
    (xy : xp_yang_ctx) (xy0 : Option xp_yang_ctx) :
    res_frame strict xy (eval_second eval_c1 xs_type xs_int xs_c1 xy xy0) = true := by
  have hfin : ∀ (x : xp_yang_ctx) (a b c : Option xp_yang_ctx),
      ctx_frame strict xy x = true →
      res_frame strict xy (eval_finish xs_type x a b c) = true := by
    intro x a b c hx
    cases he : eval_finish xs_type x a b c with
    | segv => rfl
    | ret r o z =>
      rw [eval_finish_frame xs_type x a b c r o z he]
      exact hx
  unfold eval_second
  cases xs_c1 with
  | null => exact hfin xy xy0 none none (ctx_frame_refl strict xy)
  | node t1 i1 a1 b1 l1 m1 =>
    simp only
    cases hc : (if eval_use_xy0 xs_type (.node t1 i1 a1 b1 l1 m1) then xy0 else some xy) with
    | none => rfl
    | some c =>
      have hres := H1 c
      simp only
      cases he : eval_c1 c with
      | segv => rfl
      | ret r xy1 z =>
        rw [he] at hres
        have hxy2 : ctx_frame strict xy
            (if eval_use_xy0 xs_type (.node t1 i1 a1 b1 l1 m1) = true then xy else z) = true := by
          by_cases hu : eval_use_xy0 xs_type (.node t1 i1 a1 b1 l1 m1) = true
          · rw [if_pos hu]
            exact ctx_frame_refl strict xy
          · rw [if_neg hu]
            rw [if_neg hu] at hc
            simp only [Option.some.injEq] at hc
            rw [hc]
            exact hres
        simp only
        generalize (if eval_use_xy0 xs_type (.node t1 i1 a1 b1 l1 m1) = true then xy else z)
          = xyA at hxy2 ⊢
        generalize (if eval_use_xy0 xs_type (.node t1 i1 a1 b1 l1 m1) = true then some z
          else xy0) = xy0A
        by_cases hr : r < 0
        · simpa [hr, res_frame] using hxy2
        · simp only [hr, if_false]
          cases xs_type with
          | XP_RELEX =>
            simp only
            by_cases hop : xs_int ≠ XO_EQ
            · simpa [hop, res_frame] using hxy2
            · simp only [hop, if_false]
              by_cases heq : (xp_yang_op_eq xy0A xy1).1 < 0
              · simpa [heq, res_frame] using hxy2
              · simp only [heq, if_false]
                exact hfin _ _ _ _ hxy2
          | _ => exact hfin _ _ _ _ hxy2

/-- The generic traversal leaves the context as the calls on the two
children leave it. -/
theorem eval_children_frame (strict : Bool) (eval_c0 eval_c1 : xp_yang_ctx → xp_res)
    (H0 : ∀ c, res_frame strict c (eval_c0 c) = true)
    (H1 : ∀ c, res_frame strict c (eval_c1 c) = true)
    (xs_type : xp_type) (xs_int : Int) (xs_c0 xs_c1 : xpath_tree) (xy : xp_yang_ctx) :
    res_frame strict xy (eval_children eval_c0 eval_c1 xs_type xs_int xs_c0 xs_c1 xy)
      = true := by
  unfold eval_children
  cases xs_c0 with
  | null => exact eval_second_frame strict eval_c1 H1 _ _ _ _ _
  | node t0 i0 a0 b0 l0 m0 =>
    simp only
    have hres := H0 xy
    cases he : eval_c0 xy with
    | segv => rfl
    | ret r xy0 z =>
      rw [he] at hres
      simp only
      by_cases hr : r < 0
      · simpa [hr, res_frame] using hres
      · simp only [hr, if_false]
        have h2 := eval_second_frame strict eval_c1 H1 xs_type xs_int xs_c1 z xy0
        cases hs : eval_second eval_c1 xs_type xs_int xs_c1 z xy0 with
        | segv => rfl
        | ret r2 o2 z2 =>
          rw [hs] at h2
          exact ctx_frame_trans strict xy z z2 hres h2

/-- A step works on a copy: the context it is given is handed back as it
is. -/
theorem xp_yang_eval_step_frame (env : yang_api) (eval_c1 : xp_yang_ctx → xp_res)
    (xy0 : xp_yang_ctx) (xptree : xpath_tree) :
    ∀ r o z, xp_yang_eval_step env eval_c1 xy0 xptree = .ret r o z → z = xy0 := by
  intro r o z h
  cases xptree with
  | null => simp [xp_yang_eval_step] at h
  | node ty i s0 s1 c0 c1 =>
    simp only [xp_yang_eval_step] at h
    split at h
    · simp only [xp_res.ret.injEq] at h
      exact h.2.2.symm
    · simp only [xp_res.ret.injEq] at h
      exact h.2.2.symm
    · unfold step_tail at h
      split at h
      · simp only [xp_res.ret.injEq] at h
        exact h.2.2.symm
      · split at h
        · simp at h
        · split at h <;> simp only [xp_res.ret.injEq] at h <;> exact h.2.2.symm

/-- Predicates leave the context as the call on the previous predicates
leaves it; the predicate expression works on the result of that call. -/
theorem xp_yang_eval_predicate_frame (strict : Bool) (eval_c0 eval_c1 : xp_yang_ctx → xp_res)
    (H0 : ∀ c, res_frame strict c (eval_c0 c) = true)
    (xy : xp_yang_ctx) (xptree : xpath_tree) :
    res_frame strict xy (xp_yang_eval_predicate eval_c0 eval_c1 xy xptree) = true := by
  cases xptree with
  | null => rfl
  | node ty i s0 s1 c0 c1 =>
    simp only [xp_yang_eval_predicate]
    have hfirst : res_frame strict xy (predicate_first eval_c0 xy c0) = true := by
      cases c0 with
      | null => exact ctx_frame_refl strict xy
      | node t0 i0 a0 b0 l0 m0 => exact H0 xy
    cases hf : predicate_first eval_c0 xy c0 with
    | segv => rfl
    | ret r xy0 z =>
      rw [hf] at hfirst
      have hz : ctx_frame strict xy z = true := hfirst
      simp only
      by_cases hr : r < 0
      · simpa [hr, res_frame] using hz
      · simp only [hr, if_false]
        cases c1 with
        | null => exact hz
        | node t1 i1 a1 b1 l1 m1 =>
          simp only
          cases xy0 with
          | none => rfl
          | some x0 =>
            simp only
            cases he : eval_c1 x0 with
            | segv => rfl
            | ret r1 xy1 z1 =>
              simp only
              by_cases hr1 : r1 < 0
              · simpa [hr1, res_frame] using hz
              · simp only [hr1, if_false]
                cases xy1 with
                | none => rfl
                | some c1 =>
                  simp only
                  split <;> exact hz

/-- The context that `xp_yang_eval` hands back to its caller: type, boolean
and initial node are those of the context it was given; on a tree without an
`XP_ABSPATH` node the node is the same too (`strict`). -/
theorem xp_yang_eval_frame (env : yang_api) (strict : Bool) :
    ∀ (t : xpath_tree), (strict = true → no_abspath t = true) →
      ∀ (xy : xp_yang_ctx), res_frame strict xy (xp_yang_eval env xy t) = true := by
  intro t
  induction t with
  | null =>
    intro _ xy
    rw [xp_yang_eval]
    split
    · exact ctx_frame_refl strict xy
    · rfl
  | node ty i s0 s1 c0 c1 ih0 ih1 =>
    intro hna xy
    have hna0 : strict = true → no_abspath c0 = true := by
      intro hs
      have := hna hs
      simp only [no_abspath, Bool.and_eq_true] at this
      exact this.1.2
    have hna1 : strict = true → no_abspath c1 = true := by
      intro hs
      have := hna hs
      simp only [no_abspath, Bool.and_eq_true] at this
      exact this.2
    have hself : res_frame strict xy (.ret 0 none xy) = true := ctx_frame_refl strict xy
    have hret : ∀ (r : Int) (o : Option xp_yang_ctx),
        res_frame strict xy (.ret r o xy) = true := fun _ _ => ctx_frame_refl strict xy
    rw [xp_yang_eval]
    by_cases hemp : xy_empty xy = true
    · simp only [hemp, if_true]
      exact hself
    · have hne : xy_empty xy = false := by simpa using hemp
      have hch : ∀ x : xp_yang_ctx, res_frame strict x
          (eval_children (fun c => xp_yang_eval env c c0) (fun c => xp_yang_eval env c c1)
            ty i c0 c1 x) = true :=
        fun x => eval_children_frame strict _ _ (fun c => ih0 hna0 c) (fun c => ih1 hna1 c)
          ty i c0 c1 x
      simp only [hne, Bool.false_eq_true, if_false]
      cases ty with
      | XP_RELEX => exact hch xy
      | XP_PATHEXPR => exact hch xy
      | XP_FILTEREXPR => exact hch xy
      | XP_LOCPATH => exact hch xy
      | XP_NODE => exact hch xy
      | XP_NODE_FN => exact hch xy
      | XP_RELLOCPATH => exact hch xy
      | XP_EXP =>
        cases c1 with
        | null => exact hch xy
        | node t1 i1 a1 b1 l1 m1 => exact hret _ _
      | XP_AND =>
        cases c1 with
        | null => exact hch xy
        | node t1 i1 a1 b1 l1 m1 => exact hret _ _
      | XP_ADD =>
        cases c1 with
        | null => exact hch xy
        | node t1 i1 a1 b1 l1 m1 => exact hret _ _
      | XP_UNION =>
        cases c1 with
        | null => exact hch xy
        | node t1 i1 a1 b1 l1 m1 => exact hret _ _
      | XP_ABSPATH =>
        have hs : strict = false := by
          cases strict with
          | false => rfl
          | true =>
            have := hna rfl
            simp [no_abspath] at this
        simp only
        split
        · have h2 := hch { xy with xy_node := env.ys_module xy.xy_node }
          cases he : eval_children (fun c => xp_yang_eval env c c0)
              (fun c => xp_yang_eval env c c1) .XP_ABSPATH i c0 c1
              { xy with xy_node := env.ys_module xy.xy_node } with
          | segv => rfl
          | ret r o z =>
            rw [he] at h2
            refine ctx_frame_trans strict xy _ z ?_ h2
            rw [hs, ctx_frame_iff]
            exact ⟨rfl, rfl, rfl, fun h => by simp at h⟩
        · exact hch xy
      | XP_PRIME_FN =>
        cases s0 with
        | none => exact hch xy
        | some name =>
          simp only
          split <;> exact hret _ _
      | XP_PRIME_STR => exact hret _ _
      | XP_PRI0 => exact hret _ _
      | XP_PRIME_NR => exact hret _ _
      | XP_PRED =>
        simp only
        have hp := xp_yang_eval_predicate_frame strict (fun c => xp_yang_eval env c c0)
          (fun c => xp_yang_eval env c c1) (fun c => ih0 hna0 c) xy
          (.node .XP_PRED i s0 s1 c0 c1)
        cases he : xp_yang_eval_predicate (fun c => xp_yang_eval env c c0)
            (fun c => xp_yang_eval env c c1) xy (.node .XP_PRED i s0 s1 c0 c1) with
        | segv => rfl
        | ret r o z =>
          rw [he] at hp
          simp only
          split <;> exact hp
      | XP_STEP =>
        simp only
        cases he : xp_yang_eval_step env (fun c => xp_yang_eval env c c1) xy
            (.node .XP_STEP i s0 s1 c0 c1) with
        | segv => rfl
        | ret r o z =>
          rw [xp_yang_eval_step_frame env _ xy _ r o z he]
          simp only
          split <;> exact hret _ _

/-- C28, as the code has it: after a call of `xp_yang_eval` that returned,
the caller's context has the type, the boolean and the initial node it had
before; on a parse tree without an `XP_ABSPATH` node it is the same context,
node included; and an `XP_ABSPATH` node, whose children hold no further one,
evaluated on a non-empty context whose node is not the yang spec, leaves the
module of that node in the caller's context. -/
theorem xp_yang_eval_context_frame (env : yang_api) (t : xpath_tree) (xy xy1 : xp_yang_ctx)
    (r : Int) (o : Option xp_yang_ctx)
    (h : xp_yang_eval env xy t = .ret r o xy1) :
    xy1.xy_type = xy.xy_type ∧ xy1.xy_bool = xy.xy_bool ∧ xy1.xy_initial = xy.xy_initial ∧
    (no_abspath t = true → xy1 = xy) ∧
    (∀ (xs_int : Int) (xs_s0 xs_s1 : Option String) (xs_c0 xs_c1 : xpath_tree),
      t = .node .XP_ABSPATH xs_int xs_s0 xs_s1 xs_c0 xs_c1 →
      no_abspath xs_c0 = true → no_abspath xs_c1 = true →
      xy_empty xy = false → env.yang_keyword_get xy.xy_node ≠ .Y_SPEC →
      xy1 = { xy with xy_node := env.ys_module xy.xy_node }) := by
  have hstrict : ∀ (a b : xp_yang_ctx), ctx_frame true a b = true → b = a := by
    intro a b hab
    rw [ctx_frame_iff] at hab
    obtain ⟨h1, h2, h3, h4⟩ := hab
    have h5 := h4 rfl
    cases a
    cases b
    simp only [xp_yang_ctx.mk.injEq]
    simp only at h1 h2 h3 h5
    exact ⟨h1, h5, h2, h3⟩
  have hw := xp_yang_eval_frame env false t (fun hs => by simp at hs) xy
  rw [h] at hw
  have hw2 : ctx_frame false xy xy1 = true := hw
  rw [ctx_frame_iff] at hw2
  refine ⟨hw2.1, hw2.2.1, hw2.2.2.1, ?_, ?_⟩
  · intro hna
    have hs := xp_yang_eval_frame env true t (fun _ => hna) xy
    rw [h] at hs
    exact hstrict _ _ hs
  · intro xs_int xs_s0 xs_s1 xs_c0 xs_c1 ht hna0 hna1 hne hkw
    rw [ht, xp_yang_eval] at h
    simp only [hne, Bool.false_eq_true, if_false, hkw, ne_eq, not_false_eq_true, if_true] at h
    have hc := eval_children_frame true (fun c => xp_yang_eval env c xs_c0)
      (fun c => xp_yang_eval env c xs_c1)
      (fun c => xp_yang_eval_frame env true xs_c0 (fun _ => hna0) c)
      (fun c => xp_yang_eval_frame env true xs_c1 (fun _ => hna1) c)
      .XP_ABSPATH xs_int xs_c0 xs_c1 { xy with xy_node := env.ys_module xy.xy_node }
    rw [h] at hc
    exact hstrict _ _ hc

/-- C28, in the example: the absolute path `/ex:ifs` evaluated on the leaf
`ref` (6) leaves the module (1) in the caller's context. -/
theorem xp_yang_eval_context_frame_witness :
    ({ xy_type := .XT_NODESET, xy_node := some 1, xy_bool := 0, xy_initial := some 6 } :
        xp_yang_ctx).xy_type = (start_ctx (some 6)).xy_type ∧
    ({ xy_type := .XT_NODESET, xy_node := some 1, xy_bool := 0, xy_initial := some 6 } :
        xp_yang_ctx).xy_bool = (start_ctx (some 6)).xy_bool ∧
    ({ xy_type := .XT_NODESET, xy_node := some 1, xy_bool := 0, xy_initial := some 6 } :
        xp_yang_ctx).xy_initial = (start_ctx (some 6)).xy_initial ∧
    (no_abspath (wrap .XP_ABSPATH (rel_path (child_step (some "ex") "ifs" no_preds) .null))
        = true →
      ({ xy_type := .XT_NODESET, xy_node := some 1, xy_bool := 0, xy_initial := some 6 } :
        xp_yang_ctx) = start_ctx (some 6)) ∧
    (∀ (xs_int : Int) (xs_s0 xs_s1 : Option String) (xs_c0 xs_c1 : xpath_tree),
      wrap .XP_ABSPATH (rel_path (child_step (some "ex") "ifs" no_preds) .null) =
        .node .XP_ABSPATH xs_int xs_s0 xs_s1 xs_c0 xs_c1 →
      no_abspath xs_c0 = true → no_abspath xs_c1 = true →
      xy_empty (start_ctx (some 6)) = false →
      example_api.yang_keyword_get (start_ctx (some 6)).xy_node ≠ .Y_SPEC →
      ({ xy_type := .XT_NODESET, xy_node := some 1, xy_bool := 0, xy_initial := some 6 } :
        xp_yang_ctx) =
        { start_ctx (some 6) with
          xy_node := example_api.ys_module (start_ctx (some 6)).xy_node }) :=
  xp_yang_eval_context_frame example_api
    (wrap .XP_ABSPATH (rel_path (child_step (some "ex") "ifs" no_preds) .null))
    (start_ctx (some 6))
    { xy_type := .XT_NODESET, xy_node := some 1, xy_bool := 0, xy_initial := some 6 } 0
    (some { xy_type := .XT_NODESET, xy_node := some 2, xy_bool := 0, xy_initial := some 6 })
    (by decide)

/-- C28 does not hold as stated: evaluating the absolute path `/ex:ifs` on
the context of the leaf `ref` (6) changes the node of that context to the
module (1). -/
theorem xp_yang_eval_abspath_counterexample :
    xp_yang_eval example_api (start_ctx (some 6)) example_abspath =
      .ret 0
        (some { xy_type := .XT_NODESET, xy_node := some 2, xy_bool := 0, xy_initial := some 6 })
        { xy_type := .XT_NODESET, xy_node := some 1, xy_bool := 0, xy_initial := some 6 } ∧
    (start_ctx (some 6)).xy_node = some 6 := by
  decide

/-- The statement in which a child step looks its name up is the context
node itself, whatever the prefix, when that node is neither the yang spec nor
a module. -/
theorem step_lookup_base_inner (env : yang_api) (ys : Option yang_stmt) (pfx : Option String)
    (hspec : env.yang_keyword_get ys ≠ .Y_SPEC) (hmod : env.yang_keyword_get ys ≠ .Y_MODULE) :
    step_lookup_base env ys pfx = ys := by
  cases pfx with
  | none => rfl
  | some p => simp [step_lookup_base, hspec, hmod]

/-- C29: on a context whose node is neither the top-level yang spec nor a
module, a child step with the node test `p:name` gives the result of the step
with the node test `name`, whatever the prefix `p` is (bound to a module or
not): for `xp_yang_eval_step`, its recursive call being that of
`xp_yang_eval` on the predicates, and for `xp_yang_eval` on the step. -/
theorem xp_yang_eval_step_prefix (env : yang_api) (xy : xp_yang_ctx)
    (xs_type : xp_type) (xs_s0 xs_s1 : Option String) (node_int : Int) (p : Option String)
    (name : Option String) (node_c0 node_c1 preds : xpath_tree)
    (hspec : env.yang_keyword_get xy.xy_node ≠ .Y_SPEC)
    (hmod : env.yang_keyword_get xy.xy_node ≠ .Y_MODULE) :
    xp_yang_eval_step env (fun c => xp_yang_eval env c preds) xy
        (.node xs_type A_CHILD xs_s0 xs_s1 (.node .XP_NODE node_int p name node_c0 node_c1)
          preds) =
      xp_yang_eval_step env (fun c => xp_yang_eval env c preds) xy
        (.node xs_type A_CHILD xs_s0 xs_s1 (.node .XP_NODE node_int none name node_c0 node_c1)
          preds) ∧
    xp_yang_eval env xy
        (.node .XP_STEP A_CHILD xs_s0 xs_s1 (.node .XP_NODE node_int p name node_c0 node_c1)
          preds) =
      xp_yang_eval env xy
        (.node .XP_STEP A_CHILD xs_s0 xs_s1 (.node .XP_NODE node_int none name node_c0 node_c1)
          preds) := by
  have hstep : ∀ ty, xp_yang_eval_step env (fun c => xp_yang_eval env c preds) xy
        (.node ty A_CHILD xs_s0 xs_s1 (.node .XP_NODE node_int p name node_c0 node_c1)
          preds) =
      xp_yang_eval_step env (fun c => xp_yang_eval env c preds) xy
        (.node ty A_CHILD xs_s0 xs_s1 (.node .XP_NODE node_int none name node_c0 node_c1)
          preds) := by
    intro ty
    simp only [xp_yang_eval_step, step_axis, xy_dup, if_true,
      step_lookup_base_inner env xy.xy_node p hspec hmod,
      step_lookup_base_inner env xy.xy_node none hspec hmod]
  refine ⟨hstep xs_type, ?_⟩
  rw [xp_yang_eval, xp_yang_eval]
  simp only [hstep .XP_STEP]

/-- C29, in the example: on the list `if` (3) the steps `ex:mtu`, `mtu` and
`nosuch:mtu` give the same result. -/
theorem xp_yang_eval_step_prefix_witness :
    xp_yang_eval_step example_api (fun c => xp_yang_eval example_api c no_preds)
        (start_ctx (some 3))
        (.node .XP_STEP A_CHILD none none
          (.node .XP_NODE A_NAN (some "nosuch") (some "mtu") .null .null) no_preds) =
      xp_yang_eval_step example_api (fun c => xp_yang_eval example_api c no_preds)
        (start_ctx (some 3))
        (.node .XP_STEP A_CHILD none none
          (.node .XP_NODE A_NAN none (some "mtu") .null .null) no_preds) ∧
    xp_yang_eval example_api (start_ctx (some 3))
        (.node .XP_STEP A_CHILD none none
          (.node .XP_NODE A_NAN (some "nosuch") (some "mtu") .null .null) no_preds) =
      xp_yang_eval example_api (start_ctx (some 3))
        (.node .XP_STEP A_CHILD none none
          (.node .XP_NODE A_NAN none (some "mtu") .null .null) no_preds) :=
  xp_yang_eval_step_prefix example_api (start_ctx (some 3)) .XP_STEP none none A_NAN
    (some "nosuch") (some "mtu") .null .null no_preds (by decide) (by decide)

/-! ## Theorems: mounting a yang-library, the yang spec that is bound -/

/-- The run of `yang_schema_yanglib_parse_mount`: either it stops before a
yang spec is asked for, having called at most `ydomain_new` and
`yang_schema_find_share`, or it is the binding of the yang spec `yspec1` that
`yspec_new_shared` returned. -/
theorem parse_mount_run (h : clixon_handle) (env : yang_api) (xt : cxobj) (nr : Nat) :
    (∀ e ∈ (yang_schema_yanglib_parse_mount h env xt nr).events,
      (∃ domain, e = .ydomain_new domain) ∨ e = .yang_schema_find_share) ∨
    ∃ (env0 : yang_api) (xyanglib : cxobj) (xpath domain : String)
      (yspec0 : Option yang_stmt) (ev : List mount_event),
      (∀ e ∈ ev, (∃ d, e = .ydomain_new d) ∨ e = .yang_schema_find_share) ∧
      yang_schema_yanglib_parse_mount h env xt nr
        = parse_mount_bind h (h.yspec_new_shared env0 xpath domain (toString nr) yspec0).2
            xt xyanglib xpath domain yspec0
            (h.yspec_new_shared env0 xpath domain (toString nr) yspec0).1
            (ev ++ [.yspec_new_shared xpath domain (toString nr) yspec0
              (h.yspec_new_shared env0 xpath domain (toString nr) yspec0).1]) := by
  -- the part of the function after the domain is known
  have tail : ∀ (env0 : yang_api) (xyanglib : cxobj) (xpath domain : String)
      (ev0 : List mount_event), (∀ e ∈ ev0, ∃ d, e = mount_event.ydomain_new d) →
      ∀ res : parse_mount_res,
      res = (let s : Int × Option (Option yang_stmt) × List mount_event :=
          if h.clicon_option_bool "CLICON_YANG_SCHEMA_MOUNT_SHARE" then
            let f := yang_schema_find_share h env0 xt xyanglib
            (f.1, f.2, ev0 ++ [.yang_schema_find_share])
          else (0, none, ev0)
        if s.1 < 0 then ⟨-1, env0, s.2.2⟩
        else
          let yspec0 : Option yang_stmt :=
            match s.2.1 with
            | some y => y
            | none => none
          let n := h.yspec_new_shared env0 xpath domain (toString nr) yspec0
          parse_mount_bind h n.2 xt xyanglib xpath domain yspec0 n.1
            (s.2.2 ++ [.yspec_new_shared xpath domain (toString nr) yspec0 n.1])) →
      (∀ e ∈ res.events, (∃ domain, e = .ydomain_new domain) ∨ e = .yang_schema_find_share) ∨
      ∃ (env0 : yang_api) (xyanglib : cxobj) (xpath domain : String)
        (yspec0 : Option yang_stmt) (ev : List mount_event),
        (∀ e ∈ ev, (∃ d, e = .ydomain_new d) ∨ e = .yang_schema_find_share) ∧
        res = parse_mount_bind h (h.yspec_new_shared env0 xpath domain (toString nr) yspec0).2
            xt xyanglib xpath domain yspec0
            (h.yspec_new_shared env0 xpath domain (toString nr) yspec0).1
            (ev ++ [.yspec_new_shared xpath domain (toString nr) yspec0
              (h.yspec_new_shared env0 xpath domain (toString nr) yspec0).1]) := by
    intro env0 xyanglib xpath domain ev0 hev0 res hres
    have hev1 : ∀ e ∈ ev0 ++ [mount_event.yang_schema_find_share],
        (∃ d, e = mount_event.ydomain_new d) ∨ e = .yang_schema_find_share := by
      intro e he
      rcases List.mem_append.1 he with h1 | h1
      · exact Or.inl (hev0 e h1)
      · exact Or.inr (List.mem_singleton.1 h1)
    by_cases hopt : h.clicon_option_bool "CLICON_YANG_SCHEMA_MOUNT_SHARE" = true
    · simp only [hopt, if_true] at hres
      by_cases hf : (yang_schema_find_share h env0 xt xyanglib).1 < 0
      · left
        rw [hres]
        simp only [hf, if_true]
        exact hev1
      · right
        rw [if_neg hf] at hres
        exact ⟨env0, xyanglib, xpath, domain, _, _, hev1, hres⟩
    · right
      simp only [hopt, Bool.false_eq_true, if_false] at hres
      refine ⟨env0, xyanglib, xpath, domain, none, ev0, fun e he => Or.inl (hev0 e he), ?_⟩
      rw [hres]
      simp
  unfold yang_schema_yanglib_parse_mount
  by_cases hp : (h.clixon_plugin_yang_mount_all xt).retval < 0
  · left
    simp [hp]
  · simp only [hp, if_false]
    cases hlib : (h.clixon_plugin_yang_mount_all xt).yanglib with
    | none => left; simp
    | some xyanglib =>
      simp only
      cases hdom : h.yanglib_module_set_name xyanglib with
      | none => left; simp
      | some domain =>
        simp only
        by_cases hm0 : (yang_mount_xmnt2ymnt_xpath h env (some xt)).retval < 0
        · left
          simp [hm0]
        · rw [if_neg hm0]
          by_cases hm1 : (yang_mount_xmnt2ymnt_xpath h env (some xt)).retval = 0
          · left
            simp [hm1]
          · rw [if_neg hm1]
            cases hx : (yang_mount_xmnt2ymnt_xpath h env (some xt)).xpath with
            | none => left; simp
            | some xpath =>
              cases hmo : h.clixon_yang_mounts_get env with
              | none => left; simp
              | some ymounts =>
                simp only
                cases hfd : h.yang_find_domain env ymounts domain with
                | some ydomain =>
                  exact tail env xyanglib xpath domain [] (by simp) _ rfl
                | none =>
                  simp only
                  cases hnew : (h.ydomain_new env domain).1 with
                  | none =>
                    left
                    simp
                  | some ydomain =>
                    exact tail (h.ydomain_new env domain).2 xyanglib xpath domain
                      [.ydomain_new domain] (by simp) _ rfl

/-- The binding of a yang spec that is NULL: `xml_yang_mount_set` is called
on NULL, and the return value is 1 unless that call fails. -/
theorem parse_mount_bind_null (h : clixon_handle) (env : yang_api) (xt xyanglib : cxobj)
    (xpath domain : String) (yspec0 : Option yang_stmt) (ev : List mount_event) :
    (parse_mount_bind h env xt xyanglib xpath domain yspec0 none ev).events =
      ev ++ [.xml_yang_mount_set none] ∧
    (parse_mount_bind h env xt xyanglib xpath domain yspec0 none ev).retval =
      (if (xml_yang_mount_set h env (some xt) none).1 < 0 then -1 else 1) := by
  unfold parse_mount_bind
  cases yspec0 <;> simp only <;> split <;> simp

/-- C30: what the code does when `yspec_new_shared` returns NULL. The test
`(yspec1 = yspec_new_shared(...)) < 0` on the pointer never holds, so the
function goes on: NULL is the yang spec handed to `xml_yang_mount_set`, and
the function returns 1 unless that call fails (for some YANG tree `env0`, the
one in which `yspec_new_shared` was called). -/
theorem parse_mount_null_yspec (h : clixon_handle) (env : yang_api) (xt : cxobj) (nr : Nat)
    (xpath domain name : String) (yspec0 : Option yang_stmt)
    (hin : mount_event.yspec_new_shared xpath domain name yspec0 none ∈
      (yang_schema_yanglib_parse_mount h env xt nr).events) :
    mount_event.xml_yang_mount_set none ∈
      (yang_schema_yanglib_parse_mount h env xt nr).events ∧
    ∃ env0, (yang_schema_yanglib_parse_mount h env xt nr).retval =
      (if (xml_yang_mount_set h (h.yspec_new_shared env0 xpath domain name yspec0).2
          (some xt) none).1 < 0 then -1 else 1) := by
  rcases parse_mount_run h env xt nr with hearly | ⟨env0, xyanglib, xp, dom, y0, ev, hev, hrun⟩
  · rcases hearly _ hin with ⟨d, hd⟩ | hd <;> simp at hd
  · rw [hrun] at hin ⊢
    have hcase : xpath = xp ∧ domain = dom ∧ name = toString nr ∧ yspec0 = y0 ∧
        none = (h.yspec_new_shared env0 xp dom (toString nr) y0).1 := by
      rcases parse_mount_bind_events h _ xt xyanglib xp dom y0 _ _ _ hin with
        h1 | ⟨y, h2⟩ | ⟨y, h3⟩ | h4 | ⟨y, h5⟩
      · rcases List.mem_append.1 h1 with h1 | h1
        · rcases hev _ h1 with ⟨d, hd⟩ | hd <;> simp at hd
        · simpa using h1
      · simp at h2
      · simp at h3
      · simp at h4
      · simp at h5
    obtain ⟨hx, hd, hn, hy, hnone⟩ := hcase
    subst hx hd hn hy
    rw [← hnone]
    have hb := parse_mount_bind_null h (h.yspec_new_shared env0 xpath domain (toString nr)
      yspec0).2 xt xyanglib xpath domain yspec0
      (ev ++ [.yspec_new_shared xpath domain (toString nr) yspec0 none])
    refine ⟨?_, env0, hb.2⟩
    rw [hb.1]
    simp

/-- C30, in the example in which `yspec_new_shared` returns NULL:
`yang_schema_yanglib_parse_mount` returns 1, having handed NULL to
`xml_yang_mount_set`. -/
theorem parse_mount_null_yspec_witness :
    (yang_schema_yanglib_parse_mount example_handle_no_yspec example_mounts_flagged
        (example_xmnt 102) 0).retval = 1 ∧
    (yang_schema_yanglib_parse_mount example_handle_no_yspec example_mounts_flagged
        (example_xmnt 102) 0).events =
      [.yspec_new_shared "/ex:ifs" "dom" "0" none none, .xml_yang_mount_set none] ∧
    (mount_event.xml_yang_mount_set none ∈
      (yang_schema_yanglib_parse_mount example_handle_no_yspec example_mounts_flagged
        (example_xmnt 102) 0).events ∧
    ∃ env0, (yang_schema_yanglib_parse_mount example_handle_no_yspec example_mounts_flagged
        (example_xmnt 102) 0).retval =
      (if (xml_yang_mount_set example_handle_no_yspec
          (example_handle_no_yspec.yspec_new_shared env0 "/ex:ifs" "dom" "0" none).2
          (some (example_xmnt 102)) none).1 < 0 then -1 else 1)) :=
  ⟨by decide, by decide,
    parse_mount_null_yspec example_handle_no_yspec example_mounts_flagged (example_xmnt 102) 0
      "/ex:ifs" "dom" "0" none (by decide)⟩

/-! ## Theorems: the XML mount-points of a tree -/

mutual
/-- Every descendant that `xml_descendants_children` lists has the ancestors
`anc` among its ancestors. -/
theorem xml_descendants_children_anc (anc : List cxobj) :
    ∀ (l : List cxobj) (p : List cxobj × cxobj), p ∈ xml_descendants_children anc l →
      ∀ a ∈ anc, a ∈ p.1
  | [], p, hp => by simp [xml_descendants_children] at hp
  | x :: rest, p, hp => by
    intro a ha
    simp only [xml_descendants_children, List.mem_cons, List.mem_append] at hp
    rcases hp with hp | hp | hp
    · rw [hp]
      exact ha
    · exact xml_descendants_anc (anc ++ [x]) x p hp a (List.mem_append_left _ ha)
    · exact xml_descendants_children_anc anc rest p hp a ha
/-- Every descendant that `xml_descendants` lists has the ancestors `anc`
among its ancestors. -/
theorem xml_descendants_anc (anc : List cxobj) :
    ∀ (x : cxobj) (p : List cxobj × cxobj), p ∈ xml_descendants anc x →
      ∀ a ∈ anc, a ∈ p.1
  | .mk _ _ children, p, hp => by
    rw [xml_descendants] at hp
    exact xml_descendants_children_anc anc children p hp
end

/-- Below an element that is unbound or config false, no descendant
satisfies `is_visible_mount`. -/
theorem no_visible_mount_below (h : clixon_handle) (env : yang_api) (anc : List cxobj)
    (x : cxobj) (hx : xml_bound_config h x = false) :
    (xml_descendants (anc ++ [x]) x).filter (is_visible_mount h env) = [] := by
  rw [List.filter_eq_nil_iff]
  intro p hp
  have hin : x ∈ p.1 := xml_descendants_anc (anc ++ [x]) x p hp x (by simp)
  simp only [is_visible_mount, List.all_append, Bool.and_eq_true, List.all_eq_true, not_and,
    Bool.not_eq_true]
  intro hall
  have := hall.1 x hin
  rw [hx] at this
  simp at this

mutual
/-- The loop of `xml_apply` with `find_xml_schema_mounts` over a list of
elements whose ancestors `anc` are all bound and config true: it adds the
descendants that satisfy `is_visible_mount`, in document order. -/
theorem xml_apply_children_mounts (h : clixon_handle) (env : yang_api) :
    ∀ (l : List cxobj) (anc : List cxobj) (cvv : List cxobj),
      anc.all (xml_bound_config h) = true →
      xml_apply_children (find_xml_schema_mounts h env) l cvv =
        (0, cvv ++ ((xml_descendants_children anc l).filter
          (is_visible_mount h env)).map Prod.snd)
  | [], anc, cvv, _ => by simp [xml_apply_children, xml_descendants_children]
  | x :: rest, anc, cvv, hanc => by
    have hrest := fun c => xml_apply_children_mounts h env rest anc c hanc
    rw [xml_apply_children, xml_descendants_children]
    cases hs : xml_spec x with
    | none =>
      have hx : xml_bound_config h x = false := by simp [xml_bound_config, hs]
      have h1 : is_visible_mount h env (anc, x) = false := by
        simp [is_visible_mount, hx]
      simp only [find_xml_schema_mounts, hs]
      simp only [List.filter_cons, h1, List.filter_append,
        no_visible_mount_below h env anc x hx, List.nil_append, Bool.false_eq_true, if_false]
      simpa using hrest cvv
    | some y =>
      by_cases hc : h.yang_config y = 0
      · have hx : xml_bound_config h x = false := by simp [xml_bound_config, hs, hc]
        have h1 : is_visible_mount h env (anc, x) = false := by
          simp [is_visible_mount, hx]
        simp only [find_xml_schema_mounts, hs, hc, if_true]
        simp only [List.filter_cons, h1, List.filter_append,
          no_visible_mount_below h env anc x hx, List.nil_append, Bool.false_eq_true, if_false]
        simpa using hrest cvv
      · have hx : xml_bound_config h x = true := by simp [xml_bound_config, hs, hc]
        have hanc2 : (anc ++ [x]).all (xml_bound_config h) = true := by
          simp only [List.all_append, Bool.and_eq_true]
          exact ⟨hanc, by simp [hx]⟩
        have hsub := fun c => xml_apply_mounts h env x (anc ++ [x]) c hanc2
        by_cases hf : env.yang_flag_get y .YANG_FLAG_MTPOINT_POTENTIAL = true
        · have h1 : is_visible_mount h env (anc, x) = true := by
            simp only [is_visible_mount, Bool.and_eq_true]
            exact ⟨hanc2, by simp [xml_mount_flagged, hs, hf]⟩
          simp only [find_xml_schema_mounts, hs, hc, if_false, yang_schema_mount_point, hf,
            if_true]
          simp only [hsub, hrest, List.filter_cons, h1, if_true, List.filter_append,
            List.map_cons, List.map_append]
          simp
        · have h1 : is_visible_mount h env (anc, x) = false := by
            simp [is_visible_mount, xml_mount_flagged, hs, hf]
          simp only [find_xml_schema_mounts, hs, hc, if_false, yang_schema_mount_point, hf]
          simp only [hsub, hrest, List.filter_cons, h1, List.filter_append,
            List.map_append, Bool.false_eq_true, if_false]
          simp
/-- The traversal `xml_apply` with `find_xml_schema_mounts` below a node: it
adds the descendants of the node that satisfy `is_visible_mount`, in document
order. -/
theorem xml_apply_mounts (h : clixon_handle) (env : yang_api) :
    ∀ (x : cxobj) (anc : List cxobj) (cvv : List cxobj),
      anc.all (xml_bound_config h) = true →
      xml_apply (find_xml_schema_mounts h env) x cvv =
        (0, cvv ++ ((xml_descendants anc x).filter (is_visible_mount h env)).map Prod.snd)
  | .mk _ _ children, anc, cvv, hanc => by
    rw [xml_apply, xml_descendants]
    exact xml_apply_children_mounts h env children anc cvv hanc
end

/-- C25: `yang_mount_xtop2xmnt` returns 0 and stores the element descendants
of `xtop`, in document order, for which the node and every ancestor below
`xtop` has a bound schema node with config not false and the schema node of
the node is flagged as a mount-point (`visible_mounts`); so a mount-point
inside a mount-point is in the vector, and nothing below an unbound or
config-false element is. -/
theorem yang_mount_xtop2xmnt_visible (h : clixon_handle) (env : yang_api) (xtop : cxobj) :
    yang_mount_xtop2xmnt h env xtop = (0, some (visible_mounts h env xtop)) ∧
    (∀ x : cxobj, x ∈ visible_mounts h env xtop ↔
      ∃ anc, (anc, x) ∈ xml_descendants [] xtop ∧
        (∀ a ∈ anc, xml_bound_config h a = true) ∧ xml_bound_config h x = true ∧
        xml_mount_flagged env x = true) := by
  constructor
  · have := xml_apply_mounts h env xtop [] [] (by simp)
    simp [yang_mount_xtop2xmnt, this, visible_mounts]
  · intro x
    simp only [visible_mounts, List.mem_map, List.mem_filter, is_visible_mount,
      List.all_append, Bool.and_eq_true, List.all_eq_true, List.all_cons, List.all_nil,
      Bool.and_true, Prod.exists, exists_and_right, exists_eq_right]
    constructor
    · rintro ⟨a1, hin, ⟨ha, hx⟩, hf⟩
      exact ⟨a1, hin, ha, hx, hf⟩
    · rintro ⟨a1, hin, ha, hx, hf⟩
      exact ⟨a1, hin, ⟨ha, hx⟩, hf⟩

/-- C25, in the example: of the mount-points of `example_xml_nested`, the
outer one (301), the one inside it (302) and the one below a container that
is no mount-point (308) are found, in this order; the ones below the unbound
element (304) and below the config-false element (306) are not. -/
theorem yang_mount_xtop2xmnt_visible_witness :
    (yang_mount_xtop2xmnt example_handle_config example_mounts_flagged example_xml_nested =
        (0, some (visible_mounts example_handle_config example_mounts_flagged
          example_xml_nested)) ∧
      (∀ x : cxobj,
        x ∈ visible_mounts example_handle_config example_mounts_flagged example_xml_nested ↔
        ∃ anc, (anc, x) ∈ xml_descendants [] example_xml_nested ∧
          (∀ a ∈ anc, xml_bound_config example_handle_config a = true) ∧
          xml_bound_config example_handle_config x = true ∧
          xml_mount_flagged example_mounts_flagged x = true)) ∧
    (visible_mounts example_handle_config example_mounts_flagged example_xml_nested).map xml_id
      = [301, 302, 308] :=
  ⟨yang_mount_xtop2xmnt_visible example_handle_config example_mounts_flagged
      example_xml_nested, by decide⟩

/-! ## Theorems: RESTCONF POST on an operation resource -/

/-- The calls of `return_fail` are appended to the calls made so far, and its
return value is not 1. -/
theorem return_fail_spec (ret : Int) (xe : err_arg) (pretty code0 : Int)
    (ev : List restconf_event) :
    (return_fail ret xe pretty code0 ev).2 = ev ++ [.api_return_err xe pretty code0] ∧
    (return_fail ret xe pretty code0 ev).1 ≠ 1 ∧
    (0 ≤ ret → (return_fail ret xe pretty code0 ev).1 = 0) := by
  unfold return_fail
  split
  · exact ⟨rfl, by simp, fun h => by omega⟩
  · exact ⟨rfl, by simp, fun _ => rfl⟩

/-- When no call of `xml_addsub` fails, the loop moves every child, in
order, and returns 1. -/
theorem input_move_ok (io : operations_io) (xrpc : Nat) :
    ∀ (l : List cxobj) (ev : List restconf_event),
      (∀ x ∈ l, 0 ≤ io.xml_addsub xrpc (xml_id x)) →
      input_move io xrpc l ev =
        (1, ev ++ l.map (fun x => restconf_event.xml_addsub xrpc (xml_id x))) := by
  intro l
  induction l with
  | nil => intro ev _; simp [input_move]
  | cons x rest ih =>
    intro ev hall
    have h1 : ¬ io.xml_addsub xrpc (xml_id x) < 0 := by
      have := hall x (List.mem_cons_self _ _)
      omega
    rw [input_move, if_neg h1, ih _ (fun y hy => hall y (List.mem_cons_of_mem _ hy))]
    simp

/-- The check of the parsed body in `api_operations_post_input`, by whether
the body is accepted. -/
theorem post_input_check_spec (io : operations_io) (xdata : cxobj) (xrpc : Nat)
    (pretty : Int) (ev : List restconf_event) :
    (∀ xinput, xml_children xdata = [xinput] → io.xml_name xinput = "input" →
      post_input_check io xdata xrpc pretty ev =
        input_move io xrpc (xml_children xinput)
          (ev ++ [.xml_name_set (xml_id xdata) "data"])) ∧
    (input_accepted io xdata = false →
      post_input_check io xdata xrpc pretty ev =
        return_fail
          (io.api_return_err (.rpc_error (netconf_malformed_message_xml
            (if xml_child_nr_type xdata = 0 then "restconf RPC does not have input statement"
             else "restconf RPC has malformed input statement (multiple or not called input)")))
            0)
          (.rpc_error (netconf_malformed_message_xml
            (if xml_child_nr_type xdata = 0 then "restconf RPC does not have input statement"
             else "restconf RPC has malformed input statement (multiple or not called input)")))
          pretty 0 (ev ++ [.xml_name_set (xml_id xdata) "data"])) := by
  cases xdata with
  | mk id spec children =>
    constructor
    · intro xinput hch hname
      simp only [xml_children] at hch
      subst hch
      simp [post_input_check, xml_child_i_type, xml_child_i, xml_child_nr_type, xml_child_nr,
        hname]
    · intro hacc
      cases children with
      | nil => simp [post_input_check, xml_child_i_type, xml_child_i]
      | cons x rest =>
        cases rest with
        | nil =>
          have hname : io.xml_name x ≠ "input" := by
            simpa [input_accepted, xml_children] using hacc
          simp [post_input_check, xml_child_i_type, xml_child_i, hname]
        | cons x2 rest2 =>
          simp [post_input_check, xml_child_i_type, xml_child_i, xml_child_nr_type,
            xml_child_nr]

/-- After the body is parsed, `api_operations_post_input` is the check of
the parsed body. -/
theorem api_operations_post_input_parsed (io : operations_io) (data : String) (xrpc : Nat)
    (pretty parse_xml : Int) (hbody : input_parsed io data parse_xml = true) :
    api_operations_post_input io data xrpc pretty parse_xml =
      post_input_check io (input_body io data parse_xml) xrpc pretty [] := by
  unfold input_parsed at hbody
  unfold api_operations_post_input input_body
  by_cases hx : parse_xml ≠ 0
  · rw [if_pos hx] at hbody
    rw [if_pos hx, if_pos hx]
    have h1 : ¬ (io.xml_parse_string data).1 < 0 := by
      have := of_decide_eq_true hbody
      omega
    simp only [h1, if_false]
  · rw [if_neg hx] at hbody
    rw [if_neg hx, if_neg hx]
    have h0 := of_decide_eq_true hbody
    have h1 : ¬ (io.json_parse_str data).1 < 0 := by omega
    have h2 : ¬ (io.json_parse_str data).1 = 0 := by omega
    simp only [h1, h2, if_false]

/-- C22: `api_operations_post_input` on a body that is parsed. If the body
has exactly one element child and it is named `input`, and no call of
`xml_addsub` fails, the function returns 1 and has moved every element child
of `input` under the rpc element, in the original order. If the body is not
of that form, the function answers with `api_return_err` on the `rpc-error`
of a malformed-message document and returns 0 (when `api_return_err` does not
fail); the message is "restconf RPC does not have input statement" exactly
when the body has no element child. The function returns 1 only if the body
is accepted. -/
theorem api_operations_post_input_spec (io : operations_io) (data : String) (xrpc : Nat)
    (pretty parse_xml : Int) (hbody : input_parsed io data parse_xml = true) :
    (∀ xinput, xml_children (input_body io data parse_xml) = [xinput] →
      io.xml_name xinput = "input" →
      (∀ x ∈ xml_children xinput, 0 ≤ io.xml_addsub xrpc (xml_id x)) →
      api_operations_post_input io data xrpc pretty parse_xml =
        (1, .xml_name_set (xml_id (input_body io data parse_xml)) "data" ::
          (xml_children xinput).map (fun x => restconf_event.xml_addsub xrpc (xml_id x)))) ∧
    (input_accepted io (input_body io data parse_xml) = false →
      ∃ message,
        (api_operations_post_input io data xrpc pretty parse_xml).2 =
          [.xml_name_set (xml_id (input_body io data parse_xml)) "data",
           .api_return_err (.rpc_error (netconf_malformed_message_xml message)) pretty 0] ∧
        (0 ≤ io.api_return_err (.rpc_error (netconf_malformed_message_xml message)) 0 →
          (api_operations_post_input io data xrpc pretty parse_xml).1 = 0) ∧
        (message = "restconf RPC does not have input statement" ↔
          xml_children (input_body io data parse_xml) = [])) ∧
    ((api_operations_post_input io data xrpc pretty parse_xml).1 = 1 →
      input_accepted io (input_body io data parse_xml) = true) := by
  have hp := api_operations_post_input_parsed io data xrpc pretty parse_xml hbody
  have hc := post_input_check_spec io (input_body io data parse_xml) xrpc pretty []
  have hrej : input_accepted io (input_body io data parse_xml) = false →
      ∃ message,
        (api_operations_post_input io data xrpc pretty parse_xml).2 =
          [.xml_name_set (xml_id (input_body io data parse_xml)) "data",
           .api_return_err (.rpc_error (netconf_malformed_message_xml message)) pretty 0] ∧
        (0 ≤ io.api_return_err (.rpc_error (netconf_malformed_message_xml message)) 0 →
          (api_operations_post_input io data xrpc pretty parse_xml).1 = 0) ∧
        (api_operations_post_input io data xrpc pretty parse_xml).1 ≠ 1 ∧
        (message = "restconf RPC does not have input statement" ↔
          xml_children (input_body io data parse_xml) = []) := by
    intro hacc
    refine ⟨(if xml_child_nr_type (input_body io data parse_xml) = 0 then
        "restconf RPC does not have input statement"
        else "restconf RPC has malformed input statement (multiple or not called input)"),
      ?_, ?_, ?_, ?_⟩
    · rw [hp, hc.2 hacc, (return_fail_spec _ _ _ _ _).1]
      rfl
    · intro hret
      rw [hp, hc.2 hacc]
      exact (return_fail_spec _ _ _ _ _).2.2 hret
    · rw [hp, hc.2 hacc]
      exact (return_fail_spec _ _ _ _ _).2.1
    · cases hb : input_body io data parse_xml with
      | mk id spec children =>
        cases children with
        | nil => simp [xml_child_nr_type, xml_child_nr, xml_children]
        | cons x rest =>
          simp only [xml_child_nr_type, xml_child_nr, xml_children, List.length_cons,
            Nat.add_one_ne_zero, if_false]
          constructor
          · intro h
            exact absurd h (by decide)
          · intro h
            simp at h
  refine ⟨?_, ?_, ?_⟩
  · intro xinput hch hname hall
    rw [hp, hc.1 xinput hch hname, input_move_ok io xrpc _ _ hall]
    rfl
  · intro hacc
    obtain ⟨m, h1, h2, _, h4⟩ := hrej hacc
    exact ⟨m, h1, h2, h4⟩
  · intro hone
    by_contra hacc
    have hacc' : input_accepted io (input_body io data parse_xml) = false := by
      simpa using hacc
    obtain ⟨m, _, _, h3, _⟩ := hrej hacc'
    exact h3 hone

/-- C22, in the example: the body `<input><a/><b/></input>`, whose two
parameters are moved under the rpc element 602 in their order. -/
theorem api_operations_post_input_spec_witness :
    (api_operations_post_input
        (example_operations_io (.mk 610 none [.mk 611 none [.mk 612 none [], .mk 613 none []]])
          (.mk 620 none []) [(611, "input")] none)
        "<input><a/><b/></input>" 602 0 1 =
      (1, [.xml_name_set 610 "data", .xml_addsub 602 612, .xml_addsub 602 613])) ∧
    ((∀ xinput, xml_children (input_body
        (example_operations_io (.mk 610 none [.mk 611 none [.mk 612 none [], .mk 613 none []]])
          (.mk 620 none []) [(611, "input")] none)
        "<input><a/><b/></input>" 1) = [xinput] →
      (example_operations_io (.mk 610 none [.mk 611 none [.mk 612 none [], .mk 613 none []]])
          (.mk 620 none []) [(611, "input")] none).xml_name xinput = "input" →
      (∀ x ∈ xml_children xinput, 0 ≤ (0 : Int)) →
      api_operations_post_input
        (example_operations_io (.mk 610 none [.mk 611 none [.mk 612 none [], .mk 613 none []]])
          (.mk 620 none []) [(611, "input")] none)
        "<input><a/><b/></input>" 602 0 1 =
        (1, .xml_name_set 610 "data" ::
          (xml_children xinput).map (fun x => restconf_event.xml_addsub 602 (xml_id x)))) ∧
    (input_accepted
        (example_operations_io (.mk 610 none [.mk 611 none [.mk 612 none [], .mk 613 none []]])
          (.mk 620 none []) [(611, "input")] none)
        (.mk 610 none [.mk 611 none [.mk 612 none [], .mk 613 none []]]) = false →
      ∃ message,
        (api_operations_post_input
          (example_operations_io
            (.mk 610 none [.mk 611 none [.mk 612 none [], .mk 613 none []]])
            (.mk 620 none []) [(611, "input")] none)
          "<input><a/><b/></input>" 602 0 1).2 =
          [.xml_name_set 610 "data",
           .api_return_err (.rpc_error (netconf_malformed_message_xml message)) 0 0] ∧
        (0 ≤ (0 : Int) →
          (api_operations_post_input
            (example_operations_io
              (.mk 610 none [.mk 611 none [.mk 612 none [], .mk 613 none []]])
              (.mk 620 none []) [(611, "input")] none)
            "<input><a/><b/></input>" 602 0 1).1 = 0) ∧
        (message = "restconf RPC does not have input statement" ↔
          xml_children (cxobj.mk 610 none [.mk 611 none [.mk 612 none [], .mk 613 none []]])
            = [])) ∧
    ((api_operations_post_input
        (example_operations_io (.mk 610 none [.mk 611 none [.mk 612 none [], .mk 613 none []]])
          (.mk 620 none []) [(611, "input")] none)
        "<input><a/><b/></input>" 602 0 1).1 = 1 →
      input_accepted
        (example_operations_io (.mk 610 none [.mk 611 none [.mk 612 none [], .mk 613 none []]])
          (.mk 620 none []) [(611, "input")] none)
        (.mk 610 none [.mk 611 none [.mk 612 none [], .mk 613 none []]]) = true)) :=
  ⟨by decide,
    api_operations_post_input_spec
      (example_operations_io (.mk 610 none [.mk 611 none [.mk 612 none [], .mk 613 none []]])
        (.mk 620 none []) [(611, "input")] none)
      "<input><a/><b/></input>" 602 0 1 (by decide)⟩

/-- The reply stage that `operations_send` comes to carries the rpc statement
and the namespace it was given. -/
theorem operations_send_reply (io : operations_io) (yrpc : yang_stmt) (nsp : Option String)
    (xtop xbot : Nat) (pretty : Int) (ev : List restconf_event)
    (y : yang_stmt) (n : Option String) (x : cxobj) (e : List restconf_event)
    (h : operations_send io yrpc nsp xtop xbot pretty ev = .reply y n x e) :
    y = yrpc ∧ n = nsp := by
  unfold operations_send at h
  dsimp only at h
  split at h
  · simp at h
  · split at h
    · split at h
      · simp at h
      · split at h
        · simp [operations_err] at h
        · simp only [operations_stage.reply.injEq] at h
          exact ⟨h.1.symm, h.2.1.symm⟩
    · split at h
      · simp at h
      · split at h
        · simp [operations_err] at h
        · simp only [operations_stage.reply.injEq] at h
          exact ⟨h.1.symm, h.2.1.symm⟩

/-- The reply stage that `operations_validate` comes to carries the rpc
statement and the namespace it was given. -/
theorem operations_validate_reply (io : operations_io) (yrpc : yang_stmt)
    (nsp : Option String) (xtop xbot : Nat) (pretty : Int) (ev : List restconf_event)
    (y : yang_stmt) (n : Option String) (x : cxobj) (e : List restconf_event)
    (h : operations_validate io yrpc nsp xtop xbot pretty ev = .reply y n x e) :
    y = yrpc ∧ n = nsp := by
  unfold operations_validate at h
  dsimp only at h
  split at h
  · simp at h
  · split at h
    · simp at h
    · split at h
      · split at h
        · simp at h
        · simp [operations_err] at h
      · exact operations_send_reply io yrpc nsp xtop xbot pretty _ y n x e h

/-- The namespace that the reply stage carries is the value of the `xmlns`
attribute of the rpc element `xbot` that `api_path2xml` made for the
operation path. -/
theorem operations_request_reply (io : operations_io) (oppath : Option String)
    (data : Option String) (pretty parse_xml : Int)
    (y : yang_stmt) (n : Option String) (x : cxobj) (e : List restconf_event)
    (h : operations_request io oppath data pretty parse_xml = .reply y n x e) :
    ∃ path, oppath = some path ∧
      n = io.xml_find_type_value_xmlns (io.api_path2xml path (io.xml_new "rpc" none)).2.1 := by
  unfold operations_request at h
  split at h
  · simp at h
  · split at h
    · simp [operations_err] at h
    · next path =>
      refine ⟨path, rfl, ?_⟩
      split at h
      · simp [operations_err] at h
      · dsimp only at h
        split at h
        · simp at h
        · split at h
          · simp [operations_err] at h
          · split at h
            · simp [operations_err] at h
            · split at h
              · simp at h
              · split at h
                · simp at h
                · split at h
                  · simp [operations_err] at h
                  · split at h
                    · split at h
                      · split at h
                        · simp at h
                        · split at h
                          · simp at h
                          · exact (operations_validate_reply io _ _ _ _ pretty _ y n x e h).2
                      · exact (operations_validate_reply io _ _ _ _ pretty _ y n x e h).2
                    · exact (operations_validate_reply io _ _ _ _ pretty _ y n x e h).2

/-- `api_operations_post_output` on a reply whose only element child is
`xoutput`, named `rpc-reply`: what it does depends on `output_isempty` of
`xoutput`, not on `youtput`. -/
theorem api_operations_post_output_spec (io : operations_io) (xret xoutput : cxobj)
    (youtput : Option yang_stmt) (nsp : Option String) (pretty : Int)
    (ev : List restconf_event)
    (hch : xml_children xret = [xoutput]) (hname : io.xml_name xoutput = "rpc-reply") :
    (output_isempty io xoutput = true →
      api_operations_post_output io xret youtput nsp pretty ev =
        ⟨0, ev ++ [.xml_name_set (xml_id xoutput) "output"] ++
          (match youtput with
            | some y => [restconf_event.xml_spec_set (xml_id xoutput) y]
            | none => []) ++
          [.FCGX_SetExitStatus 204, .FCGX_FPrintF "Status: 204 No Content\r\n",
           .FCGX_FPrintF "\r\n"], none⟩) ∧
    (output_isempty io xoutput = false →
      0 ≤ (output_clear io (xml_children xoutput)
        (ev ++ [.xml_name_set (xml_id xoutput) "output"] ++
          (match youtput with
            | some y => [restconf_event.xml_spec_set (xml_id xoutput) y]
            | none => []))).1 →
      0 ≤ io.xmlns_set (xml_id xoutput) nsp →
      api_operations_post_output io xret youtput nsp pretty ev =
        ⟨1, (output_clear io (xml_children xoutput)
          (ev ++ [.xml_name_set (xml_id xoutput) "output"] ++
            (match youtput with
              | some y => [restconf_event.xml_spec_set (xml_id xoutput) y]
              | none => []))).2 ++ [.xmlns_set (xml_id xoutput) nsp], some xoutput⟩) := by
  cases xret with
  | mk id spec children =>
    simp only [xml_children] at hch
    subst hch
    have hev2 : (match youtput with
        | some y => ev ++ [restconf_event.xml_name_set (xml_id xoutput) "output"] ++
            [.xml_spec_set (xml_id xoutput) y]
        | none => ev ++ [.xml_name_set (xml_id xoutput) "output"]) =
        ev ++ [.xml_name_set (xml_id xoutput) "output"] ++
          (match youtput with
            | some y => [restconf_event.xml_spec_set (xml_id xoutput) y]
            | none => []) := by
      cases youtput <;> simp
    constructor
    · intro hemp
      simp only [api_operations_post_output, xml_child_i_type, xml_child_i, List.get?_cons_zero,
        hname, ne_eq, not_true_eq_false, xml_child_nr_type, xml_child_nr, List.length_singleton,
        or_self, if_false, hemp, if_true, hev2]
    · intro hemp hclear hns
      have h1 : ¬ (output_clear io (xml_children xoutput)
        (ev ++ [.xml_name_set (xml_id xoutput) "output"] ++
          (match youtput with
            | some y => [restconf_event.xml_spec_set (xml_id xoutput) y]
            | none => []))).1 < 0 := by omega
      have h2 : ¬ io.xmlns_set (xml_id xoutput) nsp < 0 := by omega
      simp only [api_operations_post_output, xml_child_i_type, xml_child_i, List.get?_cons_zero,
        hname, ne_eq, not_true_eq_false, xml_child_nr_type, xml_child_nr, List.length_singleton,
        or_self, if_false, hemp, Bool.false_eq_true, hev2, h1, h2]

/-- C21, as the code has it: a POST on an operation that is answered, by the
local handler or the backend, with a reply without an `rpc-error` whose only
element child is `xoutput`, named `rpc-reply`; `nsp` is the namespace of the
rpc element. If `xoutput` has no element child, or a single one named `ok`,
the response is "204 No Content" and nothing else is printed; otherwise (and
when the calls that change and print the tree do not fail) `xoutput` is
renamed to `output`, the `xmlns` attributes of its children are removed, the
namespace `nsp` is set on it, and its text is the body of a response with the
status 200. Whether the rpc statement has an output section
(`yang_find_output`) only decides whether `xml_spec_set` is called. -/
theorem api_operations_post_reply (io : operations_io) (oppath : Option String)
    (data : Option String) (pretty use_xml parse_xml : Int)
    (yrpc : yang_stmt) (nsp : Option String) (xret xoutput : cxobj)
    (ev : List restconf_event)
    (hreq : operations_request io oppath data pretty parse_xml = .reply yrpc nsp xret ev)
    (hch : xml_children xret = [xoutput]) (hname : io.xml_name xoutput = "rpc-reply") :
    (∃ path, oppath = some path ∧
      nsp = io.xml_find_type_value_xmlns (io.api_path2xml path (io.xml_new "rpc" none)).2.1) ∧
    (output_isempty io xoutput = true →
      api_operations_post io oppath data pretty use_xml parse_xml =
        (0, ev ++ [.xml_name_set (xml_id xoutput) "output"] ++
          (match io.yang_find_output yrpc with
            | some y => [restconf_event.xml_spec_set (xml_id xoutput) y]
            | none => []) ++
          [.FCGX_SetExitStatus 204, .FCGX_FPrintF "Status: 204 No Content\r\n",
           .FCGX_FPrintF "\r\n"])) ∧
    (output_isempty io xoutput = false →
      0 ≤ (output_clear io (xml_children xoutput)
        (ev ++ [.xml_name_set (xml_id xoutput) "output"] ++
          (match io.yang_find_output yrpc with
            | some y => [restconf_event.xml_spec_set (xml_id xoutput) y]
            | none => []))).1 →
      0 ≤ io.xmlns_set (xml_id xoutput) nsp →
      0 ≤ (if use_xml ≠ 0 then io.clicon_xml2cbuf xoutput pretty
        else io.xml2json_cbuf xoutput pretty).1 →
      api_operations_post io oppath data pretty use_xml parse_xml =
        (0, (output_clear io (xml_children xoutput)
          (ev ++ [.xml_name_set (xml_id xoutput) "output"] ++
            (match io.yang_find_output yrpc with
              | some y => [restconf_event.xml_spec_set (xml_id xoutput) y]
              | none => []))).2 ++
          [.xmlns_set (xml_id xoutput) nsp,
           .FCGX_SetExitStatus 200,
           .FCGX_FPrintF ("Content-Type: application/yang-data+" ++
             (if use_xml ≠ 0 then "xml" else "json") ++ "\r\n"),
           .FCGX_FPrintF "\r\n",
           .FCGX_FPrintF (if use_xml ≠ 0 then io.clicon_xml2cbuf xoutput pretty
             else io.xml2json_cbuf xoutput pretty).2,
           .FCGX_FPrintF "\r\n\r\n"])) := by
  have ho := api_operations_post_output_spec io xret xoutput (io.yang_find_output yrpc) nsp
    pretty ev hch hname
  refine ⟨operations_request_reply io oppath data pretty parse_xml yrpc nsp xret ev hreq,
    ?_, ?_⟩
  · intro hemp
    simp only [api_operations_post, hreq, operations_reply, ho.1 hemp]
    simp
  · intro hemp hclear hns hser
    have h3 : ¬ (if use_xml ≠ 0 then io.clicon_xml2cbuf xoutput pretty
        else io.xml2json_cbuf xoutput pretty).1 < 0 := by omega
    simp only [api_operations_post, hreq, operations_reply, ho.2 hemp hclear hns]
    simp only [h3, if_false]
    simp

/-- C21, in the example of an rpc without an output section whose reply
holds a parameter `x`: the response is 200 with the reply as `output`. -/
theorem api_operations_post_reply_witness :
    (∃ path, some "/ex:reset" = some path ∧
      some "urn:example" =
        (example_operations_io (.mk 610 none []) (.mk 620 none [.mk 621 none [.mk 622 none []]])
          [(621, "rpc-reply")] none).xml_find_type_value_xmlns
          ((example_operations_io (.mk 610 none [])
            (.mk 620 none [.mk 621 none [.mk 622 none []]])
            [(621, "rpc-reply")] none).api_path2xml path
            ((example_operations_io (.mk 610 none [])
              (.mk 620 none [.mk 621 none [.mk 622 none []]])
              [(621, "rpc-reply")] none).xml_new "rpc" none)).2.1) ∧
    (output_isempty
        (example_operations_io (.mk 610 none []) (.mk 620 none [.mk 621 none [.mk 622 none []]])
          [(621, "rpc-reply")] none) (.mk 621 none [.mk 622 none []]) = true →
      api_operations_post
        (example_operations_io (.mk 610 none []) (.mk 620 none [.mk 621 none [.mk 622 none []]])
          [(621, "rpc-reply")] none) (some "/ex:reset") none 0 1 1 =
        (0, [.xml_new "rpc" none, .xml_new "username" (some 600), .xml_type_set 601 .CX_ATTR,
          .xml_value_set 601 "anna", .xml_spec_populate_rpc 600, .xml_yang_validate_rpc 600,
          .rpc_callback_call 602, .clicon_rpc_netconf_xml 600] ++
          [.xml_name_set 621 "output"] ++ [] ++
          [.FCGX_SetExitStatus 204, .FCGX_FPrintF "Status: 204 No Content\r\n",
           .FCGX_FPrintF "\r\n"])) ∧
    (output_isempty
        (example_operations_io (.mk 610 none []) (.mk 620 none [.mk 621 none [.mk 622 none []]])
          [(621, "rpc-reply")] none) (.mk 621 none [.mk 622 none []]) = false →
      0 ≤ (0 : Int) → 0 ≤ (0 : Int) → 0 ≤ (0 : Int) →
      api_operations_post
        (example_operations_io (.mk 610 none []) (.mk 620 none [.mk 621 none [.mk 622 none []]])
          [(621, "rpc-reply")] none) (some "/ex:reset") none 0 1 1 =
        (0, [.xml_new "rpc" none, .xml_new "username" (some 600), .xml_type_set 601 .CX_ATTR,
          .xml_value_set 601 "anna", .xml_spec_populate_rpc 600, .xml_yang_validate_rpc 600,
          .rpc_callback_call 602, .clicon_rpc_netconf_xml 600,
          .xml_name_set 621 "output"] ++
          [.xmlns_set 621 (some "urn:example"),
           .FCGX_SetExitStatus 200,
           .FCGX_FPrintF "Content-Type: application/yang-data+xml\r\n",
           .FCGX_FPrintF "\r\n",
           .FCGX_FPrintF "<output xmlns=\"urn:example\"><x>0</x></output>",
           .FCGX_FPrintF "\r\n\r\n"])) :=
  api_operations_post_reply
    (example_operations_io (.mk 610 none []) (.mk 620 none [.mk 621 none [.mk 622 none []]])
      [(621, "rpc-reply")] none) (some "/ex:reset") none 0 1 1
    20 (some "urn:example") (.mk 620 none [.mk 621 none [.mk 622 none []]])
    (.mk 621 none [.mk 622 none []])
    [.xml_new "rpc" none, .xml_new "username" (some 600), .xml_type_set 601 .CX_ATTR,
      .xml_value_set 601 "anna", .xml_spec_populate_rpc 600, .xml_yang_validate_rpc 600,
      .rpc_callback_call 602, .clicon_rpc_netconf_xml 600]
    rfl rfl (by decide)

/-- C21 does not hold as stated. An rpc with an output section (the
statement 21) whose reply is `<rpc-reply><ok/></rpc-reply>` is answered with
204 No Content; and an rpc without an output section whose reply holds a
parameter is answered with 200 and a body. -/
theorem api_operations_post_output_counterexample :
    (example_operations_io (.mk 610 none []) (.mk 620 none [.mk 621 none [.mk 622 none []]])
      [(621, "rpc-reply"), (622, "ok")] (some 21)).yang_find_output 20 = some 21 ∧
    api_operations_post
      (example_operations_io (.mk 610 none []) (.mk 620 none [.mk 621 none [.mk 622 none []]])
        [(621, "rpc-reply"), (622, "ok")] (some 21)) (some "/ex:reset") none 0 1 1 =
      (0, [.xml_new "rpc" none, .xml_new "username" (some 600), .xml_type_set 601 .CX_ATTR,
        .xml_value_set 601 "anna", .xml_spec_populate_rpc 600, .xml_yang_validate_rpc 600,
        .rpc_callback_call 602, .clicon_rpc_netconf_xml 600,
        .xml_name_set 621 "output", .xml_spec_set 621 21,
        .FCGX_SetExitStatus 204, .FCGX_FPrintF "Status: 204 No Content\r\n",
        .FCGX_FPrintF "\r\n"]) ∧
    (example_operations_io (.mk 610 none []) (.mk 620 none [.mk 621 none [.mk 622 none []]])
      [(621, "rpc-reply")] none).yang_find_output 20 = none ∧
    api_operations_post
      (example_operations_io (.mk 610 none []) (.mk 620 none [.mk 621 none [.mk 622 none []]])
        [(621, "rpc-reply")] none) (some "/ex:reset") none 0 1 1 =
      (0, [.xml_new "rpc" none, .xml_new "username" (some 600), .xml_type_set 601 .CX_ATTR,
        .xml_value_set 601 "anna", .xml_spec_populate_rpc 600, .xml_yang_validate_rpc 600,
        .rpc_callback_call 602, .clicon_rpc_netconf_xml 600,
        .xml_name_set 621 "output", .xmlns_set 621 (some "urn:example"),
        .FCGX_SetExitStatus 200,
        .FCGX_FPrintF "Content-Type: application/yang-data+xml\r\n",
        .FCGX_FPrintF "\r\n",
        .FCGX_FPrintF "<output xmlns=\"urn:example\"><x>0</x></output>",
        .FCGX_FPrintF "\r\n\r\n"]) := by
  decide

end Clixon
